import Mathlib

/-! # Campus delivery vehicle dispatch: mission orchestration and route composition

A shallow embedding of the mission logic of `src/script.js` (route composition,
path clean-up, history storage, the call / load / cancel / emergency handlers)
and theorems about it.

Conventions of the embedding.

* JavaScript numbers (coordinates, distances, durations) are exact rationals.
  The one place where the script computes with `Math.cos` and `Math.sqrt`, the
  closeness test of `extractPathFromRoute`, is a parameter `far last current`
  standing for the script's expression `dist > 0.5`; `planarFar` is that
  expression over rationals, with the cosine factor left as a function.
* The global variables of the script, the pieces of the page that the mission
  logic reads back (select values, transport code text, status display) and
  the stored history are the fields of `State`.
* Calls into the map renderer, the routing provider and the dialog helpers are
  appended to `State.trace` in program order.  Writes that only restyle the page
  (button captions, distance and time labels, marker highlights) are left out.
* The page is taken to contain every element the script looks up by id, and
  `carMarker`, `map` and `riding` are taken to be initialised.
* An asynchronous callback is data: `riding.search` stores a `SearchCallback`
  holding the variables its closure captured, a confirm dialog stores the
  `ConfirmAction` bound to its confirm button, `carMarker.on` stores an
  `ArrivalListener`.  Delivering a provider answer, clicking the confirm button
  and the arrival event are separate transitions.
-/

namespace Dispatch

/-! ## Data model -/

/-- A coordinate pair (longitude, latitude). -/
structure LngLat where
  lng : ℚ
  lat : ℚ
deriving DecidableEq

/-- One step of a provider route; `path` is absent when the field is missing. -/
structure Step where
  path : Option (List LngLat)
deriving DecidableEq

/-- One ride of a provider route. -/
structure Ride where
  path : Option (List LngLat)
  steps : Option (List Step)
deriving DecidableEq

/-- The object `result.routes[0]` of the routing provider. -/
structure Route where
  rides : Option (List Ride)
  steps : Option (List Step)
  path : Option (List LngLat)
  distance : Option ℚ
  time : Option ℚ
deriving DecidableEq

/-- The two arguments `(status, result)` the routing provider passes to a
search callback; `routes` is `none` when `result.routes` is missing. -/
structure SearchResult where
  status : String
  routes : Option (List Route)
deriving DecidableEq

/-- The keywords passed to `updateStatus` by the call sites of the script. -/
inductive StatusKeyword where
  | calculating
  | moving
  | arrived
  | idle
  | error
  | waiting
  | returning
  | emergency
deriving DecidableEq

/-- The JavaScript string of a keyword. -/
def StatusKeyword.toJs : StatusKeyword → String
  | .calculating => "calculating"
  | .moving => "moving"
  | .arrived => "arrived"
  | .idle => "idle"
  | .error => "error"
  | .waiting => "waiting"
  | .returning => "returning"
  | .emergency => "emergency"

/-- The object `{ keyword, text }` kept in `lastStatusState`, also used for the
content of the status display. -/
structure StatusState where
  keyword : StatusKeyword
  text : String
deriving DecidableEq

/-- The object stored in `window.currentMission`. -/
structure Mission where
  pickupName : String
  deliveryName : String
  timestamp : String
deriving DecidableEq

/-- The object stored in `window.pendingDelivery`. -/
structure PendingDelivery where
  pickupPos : LngLat
  deliveryPos : LngLat
  viaPoints : List LngLat
deriving DecidableEq

/-- One entry of the stored history. -/
structure HistoryRecord where
  timestamp : String
  pickup : String
  delivery : String
  status : String
deriving DecidableEq

/-- The value of `localStorage` under `HISTORY_KEY`: nothing (or the empty
string), the JSON text of a list of records, or text `JSON.parse` rejects.
`JSON.parse (JSON.stringify l)` is taken to be `l`. -/
inductive Stored where
  | absent
  | json (records : List HistoryRecord)
  | malformed
deriving DecidableEq

/-- An entry of the table `locations`. -/
structure Location where
  id : String
  name : String
  type : String
  position : LngLat
  disabled : Bool
deriving DecidableEq

/-- The table `locations`. -/
def locations : List Location :=
  [ ⟨"dorm_a", "桃园5-6栋", "dorm", ⟨118.827694, 31.890928⟩, false⟩,
    ⟨"dorm_b", "桃园7-8栋", "dorm", ⟨118.82628, 31.890783⟩, false⟩,
    ⟨"dorm_c", "交通大楼", "office", ⟨118.823748, 31.890009⟩, false⟩,
    ⟨"dorm_d", "兰园宿舍区", "dorm", ⟨118.825223, 31.891883⟩, false⟩,
    ⟨"civil_electronics", "土木楼/电子信息楼", "office", ⟨118.822881, 31.891321⟩, false⟩,
    ⟨"library", "图书馆取还点", "library", ⟨118.819181, 31.88836⟩, false⟩,
    ⟨"traffic_experiment", "交通实验楼", "office", ⟨118.821637, 31.890095⟩, false⟩,
    ⟨"teaching_south", "教学楼南入口", "classroom", ⟨118.823404, 31.886848⟩, true⟩,
    ⟨"material_chem", "材料/化工楼", "office", ⟨118.820567, 31.890035⟩, false⟩ ]

/-! ## Path extraction and clean-up -/

/-- The expression `dist > 0.5` of `extractPathFromRoute` over exact rationals:
`dx = (current.lng - last.lng) * 111000 * cos (last.lat * pi / 180)`,
`dy = (current.lat - last.lat) * 111000`, and `sqrt (dx*dx + dy*dy) > 0.5`
written as `dx*dx + dy*dy > 1/4`.  `cosDeg` stands for the cosine of an angle
given in degrees. -/
def planarFar (cosDeg : ℚ → ℚ) (last current : LngLat) : Bool :=
  let dx := (current.lng - last.lng) * 111000 * cosDeg last.lat
  let dy := (current.lat - last.lat) * 111000
  decide (dx * dx + dy * dy > 1 / 4)

/-- The paths of a list of steps, concatenated onto `path`
(`steps.forEach(step => { if (step.path) path.push(...step.path) })`). -/
def pushSteps (path : List LngLat) (steps : List Step) : List LngLat :=
  steps.foldl (fun acc step =>
    match step.path with
    | some p => acc ++ p
    | none => acc) path

/-- The first half of `extractPathFromRoute`: the raw coordinate sequence of a
route, from `rides`, else from `steps`, else from `path`. -/
def flattenRoute (route : Route) : List LngLat :=
  let path : List LngLat :=
    match route.rides with
    | some rides =>
      rides.foldl (fun acc ride =>
        let acc := match ride.path with
          | some p => acc ++ p
          | none => acc
        match ride.steps with
        | some steps => pushSteps acc steps
        | none => acc) []
    | none => []
  let path : List LngLat :=
    if path.length = 0 then
      match route.steps with
      | some steps => pushSteps path steps
      | none => path
    else path
  if path.length = 0 then
    match route.path with
    | some p => path ++ p
    | none => path
  else path

/-- One turn of the clean-up loop of `extractPathFromRoute`: `current` is kept
when it is far from the last kept point. -/
def cleanStep (far : LngLat → LngLat → Bool) (uniquePath : List LngLat)
    (current : LngLat) : List LngLat :=
  match uniquePath.getLast? with
  | some last => if far last current then uniquePath ++ [current] else uniquePath
  | none => uniquePath

/-- The second half of `extractPathFromRoute`: with more than one point, keep
`path[0]` and then every point that is far from the last kept one. -/
def cleanPath (far : LngLat → LngLat → Bool) (path : List LngLat) : List LngLat :=
  if path.length > 1 then
    match path with
    | [] => []
    | first :: rest => rest.foldl (cleanStep far) [first]
  else path

/-- The function `extractPathFromRoute`. -/
def extractPathFromRoute (far : LngLat → LngLat → Bool) (route : Route) : List LngLat :=
  cleanPath far (flattenRoute route)

/-! ## Merging leg paths -/

/-- The array `fullPath` built by `mergeAndShowPath`: `segments.forEach` with
the index, pushing the whole first segment and `segPath.slice(1)` of the
others. -/
def mergeSegments (segments : List (List LngLat)) : List LngLat :=
  segments.enum.foldl (fun fullPath entry =>
    if entry.1 = 0 then fullPath ++ entry.2 else fullPath ++ entry.2.drop 1) []

/-! ## Mission history -/

/-- The function `getHistoryRecords`: the parsed list, `[]` when nothing is
stored or parsing throws. -/
def getHistoryRecords : Stored → List HistoryRecord
  | .absent => []
  | .json records => records
  | .malformed => []

/-- The function `saveHistoryRecord`; `now` is `new Date().toLocaleString()`.
The result is the new stored value. -/
def saveHistoryRecord (now pickup delivery status : String) (stored : Stored) : Stored :=
  let record : HistoryRecord := ⟨now, pickup, delivery, status⟩
  let history := record :: getHistoryRecords stored
  let history := if history.length > 50 then history.take 50 else history
  .json history

/-! ## Program state -/

/-- The values of `ISLAND_STATES`. -/
inductive IslandState where
  | hidden
  | waiting
  | pickup
  | moving
  | arrived
deriving DecidableEq

/-- The two listeners the script registers for the renderer event `movealong`. -/
inductive ArrivalListener where
  | onArrivePickup
  | onArriveDelivery
deriving DecidableEq

/-- A callback handed to `riding.search`, with the variables its closure
captured.
* `toPickup`: the callback of `planTwoStageRoute`;
* `direct`: the callback of `executeLoadAndContinue` (no via points);
* `planRoute`: the callback of `planRoute`;
* `segment`: the callback inside `planNextSegment`, with `allPoints`,
  `segments`, `totalDistance`, `totalTime` and `currentSegment` of the
  enclosing `planRouteWithWaypoints`. -/
inductive SearchCallback where
  | toPickup
  | direct
  | planRoute
  | segment (allPoints : List LngLat) (segments : List (List LngLat))
      (totalDistance totalTime : ℚ) (currentSegment : Nat)
deriving DecidableEq

/-- The function passed as `onConfirm` to `showConfirmDialog`. -/
inductive ConfirmAction where
  | endCurrentTask
  | executeLoadAndContinue (pending : PendingDelivery)
  | emergencyResume
  | emergencyStop
deriving DecidableEq

/-- Calls that leave the script, in the order they are made. -/
inductive Cmd where
  | search (origin destination : LngLat)
  | mergeAndShowPath (segments : List (List LngLat)) (totalDistance totalTime : ℚ)
  | drawPathPolyline (path : List LngLat)
  | removePolyline
  | setPosition (position : Option LngLat)
  | moveAlong (path : List LngLat) (speed : ℚ)
  | pauseMove
  | resumeMove
  | stopMove
  | rosVehicleStart
  | rosEmergencyStop (stop : Bool)
  | showAlert (message title : String)
  | showConfirmDialog (title message : String)
  | postStopPromptTimer
deriving DecidableEq

/-- The mutable state the mission logic works on. -/
structure State where
  /-- Global `isWeatherBad`. -/
  isWeatherBad : Bool
  /-- Global `isTaskInProgress`. -/
  isTaskInProgress : Bool
  /-- Global `hasPickedUpGoods`. -/
  hasPickedUpGoods : Bool
  /-- Global `isEmergencyStopped`. -/
  isEmergencyStopped : Bool
  /-- Global `lastStatusState`. -/
  lastStatusState : StatusState
  /-- Keyword and text last written to the status display by `updateStatus`. -/
  status : StatusState
  /-- Whether the emergency buttons are disabled. -/
  emergencyBtnDisabled : Bool
  /-- Property `window.pendingDelivery`. -/
  pendingDelivery : Option PendingDelivery
  /-- Property `window.currentMission`. -/
  currentMission : Option Mission
  /-- Text of the element `transport-code`. -/
  transportCode : String
  /-- Global `customViaPoints`. -/
  customViaPoints : List LngLat
  /-- Global `customMarkers`: the positions of the temporary via point markers. -/
  customMarkers : List LngLat
  /-- Whether the pending delivery created last holds, as its `viaPoints`, the
  array object that `customViaPoints` is bound to (so that a later `push`
  shows in both). -/
  viaPointsShared : Bool
  /-- Global `isDrawingCustom`. -/
  isDrawingCustom : Bool
  /-- Value of the element `start-select`. -/
  startSelect : String
  /-- Value of the element `end-select`. -/
  endSelect : String
  /-- Value of the element `mode-select`. -/
  modeSelect : String
  /-- Global `pathPolyline`: the path of the drawn polyline, if any. -/
  pathPolyline : Option (List LngLat)
  /-- Global `isFollowingCar`. -/
  isFollowingCar : Bool
  /-- Section shown by the bottom island. -/
  island : IslandState
  /-- Whether the renderer's marker has a method `pauseMove`. -/
  hasPauseMove : Bool
  /-- Whether the renderer's marker has a method `resumeMove`. -/
  hasResumeMove : Bool
  /-- Item `HISTORY_KEY` of `localStorage`. -/
  storage : Stored
  /-- Search callbacks the routing provider has not answered yet, oldest first. -/
  searchCallbacks : List SearchCallback
  /-- Listeners registered for `movealong`, oldest first. -/
  movealongListeners : List ArrivalListener
  /-- Action bound to the confirm button of the open confirm dialog. -/
  dialog : Option ConfirmAction
  /-- Calls made so far. -/
  trace : List Cmd
deriving DecidableEq

/-- Values the handlers read from outside: `new Date().toLocaleString()`, the
successive values of `Math.random()` and `carMarker.getPosition()`. -/
structure Env where
  now : String
  rand : Nat → ℚ
  carPos : LngLat

/-- Append one call to the trace. -/
def State.emit (s : State) (c : Cmd) : State :=
  { s with trace := s.trace ++ [c] }

/-! ## Status display, alerts and dialogs -/

/-- The function `updateStatus`: remembers every status but the emergency one
in `lastStatusState`, writes the display, and enables the emergency buttons
exactly when the keyword is `calculating`, `moving` or `waiting` or the vehicle
is emergency-stopped. -/
def updateStatus (stateKeyword : StatusKeyword) (text : String) (s : State) : State :=
  let s := if stateKeyword.toJs ≠ "emergency" then
      { s with lastStatusState := ⟨stateKeyword, text⟩ }
    else s
  let isTaskRunning :=
    ["calculating", "moving", "waiting"].contains stateKeyword.toJs
  let shouldEnable := isTaskRunning || s.isEmergencyStopped
  { s with status := ⟨stateKeyword, text⟩, emergencyBtnDisabled := !shouldEnable }

/-- The function `showAlert`: overwriting the message element also removes the
buttons of an open confirm dialog. -/
def showAlert (message title : String) (s : State) : State :=
  { s with dialog := none }.emit (.showAlert message title)

/-- The function `showConfirmDialog`: shows the dialog and binds `onConfirm`
to its confirm button. -/
def showConfirmDialog (title message : String) (onConfirm : ConfirmAction)
    (s : State) : State :=
  { s with dialog := some onConfirm }.emit (.showConfirmDialog title message)

/-- The functions `enableCameraFollow` and `disableCameraFollow`. -/
def setCameraFollow (following : Bool) (s : State) : State :=
  { s with isFollowingCar := following }

/-- The function `updateBottomIsland`. -/
def updateBottomIsland (st : IslandState) (s : State) : State :=
  { s with island := st }

/-- The function `resetCustomPath`: `customViaPoints` and `customMarkers` are
bound to fresh empty arrays. -/
def resetCustomPath (s : State) : State :=
  { s with customViaPoints := [], isDrawingCustom := false, customMarkers := [],
           viaPointsShared := false }

/-! ## Drawing and motion -/

/-- The function `drawPathPolyline`. -/
def drawPathPolyline (path : List LngLat) (s : State) : State :=
  let s := match s.pathPolyline with
    | some _ => s.emit .removePolyline
    | none => s
  { s with pathPolyline := some path }.emit (.drawPathPolyline path)

/-- The function `startCarAnimationToPickup` (the renderer speed is 20). -/
def startCarAnimationToPickup (path : List LngLat) (s : State) : State :=
  let s := updateStatus .moving "前往取货点..." s
  let s := s.emit (.setPosition path.head?)
  let s := s.emit (.moveAlong path 20)
  let s := setCameraFollow true s
  { s with movealongListeners := s.movealongListeners ++ [.onArrivePickup] }

/-- The function `startCarAnimation`. -/
def startCarAnimation (path : List LngLat) (speedKmh : ℚ) (s : State) : State :=
  let s := updateStatus .moving "运输中..." s
  let s := updateBottomIsland .moving s
  let s := s.emit (.setPosition path.head?)
  let s := s.emit (.moveAlong path speedKmh)
  { s with movealongListeners := s.movealongListeners ++ [.onArriveDelivery] }

/-- The body of one `movealong` listener; each removes itself first. -/
def runArrivalListener (l : ArrivalListener) (s : State) : State :=
  let s := { s with movealongListeners := s.movealongListeners.erase l }
  match l with
  | .onArrivePickup =>
    let s := setCameraFollow false s
    let s := updateStatus .waiting "等待装载书籍..." s
    updateBottomIsland .pickup s
  | .onArriveDelivery =>
    let s := updateStatus .arrived "已到达目的地" s
    updateBottomIsland .arrived s

/-- The renderer fires `movealong`: every listener registered at that moment
runs, oldest first. -/
def movealongEvent (s : State) : State :=
  s.movealongListeners.foldl (fun acc l => runArrivalListener l acc) s

/-! ## Route planning -/

/-- The function `mergeAndShowPath`.  The first trace entry marks the call. -/
def mergeAndShowPath (segments : List (List LngLat)) (totalDistance totalTime : ℚ)
    (s : State) : State :=
  let s := s.emit (.mergeAndShowPath segments totalDistance totalTime)
  let fullPath := mergeSegments segments
  let s := drawPathPolyline fullPath s
  startCarAnimation fullPath 20 s

/-- The call `riding.search(origin, destination, callback)`. -/
def ridingSearch (origin destination : LngLat) (callback : SearchCallback)
    (s : State) : State :=
  { s with searchCallbacks := s.searchCallbacks ++ [callback] }.emit
    (.search origin destination)

/-- The inner function `planNextSegment` of `planRouteWithWaypoints`, with the
variables of the enclosing call as arguments. -/
def planNextSegment (allPoints : List LngLat) (segments : List (List LngLat))
    (totalDistance totalTime : ℚ) (currentSegment : Nat) (s : State) : State :=
  if currentSegment ≥ allPoints.length - 1 then
    mergeAndShowPath segments totalDistance totalTime s
  else
    match allPoints[currentSegment]?, allPoints[currentSegment + 1]? with
    | some origin, some destination =>
      ridingSearch origin destination
        (.segment allPoints segments totalDistance totalTime currentSegment) s
    | _, _ => s

/-- The function `planRouteWithWaypoints`. -/
def planRouteWithWaypoints (startLngLat endLngLat : LngLat) (waypoints : List LngLat)
    (s : State) : State :=
  let allPoints := [startLngLat] ++ waypoints ++ [endLngLat]
  planNextSegment allPoints [] 0 0 0 s

/-- The function `onRouteSuccess`. -/
def onRouteSuccess (far : LngLat → LngLat → Bool) (result : SearchResult)
    (s : State) : State :=
  match result.routes.bind List.head? with
  | none =>
    let s := updateStatus .error "未找到可用路径" s
    showAlert "未找到可用路径，请尝试调整起终点" "⚠️ 注意" s
  | some route =>
    let pathArr := extractPathFromRoute far route
    if pathArr.length = 0 then
      let s := updateStatus .error "路径解析失败" s
      showAlert "路径解析失败，请稍后再试" "❌ 错误" s
    else
      let s := drawPathPolyline pathArr s
      startCarAnimation pathArr 20 s

/-- The body of a search callback, run when the provider answers. -/
def runSearchCallback (far : LngLat → LngLat → Bool) (callback : SearchCallback)
    (result : SearchResult) (s : State) : State :=
  match callback with
  | .toPickup =>
    match decide (result.status = "complete"), result.routes.bind List.head? with
    | true, some route =>
      let pathArr := extractPathFromRoute far route
      let s := drawPathPolyline pathArr s
      let s := startCarAnimationToPickup pathArr s
      updateBottomIsland .waiting s
    | _, _ =>
      let s := updateStatus .error "路径计算失败" s
      showAlert "规划到取货点的路径失败" "❌ 错误" s
  | .direct =>
    if result.status = "complete" then
      let s := onRouteSuccess far result s
      setCameraFollow true s
    else
      let s := updateStatus .error "送货路径规划失败" s
      showAlert "送货路径规划失败" "❌ 错误" s
  | .planRoute =>
    if result.status = "complete" then
      onRouteSuccess far result s
    else
      let s := updateStatus .error "路径计算失败" s
      showAlert "路径规划失败，请检查网络或 Key 配额。" "❌ 错误" s
  | .segment allPoints segments totalDistance totalTime currentSegment =>
    match decide (result.status = "complete"), result.routes.bind List.head? with
    | true, some route =>
      let pathArr := extractPathFromRoute far route
      let segments := segments ++ [pathArr]
      let totalDistance := totalDistance + route.distance.getD 0
      let totalTime := totalTime + route.time.getD 0
      let currentSegment := currentSegment + 1
      planNextSegment allPoints segments totalDistance totalTime currentSegment s
    | _, _ =>
      let s := updateStatus .error "路径计算失败" s
      showAlert ("途径点 " ++ toString (currentSegment + 1) ++ " 到下一点的路径规划失败")
        "❌ 错误" s

/-- The routing provider answers the outstanding search at position `i`: the
callback leaves the outstanding list and runs on the answer. -/
def searchReturns (far : LngLat → LngLat → Bool) (i : Nat) (result : SearchResult)
    (s : State) : State :=
  match s.searchCallbacks[i]? with
  | none => s
  | some callback =>
    runSearchCallback far callback result
      { s with searchCallbacks := s.searchCallbacks.eraseIdx i }

/-! ## Mission handlers -/

/-- The alphabet of `generateTransportCode`. -/
def transportChars : String := "ABCDEFGHJKLMNPQRSTUVWXYZ23456789"

/-- The method `chars.charAt(i)`: the empty string outside the range. -/
def charAt (chars : String) (i : ℤ) : String :=
  if i < 0 then ""
  else
    match chars.toList[i.toNat]? with
    | some c => String.singleton c
    | none => ""

/-- The function `generateTransportCode`; `rand i` is the value `Math.random()`
returns in turn `i` of the loop. -/
def generateTransportCode (rand : Nat → ℚ) : String :=
  (List.range 5).foldl (fun code i =>
    code ++ charAt transportChars ⌊rand i * (transportChars.length : ℚ)⌋) ""

/-- The function `planTwoStageRoute`: stores the second stage, shows a fresh
transport code and searches the leg from the vehicle to the pickup point.
`shared` tells whether the argument `viaPoints` is the array `customViaPoints`
itself (custom mode) or a fresh array (automatic mode). -/
def planTwoStageRoute (rand : Nat → ℚ) (carPos pickupPos deliveryPos : LngLat)
    (viaPoints : List LngLat) (shared : Bool) (s : State) : State :=
  let s := { s with pendingDelivery := some ⟨pickupPos, deliveryPos, viaPoints⟩,
                    viaPointsShared := shared }
  let s := { s with transportCode := generateTransportCode rand }
  ridingSearch carPos pickupPos .toPickup s

/-- The function `endCurrentTask`. -/
def endCurrentTask (s : State) : State :=
  let s := s.emit .stopMove
  let s := setCameraFollow false s
  let s := match s.pathPolyline with
    | some _ => { s with pathPolyline := none }.emit .removePolyline
    | none => s
  let s := updateBottomIsland .hidden s
  let s := { s with isTaskInProgress := false, hasPickedUpGoods := false,
                    pendingDelivery := none, currentMission := none }
  let s := resetCustomPath s
  let s := updateStatus .idle "空闲" s
  let s := { s with transportCode := "-----" }
  showAlert "任务已取消，车辆已释放" "ℹ️ 任务取消" s

/-- The function `handleCallCar`, the click handler of the call button.  When
a selected id is not in `locations` the handler stops with a `TypeError` at the
first use of the missing entry, after the flags and the status were set. -/
def handleCallCar (env : Env) (s : State) : State :=
  if s.isTaskInProgress then
    if s.hasPickedUpGoods then
      showAlert "正在运送中，非紧急情况无法结束任务" "⚠️ 无法结束" s
    else
      showConfirmDialog "⚠️ 确认取消任务" "确定要取消当前任务吗？\n车辆将停止并释放。"
        .endCurrentTask s
  else if s.isWeatherBad then
    showAlert "当前天气恶劣（雨/雪），无人车为了安全已暂停服务。请稍后再试。" "⚠️ 暂停运营" s
  else
    let startId := s.startSelect
    let endId := s.endSelect
    let mode := s.modeSelect
    if startId = "" ∨ endId = "" then
      showAlert "请先选择起点和终点！" "⚠️ 注意" s
    else
      let startLoc := locations.find? (fun l => l.id == startId)
      let endLoc := locations.find? (fun l => l.id == endId)
      let carPos := env.carPos
      let s := { s with isTaskInProgress := true, hasPickedUpGoods := false }
      if mode = "custom" then
        let s := updateStatus .calculating "路径计算中..." s
        match startLoc, endLoc with
        | some startLoc, some endLoc =>
          let mission : Mission := ⟨startLoc.name, endLoc.name, env.now⟩
          let s := { s with currentMission := some mission }
          planTwoStageRoute env.rand carPos startLoc.position endLoc.position
            s.customViaPoints true s
        | _, _ => s
      else
        let s := updateStatus .calculating "路径计算中..." s
        match startLoc, endLoc with
        | some startLoc, some endLoc =>
          let mission : Mission := ⟨startLoc.name, endLoc.name, env.now⟩
          let s := { s with currentMission := some mission }
          planTwoStageRoute env.rand carPos startLoc.position endLoc.position [] false s
        | _, _ => s

/-- The function `executeLoadAndContinue`. -/
def executeLoadAndContinue (pending : PendingDelivery) (s : State) : State :=
  let s := s.emit .rosVehicleStart
  let s := { s with hasPickedUpGoods := true }
  let s := updateBottomIsland .moving s
  let s := updateStatus .calculating "规划送货路径..." s
  let s :=
    if pending.viaPoints.length > 0 then
      planRouteWithWaypoints pending.pickupPos pending.deliveryPos pending.viaPoints s
    else
      ridingSearch pending.pickupPos pending.deliveryPos .direct s
  { s with pendingDelivery := none }

/-- The function `confirmLoadAndContinue`, the click handler of the load
confirmation button. -/
def confirmLoadAndContinue (s : State) : State :=
  match s.pendingDelivery with
  | none => showAlert "没有待处理的送货任务" "⚠️ 注意" s
  | some pending =>
    showConfirmDialog "⚠️ 安全确认"
      "车辆即将启动，请注意周围环境安全！\n确认周围安全并立即启动车辆吗？"
      (.executeLoadAndContinue pending) s

/-- The click handler of the delivery confirmation button
(`island-confirm-delivery-btn`); `now` is the time stamp of the record. -/
def confirmDelivery (now : String) (s : State) : State :=
  let s := s.emit .stopMove
  let s := match s.pathPolyline with
    | some _ => { s with pathPolyline := none }.emit .removePolyline
    | none => s
  let s := resetCustomPath s
  let s := { s with pendingDelivery := none }
  let s := { s with isTaskInProgress := false, hasPickedUpGoods := false }
  let s := updateStatus .idle "空闲" s
  let s := updateBottomIsland .hidden s
  let s := match s.currentMission with
    | some mission =>
      let stored :=
        saveHistoryRecord now mission.pickupName mission.deliveryName "成功" s.storage
      { s with storage := stored, currentMission := none }
    | none => s
  let s := { s with transportCode := "-----" }
  showAlert "🎉 订单结束，感谢使用无人书车系统！" "任务完成" s

/-! ## Emergency stop -/

/-- The confirm action of the stop dialog of `handleEmergencyStop`. -/
def confirmedEmergencyStop (s : State) : State :=
  let s := { s with isEmergencyStopped := true }
  let s := s.emit (.rosEmergencyStop true)
  let s := updateStatus .emergency "紧急停车" s
  let s := if s.hasPauseMove then s.emit .pauseMove else s
  s.emit .postStopPromptTimer

/-- The confirm action of the resume dialog of `handleEmergencyStop`. -/
def confirmedEmergencyResume (s : State) : State :=
  let s := { s with isEmergencyStopped := false }
  let s := s.emit (.rosEmergencyStop false)
  let s :=
    if s.lastStatusState.keyword.toJs ≠ "" then
      updateStatus s.lastStatusState.keyword s.lastStatusState.text s
    else
      updateStatus .moving "运输中..." s
  let s := showAlert "无人车已恢复运行" "✅ 恢复成功" s
  if s.hasResumeMove then s.emit .resumeMove else s

/-- The function `handleEmergencyStop`, the click handler of the emergency
buttons: it opens the resume dialog when stopped and the stop dialog
otherwise. -/
def handleEmergencyStop (s : State) : State :=
  if s.isEmergencyStopped then
    showConfirmDialog "确认恢复无人车运行？" "无人车将继续执行当前任务。" .emergencyResume s
  else
    showConfirmDialog "⚠️ 确认紧急停车？" "这将立即停止无人车，请确保必要性。" .emergencyStop s

/-- The timer started by a confirmed stop fires: the prompt it writes into the
alert box replaces an open confirm dialog. -/
def postStopPrompt (s : State) : State :=
  { s with dialog := none }

/-! ## Dialog buttons -/

/-- The body of a confirm action. -/
def runConfirmAction (action : ConfirmAction) (s : State) : State :=
  match action with
  | .endCurrentTask => endCurrentTask s
  | .executeLoadAndContinue pending => executeLoadAndContinue pending s
  | .emergencyResume => confirmedEmergencyResume s
  | .emergencyStop => confirmedEmergencyStop s

/-- A click on the confirm button of the open dialog: the dialog closes and
its action runs. -/
def clickConfirmYes (s : State) : State :=
  match s.dialog with
  | none => s
  | some action => runConfirmAction action { s with dialog := none }

/-- A click on the cancel button of the open dialog. -/
def clickConfirmNo (s : State) : State :=
  { s with dialog := none }

/-! ## Runs of the route composer -/

/-- The routing provider answers, one after the other, the search outstanding
at position `i`. -/
def searchReturnsAll (far : LngLat → LngLat → Bool) (i : Nat)
    (results : List SearchResult) (s : State) : State :=
  results.foldl (fun acc result => searchReturns far i result acc) s

/-- The searches among a list of calls, in order. -/
def searchesOf : List Cmd → List (LngLat × LngLat)
  | [] => []
  | .search origin destination :: rest => (origin, destination) :: searchesOf rest
  | _ :: rest => searchesOf rest

/-- The arguments of the calls of `mergeAndShowPath` among a list of calls. -/
def mergeCallsOf : List Cmd → List (List (List LngLat) × ℚ × ℚ)
  | [] => []
  | .mergeAndShowPath segments d t :: rest => (segments, d, t) :: mergeCallsOf rest
  | _ :: rest => mergeCallsOf rest

/-- The paths handed to `moveAlong` among a list of calls. -/
def moveAlongsOf : List Cmd → List (List LngLat)
  | [] => []
  | .moveAlong path _ :: rest => path :: moveAlongsOf rest
  | _ :: rest => moveAlongsOf rest

/-- The paths handed to `drawPathPolyline` among a list of calls. -/
def drawsOf : List Cmd → List (List LngLat)
  | [] => []
  | .drawPathPolyline path :: rest => path :: drawsOf rest
  | _ :: rest => drawsOf rest

/-- The calls a state has made beyond those of an earlier state. -/
def callsSince (earlier later : State) : List Cmd :=
  later.trace.drop earlier.trace.length

/-- A provider answer on which a leg callback takes its success branch:
status `complete` and a first route. -/
def SearchResult.succeeded (result : SearchResult) : Bool :=
  decide (result.status = "complete") && (result.routes.bind List.head?).isSome

/-! ## Reference descriptions -/

/-- The later legs of a route, each without its first point, concatenated. -/
def dropFirstPoints : List (List LngLat) → List LngLat
  | [] => []
  | seg :: rest => seg.drop 1 ++ dropFirstPoints rest

/-- The merge rule as the specification words it: the first leg, followed in
order by every later leg without its first point; nothing for no legs. -/
def mergedPathSpec : List (List LngLat) → List LngLat
  | [] => []
  | first :: rest => first ++ dropFirstPoints rest

/-- Whether `updateStatus` counts a keyword as a running task
(`calculating`, `moving` or `waiting`). -/
def StatusKeyword.isTaskRunning : StatusKeyword → Bool
  | .calculating => true
  | .moving => true
  | .waiting => true
  | _ => false

/-- The record `saveHistoryRecord` builds from its time stamp and arguments,
given as `(now, pickup, delivery, status)`. -/
def toRecord (entry : String × String × String × String) : HistoryRecord :=
  ⟨entry.1, entry.2.1, entry.2.2.1, entry.2.2.2⟩

/-- Successive calls of `saveHistoryRecord`, one per entry
`(now, pickup, delivery, status)`, first entry first. -/
def saveHistoryRecords (entries : List (String × String × String × String))
    (stored : Stored) : Stored :=
  entries.foldl (fun acc entry =>
    saveHistoryRecord entry.1 entry.2.1 entry.2.2.1 entry.2.2.2 acc) stored

/-- Fifty-one history entries with the time stamps `0` to `50`. -/
def exampleEntries : List (String × String × String × String) :=
  (List.range 51).map (fun i => (toString i, "桃园5-6栋", "图书馆取还点", "成功"))

/-- A full stored history: the records of the first fifty example entries,
newest first. -/
def exampleFullHistory : Stored :=
  .json ((exampleEntries.take 50).map toRecord).reverse

/-- The first route of a provider answer (`result.routes && result.routes[0]`). -/
def firstRoute (result : SearchResult) : Option Route :=
  result.routes.bind List.head?

/-- The cleaned path a leg callback extracts from an answer (empty without a
first route). -/
def legPath (far : LngLat → LngLat → Bool) (result : SearchResult) : List LngLat :=
  match firstRoute result with
  | some route => extractPathFromRoute far route
  | none => []

/-- The running total `totalDistance` after the given answers
(`totalDistance += route.distance || 0` per leg). -/
def sumDistance (results : List SearchResult) : ℚ :=
  results.foldl (fun acc result =>
    acc + ((firstRoute result).bind Route.distance).getD 0) 0

/-- The running total `totalTime` after the given answers. -/
def sumTime (results : List SearchResult) : ℚ :=
  results.foldl (fun acc result =>
    acc + ((firstRoute result).bind Route.time).getD 0) 0

/-- The consecutive pairs of a node sequence: leg `k` goes from node `k` to
node `k + 1`. -/
def legsOf (nodes : List LngLat) : List (LngLat × LngLat) :=
  nodes.zip nodes.tail

/-- The calls `riding.search` of a list of legs. -/
def searchCmds (legs : List (LngLat × LngLat)) : List Cmd :=
  legs.map (fun leg => Cmd.search leg.1 leg.2)

/-- The state of a waypoint route started in `s` once the answers `results`
have arrived and the next leg is being searched: the closure of
`planNextSegment` waits among the outstanding callbacks and the trace has
grown by the searches of the legs `0` to `results.length`. -/
def composerState (far : LngLat → LngLat → Bool) (s : State) (nodes : List LngLat)
    (results : List SearchResult) : State :=
  { s with
    searchCallbacks := s.searchCallbacks ++
      [.segment nodes (results.map (legPath far)) (sumDistance results)
        (sumTime results) results.length],
    trace := s.trace ++ searchCmds ((legsOf nodes).take (results.length + 1)) }

/-! ## Concrete states and answers -/

/-- The state when the script has loaded: the initial values of its globals,
an empty history, no selection, the automatic mode, and the status display and
transport code as `endCurrentTask` resets them. -/
def initialState : State where
  isWeatherBad := false
  isTaskInProgress := false
  hasPickedUpGoods := false
  isEmergencyStopped := false
  lastStatusState := ⟨.idle, "空闲"⟩
  status := ⟨.idle, "空闲"⟩
  emergencyBtnDisabled := true
  pendingDelivery := none
  currentMission := none
  transportCode := "-----"
  customViaPoints := []
  customMarkers := []
  viaPointsShared := false
  isDrawingCustom := false
  startSelect := ""
  endSelect := ""
  modeSelect := "auto"
  pathPolyline := none
  isFollowingCar := false
  island := .hidden
  hasPauseMove := true
  hasResumeMove := true
  storage := .absent
  searchCallbacks := []
  movealongListeners := []
  dialog := none
  trace := []

/-- The closeness test with the cosine factor 1 (latitude 0). -/
def equatorFar : LngLat → LngLat → Bool :=
  planarFar (fun _ => 1)

/-- A successful provider answer whose first route carries the flat path
`path`, the distance 120 and the time 60. -/
def pathAnswer (path : List LngLat) : SearchResult :=
  ⟨"complete", some [⟨none, none, some path, some 120, some 60⟩]⟩

/-- A provider answer with status `complete` whose first route has no rides,
no steps and no path, so that it flattens to the empty path. -/
def emptyPathAnswer : SearchResult :=
  ⟨"complete", some [⟨none, none, none, some 0, some 0⟩]⟩

/-- A failed provider answer. -/
def errorAnswer : SearchResult :=
  ⟨"error", none⟩

/-- A state in the middle of a delivery: task in progress, cargo loaded, the
vehicle moving on the delivery route. -/
def deliveringState : State :=
  { initialState with
    isTaskInProgress := true
    hasPickedUpGoods := true
    lastStatusState := ⟨.moving, "运输中..."⟩
    status := ⟨.moving, "运输中..."⟩
    emergencyBtnDisabled := false
    currentMission := some ⟨"桃园5-6栋", "图书馆取还点", "2024/1/1 10:00:00"⟩
    transportCode := "AB2CD"
    startSelect := "dorm_a"
    endSelect := "library"
    island := .moving
    movealongListeners := [.onArriveDelivery] }

/-- Outside values for the examples: a fixed time stamp, `Math.random()`
always `0`, the vehicle at the position of `dorm_c`. -/
def exampleEnv : Env :=
  ⟨"2024/1/1 10:00:00", fun _ => 0, ⟨118.823748, 31.890009⟩⟩

/-- No two consecutive points of a path fail the test `far` (taken from the
earlier point to the later one, as `extractPathFromRoute` does). -/
def NoClosePair (far : LngLat → LngLat → Bool) (path : List LngLat) : Prop :=
  List.Chain' (fun a b => far a b = true) path

/-- Every leg path but the first starts with the point on which the leg path
before it ends (and the paths on both sides of a joint are non-empty): the
assumption under which `mergeAndShowPath` drops the first point of a leg. -/
def JointsMatch (segments : List (List LngLat)) : Prop :=
  List.Chain' (fun seg next => ∃ p, seg.getLast? = some p ∧ next.head? = some p) segments

/-- The piece each leg contributes to the merged path: the whole first leg,
every later leg without its first point. -/
def mergePieces : List (List LngLat) → List (List LngLat)
  | [] => []
  | first :: rest => first :: rest.map (List.drop 1)

/-- The state in which `dorm_a` is selected as pickup point and `library` as
delivery point, nothing else having happened. -/
def selectedState : State :=
  { initialState with startSelect := "dorm_a", endSelect := "library" }

/-- The answer to the first leg of the joint example: the vehicle comes from
the north along the meridian 0 and the leg ends at latitude 0.00001. -/
def jointAnswerA : SearchResult :=
  pathAnswer [⟨0, 0.001⟩, ⟨0, 0.00001⟩]

/-- The answer to the second leg of the joint example: the provider starts the
leg a third of a metre further north (latitude 0.000013) and continues south
over latitude 0.000007 to latitude -0.001. -/
def jointAnswerB : SearchResult :=
  pathAnswer [⟨0, 0.000013⟩, ⟨0, 0.000007⟩, ⟨0, -0.001⟩]

/-! ## Frames and scenario states -/

/-- The mission data of `after` is that of `before`: the two task flags,
`pendingDelivery`, `currentMission` and the displayed transport code. -/
def SameMission (before after : State) : Prop :=
  after.isTaskInProgress = before.isTaskInProgress
  ∧ after.hasPickedUpGoods = before.hasPickedUpGoods
  ∧ after.pendingDelivery = before.pendingDelivery
  ∧ after.currentMission = before.currentMission
  ∧ after.transportCode = before.transportCode

/-- Between `before` and `after` no routing request was issued: the same
callbacks are outstanding and no call of `riding.search` was made. -/
def NoRouting (before after : State) : Prop :=
  after.searchCallbacks = before.searchCallbacks
  ∧ searchesOf (callsSince before after) = []

/-- The vehicle commands `pauseMove` and `resumeMove` among a list of calls. -/
def pauseResumeOf : List Cmd → List Cmd
  | [] => []
  | .pauseMove :: rest => .pauseMove :: pauseResumeOf rest
  | .resumeMove :: rest => .resumeMove :: pauseResumeOf rest
  | _ :: rest => pauseResumeOf rest

/-- The flag `opt.disabled` that `updateDisabledOptions` writes to the option
with value `value` of one select, `other` being the current value of the other
select: `(opt.value && opt.value === other) || isPermanentlyDisabled`. -/
def optionDisabledAfterUpdate (other value : String) : Bool :=
  let loc := locations.find? (fun l => l.id == value)
  let isPermanentlyDisabled := match loc with
    | some l => l.disabled
    | none => false
  (value != "" && value == other) || isPermanentlyDisabled

/-- The inner function `updateDisabledOptions` of `initControls`, called in
the callback that `checkAndWarn` runs for a changed select (at once, or when
the volunteer dialog is answered): the new flags of the options of the
delivery select (first component) and of the pickup select (second component),
the options being given by their values. -/
def updateDisabledOptions (startVal endVal : String) (endOptions startOptions : List String) :
    List (String × Bool) × List (String × Bool) :=
  (endOptions.map (fun value => (value, optionDisabledAfterUpdate startVal value)),
   startOptions.map (fun value => (value, optionDisabledAfterUpdate endVal value)))

/-- The state in which `dorm_a` is selected both as pickup point and as
delivery point, nothing else having happened. -/
def sameSelectedState : State :=
  { initialState with startSelect := "dorm_a", endSelect := "dorm_a" }

/-- The answer to the leg from the vehicle (at `dorm_c`) to `dorm_a`. -/
def pickupLegAnswer : SearchResult :=
  pathAnswer [⟨118.823748, 31.890009⟩, ⟨118.827694, 31.890928⟩]

/-- The answer to the leg from `dorm_a` to `library`. -/
def deliveryLegAnswer : SearchResult :=
  pathAnswer [⟨118.827694, 31.890928⟩, ⟨118.819181, 31.88836⟩]

/-- Scenario, step 1: the car is called with `dorm_a` and `library` selected;
the leg to the pickup point is being searched. -/
def scenarioCalculating : State :=
  handleCallCar exampleEnv selectedState

/-- Scenario, step 2: the provider has answered, the vehicle is on its way to
the pickup point. -/
def scenarioToPickup : State :=
  searchReturns equatorFar 0 pickupLegAnswer scenarioCalculating

/-- Scenario, step 3: the vehicle has arrived and waits for loading. -/
def scenarioWaiting : State :=
  movealongEvent scenarioToPickup

/-- Scenario, step 4: the load is confirmed (button, then safety dialog); the
delivery leg is being searched. -/
def scenarioLoaded : State :=
  clickConfirmYes (confirmLoadAndContinue scenarioWaiting)

/-- Scenario, step 5: the provider has answered, the vehicle is on its way to
the delivery point. -/
def scenarioToDelivery : State :=
  searchReturns equatorFar 0 deliveryLegAnswer scenarioLoaded

/-- Scenario, step 6: the vehicle has arrived at the delivery point. -/
def scenarioArrived : State :=
  movealongEvent scenarioToDelivery

/-- Scenario, step 7: the delivery is confirmed. -/
def scenarioDone : State :=
  confirmDelivery "2024/1/1 10:30:00" scenarioArrived

/-- The answers on which a search callback takes an error branch: for the
callbacks of `planTwoStageRoute` and `planNextSegment` a status other than
`complete` or no first route; for the callbacks that go through
`onRouteSuccess` also a first route that flattens to the empty path. -/
def legFails (far : LngLat → LngLat → Bool) (callback : SearchCallback)
    (result : SearchResult) : Bool :=
  match callback with
  | .toPickup => !result.succeeded
  | .segment _ _ _ _ _ => !result.succeeded
  | .direct => !(result.succeeded && (legPath far result).length != 0)
  | .planRoute => !(result.succeeded && (legPath far result).length != 0)

/-- The scenario with the delivery leg failing: the load is confirmed and the
provider answers the search of the delivery leg with an error. -/
def scenarioDeliveryFailed : State :=
  searchReturns equatorFar 0 errorAnswer scenarioLoaded

/-- The scenario interrupted on the way to the pickup point by a confirmed
emergency stop. -/
def scenarioStoppedToPickup : State :=
  clickConfirmYes (handleEmergencyStop scenarioToPickup)

/-- The scenario cancelled on the way to the pickup point (call button, then
confirm). -/
def scenarioCancelledToPickup : State :=
  clickConfirmYes (handleCallCar exampleEnv scenarioToPickup)

/-- The values of the options `initControls` adds to each of the two selects:
the ids of `locations`, in order. -/
def locationOptionValues : List String :=
  locations.map (fun loc => loc.id)

/-! ## Geofence, map clicks, weather -/

/-- The constant `geoFencePath`, the ring of the geofence. -/
def geoFencePath : List LngLat :=
  [ ⟨118.81407, 31.890719⟩, ⟨118.813826, 31.886345⟩, ⟨118.81932, 31.886573⟩,
    ⟨118.82352, 31.886801⟩, ⟨118.825095, 31.886879⟩, ⟨118.828425, 31.887076⟩,
    ⟨118.828388, 31.889761⟩, ⟨118.828401, 31.89115⟩, ⟨118.828413, 31.89229⟩,
    ⟨118.825031, 31.891928⟩, ⟨118.822272, 31.891461⟩, ⟨118.820929, 31.891316⟩ ]

/-- The function `isPointInFence`.  `geometryUtil` is the library function
`AMapObj.GeometryUtil.isPointInRing`, absent while the plugin is not loaded, in
which case every point is allowed. -/
def isPointInFence (geometryUtil : Option (LngLat → List LngLat → Bool))
    (position : LngLat) : Bool :=
  match geometryUtil with
  | none => true
  | some isPointInRing => isPointInRing position geoFencePath

/-- The `click` handler of the map in `initControls`.  Outside the custom
draw mode it does nothing; a point outside the fence is answered with an alert
(default title); otherwise the point is pushed onto `customViaPoints` (and so
onto the via points of a pending delivery that holds the same array, also in
the load dialog that captured that pending delivery) and a marker is pushed
onto `customMarkers`. -/
def mapClick (geometryUtil : Option (LngLat → List LngLat → Bool)) (lnglat : LngLat)
    (s : State) : State :=
  if !s.isDrawingCustom || s.modeSelect != "custom" then s
  else if !isPointInFence geometryUtil lnglat then
    showAlert "⚠️ 警告：该区域超出无人车运行范围（电子围栏）\n请选择围栏内的位置！" "提示" s
  else
    let viaPoints := s.customViaPoints ++ [lnglat]
    let s := { s with customViaPoints := viaPoints }
    let s :=
      if s.viaPointsShared then
        let pending := s.pendingDelivery.map (fun p => { p with viaPoints := viaPoints })
        let dialog := s.dialog.map (fun action =>
          match action with
          | .executeLoadAndContinue p => .executeLoadAndContinue { p with viaPoints := viaPoints }
          | other => other)
        { s with pendingDelivery := pending, dialog := dialog }
      else s
    { s with customMarkers := s.customMarkers ++ [lnglat] }

/-- The state change of `handleBadWeather`. -/
def handleBadWeather (s : State) : State :=
  { s with isWeatherBad := true }

/-- A stand-in for the library function `isPointInRing` in the examples: the
point lies between the least and the greatest longitude and between the least
and the greatest latitude of the ring. -/
def inRingBox (position : LngLat) (ring : List LngLat) : Bool :=
  ring.any (fun a => decide (a.lng ≤ position.lng))
  && ring.any (fun a => decide (position.lng ≤ a.lng))
  && ring.any (fun a => decide (a.lat ≤ position.lat))
  && ring.any (fun a => decide (position.lat ≤ a.lat))

/-- The initial state after the custom mode was chosen and the draw button
pressed. -/
def drawingState : State :=
  { initialState with
    isDrawingCustom := true
    modeSelect := "custom"
    lastStatusState := ⟨.idle, "点选途径点中..."⟩
    status := ⟨.idle, "点选途径点中..."⟩ }

/-! ## Random start position -/

/-- The shape of the constant `campusBounds`. -/
structure Bounds where
  minLng : ℚ
  maxLng : ℚ
  minLat : ℚ
  maxLat : ℚ

/-- The constant `campusBounds`. -/
def campusBounds : Bounds :=
  ⟨118.818, 118.828, 31.885, 31.892⟩

/-- The candidate point drawn in turn `k` (counted from 0) of the loop of
`getRandomCampusPosition`; the turn uses the draws `2 * k` and `2 * k + 1` of
`Math.random()`.  The arithmetic is exact here, while the script rounds every
product and sum to a double: for a draw just below 1 the rounded results are
the upper bounds themselves, which is the value this definition takes for a
draw of 1. -/
def candidate (rand : Nat → ℚ) (k : Nat) : LngLat :=
  ⟨campusBounds.minLng + rand (2 * k) * (campusBounds.maxLng - campusBounds.minLng),
   campusBounds.minLat + rand (2 * k + 1) * (campusBounds.maxLat - campusBounds.minLat)⟩

/-- The `do ... while` loop of `getRandomCampusPosition`, entered with the
given value of `safeGuard`; the first argument bounds the number of turns.
The result is the point returned together with the final value of
`safeGuard`, the number of candidates drawn; `none` when the bound is used up
before the loop ends. -/
def randomPositionLoop (inFence : LngLat → Bool) (rand : Nat → ℚ) :
    Nat → Nat → Option (LngLat × Nat)
  | 0, _ => none
  | fuel + 1, safeGuard =>
    let position := candidate rand safeGuard
    let safeGuard := safeGuard + 1
    if !inFence position && safeGuard < 20 then
      randomPositionLoop inFence rand fuel safeGuard
    else some (position, safeGuard)

/-- The function `getRandomCampusPosition`; `inFence` is `isPointInFence`. -/
def getRandomCampusPosition (inFence : LngLat → Bool) (rand : Nat → ℚ) :
    Option (LngLat × Nat) :=
  randomPositionLoop inFence rand 20 0

/-! ## Reference descriptions: totals and flattening -/

/-- The distance a leg contributes to the total: `route.distance` of the first
route of its answer, a missing value counting as 0. -/
def legDistance (result : SearchResult) : ℚ :=
  match firstRoute result with
  | some route => route.distance.getD 0
  | none => 0

/-- The time a leg contributes to the total: `route.time` of the first route of
its answer, a missing value counting as 0. -/
def legTime (result : SearchResult) : ℚ :=
  match firstRoute result with
  | some route => route.time.getD 0
  | none => 0

/-- The points of the steps of a list of steps, in order (a step without
`path` gives none). -/
def stepsPoints (steps : List Step) : List LngLat :=
  (steps.map (fun step => step.path.getD [])).flatten

/-- The points of one ride as the specification words it: the path of the
ride itself followed by the paths of its steps. -/
def ridePoints (ride : Ride) : List LngLat :=
  ride.path.getD [] ++ stepsPoints (ride.steps.getD [])

/-- The raw path of a route as the specification words it: the points of the
rides when there are any, otherwise the points of the steps of the route when
there are any, otherwise `route.path`, and nothing for a route with none of
these. -/
def flattenSpec (route : Route) : List LngLat :=
  let fromRides := ((route.rides.getD []).map ridePoints).flatten
  let fromSteps := stepsPoints (route.steps.getD [])
  if fromRides ≠ [] then fromRides
  else if fromSteps ≠ [] then fromSteps
  else route.path.getD []

/-! ## Flags, steps and reachable states -/

/-- From `before` to `after` the task flags, the mission data, the emergency
flag and the selections are unchanged, and the confirm dialog is either
unchanged or closed. -/
def KeepsFlags (before after : State) : Prop :=
  after.isTaskInProgress = before.isTaskInProgress
  ∧ after.hasPickedUpGoods = before.hasPickedUpGoods
  ∧ after.pendingDelivery = before.pendingDelivery
  ∧ after.currentMission = before.currentMission
  ∧ after.transportCode = before.transportCode
  ∧ after.isEmergencyStopped = before.isEmergencyStopped
  ∧ after.startSelect = before.startSelect
  ∧ after.endSelect = before.endSelect
  ∧ (after.dialog = before.dialog ∨ after.dialog = none)

/-! ## Page events -/

/-- The scenario interrupted during the route calculation by a confirmed
emergency stop: the search of the leg to the pickup point is outstanding. -/
def scenarioStoppedCalculating : State :=
  clickConfirmYes (handleEmergencyStop scenarioCalculating)

/-- The `change` handler of `start-select`, the element holding the chosen
value already.  When `checkAndWarn` asks for confirmation (a library without
volunteers, `asksVolunteer`), the dialog it opens replaces the open one; its
buttons only write the select, so no mission action is bound afterwards. -/
def changeStartSelect (value : String) (asksVolunteer : Bool) (s : State) : State :=
  let s := { s with startSelect := value }
  if asksVolunteer then { s with dialog := none } else s

/-- The `change` handler of `end-select`; see `changeStartSelect`. -/
def changeEndSelect (value : String) (asksVolunteer : Bool) (s : State) : State :=
  let s := { s with endSelect := value }
  if asksVolunteer then { s with dialog := none } else s

/-- The `change` handler of `mode-select`, the element holding the chosen
value already: the draw mode is switched off. -/
def changeModeSelect (value : String) (s : State) : State :=
  { s with modeSelect := value, isDrawingCustom := false }

/-- The click handler of the draw button. -/
def drawButtonClick (s : State) : State :=
  let s := { s with isDrawingCustom := true }
  let s := updateStatus .idle "点选途径点中..." s
  showAlert "请在地图上依次点击要经过的途径点（可选），再点击“呼叫无人车”。" "ℹ️ 操作提示" s

/-- The state change of the fair weather branch of the weather callback. -/
def handleFairWeather (s : State) : State :=
  { s with isWeatherBad := false }

/-- What can happen on the page: the user changes a select, presses a button
or clicks on the map, the routing provider answers the outstanding search at
a position, the renderer fires `movealong`, a weather report comes in, or the
timer started by a confirmed stop fires. -/
inductive Event where
  | startSelected (value : String) (asksVolunteer : Bool)
  | endSelected (value : String) (asksVolunteer : Bool)
  | modeSelected (value : String)
  | drawButton
  | clearButton
  | mapClicked (geometryUtil : Option (LngLat → List LngLat → Bool)) (lnglat : LngLat)
  | callButton (env : Env)
  | confirmYes
  | confirmNo
  | loadButton
  | deliveryButton (now : String)
  | emergencyButton
  | searchAnswered (i : Nat) (result : SearchResult)
  | movealong
  | weather (bad : Bool)
  | postStopTimer

/-- The handler that runs on an event. -/
def fire (far : LngLat → LngLat → Bool) (e : Event) (s : State) : State :=
  match e with
  | .startSelected value asksVolunteer => changeStartSelect value asksVolunteer s
  | .endSelected value asksVolunteer => changeEndSelect value asksVolunteer s
  | .modeSelected value => changeModeSelect value s
  | .drawButton => drawButtonClick s
  | .clearButton => resetCustomPath s
  | .mapClicked geometryUtil lnglat => mapClick geometryUtil lnglat s
  | .callButton env => handleCallCar env s
  | .confirmYes => clickConfirmYes s
  | .confirmNo => clickConfirmNo s
  | .loadButton => confirmLoadAndContinue s
  | .deliveryButton now => confirmDelivery now s
  | .emergencyButton => handleEmergencyStop s
  | .searchAnswered i result => searchReturns far i result s
  | .movealong => movealongEvent s
  | .weather bad => if bad then handleBadWeather s else handleFairWeather s
  | .postStopTimer => postStopPrompt s

/-- The state after a sequence of events, oldest first. -/
def run (far : LngLat → LngLat → Bool) (events : List Event) (s : State) : State :=
  events.foldl (fun acc e => fire far e acc) s

/-- A value a location select can hold: the empty value of the placeholder or
the id of an entry of `locations`. -/
def IsOptionValue (value : String) : Prop :=
  value = "" ∨ value ∈ locationOptionValues

/-- The value an event selects for a location, if it selects one, is a value
the select can hold. -/
def Event.idsInTable : Event → Prop
  | .startSelected value _ => IsOptionValue value
  | .endSelected value _ => IsOptionValue value
  | _ => True

/-- The consistency of the mission flags: the cargo is loaded only during a
task, a task is in progress exactly when a current mission record exists, and
a pending delivery exists only during a task with the cargo not yet loaded. -/
def FlagsConsistent (s : State) : Prop :=
  (s.hasPickedUpGoods = true → s.isTaskInProgress = true)
  ∧ (s.isTaskInProgress = true ↔ s.currentMission.isSome = true)
  ∧ (s.pendingDelivery.isSome = true →
      s.isTaskInProgress = true ∧ s.hasPickedUpGoods = false)

/-- What holds along every run besides the consistency of the flags: the
selects hold option values, and a load dialog is open only during a task. -/
def MissionInvariant (s : State) : Prop :=
  FlagsConsistent s
  ∧ IsOptionValue s.startSelect
  ∧ IsOptionValue s.endSelect
  ∧ ∀ p, s.dialog = some (.executeLoadAndContinue p) → s.isTaskInProgress = true

/-- The events of the delivery scenario up to the confirmed load. -/
def scenarioEvents : List Event :=
  [ .startSelected "dorm_a" false, .endSelected "library" false, .callButton exampleEnv,
    .searchAnswered 0 pickupLegAnswer, .movealong, .loadButton, .confirmYes ]

/-- The scenario cancelled on the way to the pickup point, followed by a
second request for the same mission whose leg to the pickup point the provider
has answered. -/
def scenarioCalledAgain : State :=
  searchReturns equatorFar 0 pickupLegAnswer
    (handleCallCar exampleEnv scenarioCancelledToPickup)

/-! ## Theorems: merging leg paths -/

theorem mergeSegments_foldl_succ (segs : List (List LngLat)) (n : Nat)
    (acc : List LngLat) :
    (segs.enumFrom (n + 1)).foldl (fun fullPath entry =>
      if entry.1 = 0 then fullPath ++ entry.2 else fullPath ++ entry.2.drop 1) acc
      = acc ++ dropFirstPoints segs := by
  induction segs generalizing n acc with
  | nil => simp [dropFirstPoints]
  | cons seg rest ih =>
    simp only [List.enumFrom_cons, List.foldl_cons]
    rw [ih]
    simp [dropFirstPoints]

theorem mergeSegments_eq_spec (segments : List (List LngLat)) :
    mergeSegments segments = mergedPathSpec segments := by
  cases segments with
  | nil => rfl
  | cons first rest =>
    simp only [mergeSegments, List.enum, List.enumFrom_cons, List.foldl_cons]
    rw [mergeSegments_foldl_succ]
    simp [mergedPathSpec]

theorem callsSince_of_trace (s t : State) (calls : List Cmd)
    (h : t.trace = s.trace ++ calls) : callsSince s t = calls := by
  simp [callsSince, h]

theorem updateStatus_eq (k : StatusKeyword) (text : String) (s : State) :
    updateStatus k text s =
      { s with
        lastStatusState := if k = .emergency then s.lastStatusState else ⟨k, text⟩,
        status := ⟨k, text⟩,
        emergencyBtnDisabled := !(k.isTaskRunning || s.isEmergencyStopped) } := by
  cases k <;> rfl

theorem mergeAndShowPath_trace (segments : List (List LngLat)) (d t : ℚ) (s : State) :
    (mergeAndShowPath segments d t s).trace =
      s.trace ++ (.mergeAndShowPath segments d t ::
        ((match s.pathPolyline with
          | some _ => [Cmd.removePolyline]
          | none => []) ++
        [.drawPathPolyline (mergeSegments segments),
         .setPosition (mergeSegments segments).head?,
         .moveAlong (mergeSegments segments) 20])) := by
  cases hp : s.pathPolyline <;>
    simp [mergeAndShowPath, drawPathPolyline, startCarAnimation, updateStatus_eq,
      updateBottomIsland, State.emit, hp]

/-- C1: the path `mergeAndShowPath` draws and the path it animates are both
the first leg followed, in order, by each later leg without its first point;
for no legs the merged path is empty. -/
theorem mergeAndShowPath_draws_merged (segments : List (List LngLat)) (d t : ℚ)
    (s : State) :
    drawsOf (callsSince s (mergeAndShowPath segments d t s)) = [mergedPathSpec segments]
    ∧ moveAlongsOf (callsSince s (mergeAndShowPath segments d t s))
        = [mergedPathSpec segments]
    ∧ (mergeAndShowPath segments d t s).pathPolyline = some (mergedPathSpec segments)
    ∧ mergeSegments segments = mergedPathSpec segments
    ∧ mergeSegments [] = [] := by
  have hm := mergeSegments_eq_spec segments
  rw [callsSince_of_trace s _ _ (mergeAndShowPath_trace segments d t s)]
  refine ⟨?_, ?_, ?_, hm, rfl⟩
  · cases s.pathPolyline <;> simp [drawsOf, hm]
  · cases s.pathPolyline <;> simp [moveAlongsOf, hm]
  · cases hp : s.pathPolyline <;>
      simp [mergeAndShowPath, drawPathPolyline, startCarAnimation, updateStatus_eq,
        updateBottomIsland, State.emit, hp, hm]

/-! ## Theorems: mission history -/

theorem getHistoryRecords_save (now pickup delivery status : String) (stored : Stored) :
    getHistoryRecords (saveHistoryRecord now pickup delivery status stored)
      = (⟨now, pickup, delivery, status⟩ :: getHistoryRecords stored).take 50 := by
  simp only [saveHistoryRecord, getHistoryRecords]
  split
  · rfl
  · rename_i h
    rw [List.take_of_length_le (by simpa using h)]

theorem take_append_take (n : Nat) (front back : List HistoryRecord) :
    (front ++ back.take n).take n = (front ++ back).take n := by
  rw [List.take_append_eq_append_take, List.take_append_eq_append_take, List.take_take]
  congr 2
  omega

theorem getHistoryRecords_saveHistoryRecords
    (entries : List (String × String × String × String)) (stored : Stored)
    (h : (getHistoryRecords stored).length ≤ 50) :
    getHistoryRecords (saveHistoryRecords entries stored)
      = ((entries.map toRecord).reverse ++ getHistoryRecords stored).take 50 := by
  induction entries generalizing stored with
  | nil => simp [saveHistoryRecords, List.take_of_length_le h]
  | cons entry rest ih =>
    have hstep : (getHistoryRecords
        (saveHistoryRecord entry.1 entry.2.1 entry.2.2.1 entry.2.2.2 stored)).length ≤ 50 := by
      rw [getHistoryRecords_save]
      simp [List.length_take]
    have := ih _ hstep
    simp only [saveHistoryRecords, List.foldl_cons] at this ⊢
    rw [this, getHistoryRecords_save, take_append_take]
    simp [toRecord]

/-- C6: reading the history right after `saveHistoryRecord (pickup, delivery,
status)` gives a list whose first entry carries exactly that pickup, delivery
and status, followed by the entries stored before, in their order, as far as
the cap of 50 allows. -/
theorem history_read_after_save (now pickup delivery status : String) (stored : Stored) :
    getHistoryRecords (saveHistoryRecord now pickup delivery status stored)
      = ⟨now, pickup, delivery, status⟩ :: (getHistoryRecords stored).take 49
    ∧ (getHistoryRecords (saveHistoryRecord now pickup delivery status stored)).head?
      = some ⟨now, pickup, delivery, status⟩ := by
  rw [getHistoryRecords_save]
  simp

/-- C7: after `saveHistoryRecord` the stored history holds at most 50
entries; from a stored list of length `m ≤ 50` the new length is
`min (m + 1) 50`; from a list of length 50 the new list is the new record
followed by the old list without its last (oldest) entry; and 51 calls from an
empty history leave exactly 50 entries, those of calls 2 to 51, newest first,
so the first record made is gone. -/
theorem history_capped_at_50 (now pickup delivery status : String) (stored : Stored)
    (entries : List (String × String × String × String)) :
    (getHistoryRecords (saveHistoryRecord now pickup delivery status stored)).length ≤ 50
    ∧ ((getHistoryRecords stored).length ≤ 50 →
        (getHistoryRecords (saveHistoryRecord now pickup delivery status stored)).length
          = min ((getHistoryRecords stored).length + 1) 50)
    ∧ ((getHistoryRecords stored).length = 50 →
        getHistoryRecords (saveHistoryRecord now pickup delivery status stored)
          = ⟨now, pickup, delivery, status⟩ :: (getHistoryRecords stored).dropLast)
    ∧ (entries.length = 51 →
        (getHistoryRecords (saveHistoryRecords entries .absent)).length = 50
        ∧ getHistoryRecords (saveHistoryRecords entries .absent)
            = (entries.tail.map toRecord).reverse
        ∧ (∀ first ∈ entries.head?, toRecord first ∉ entries.tail.map toRecord →
            toRecord first ∉ getHistoryRecords (saveHistoryRecords entries .absent))) := by
  rw [getHistoryRecords_save]
  refine ⟨by simp [List.length_take], ?_, ?_, ?_⟩
  · intro _
    rw [List.length_take, List.length_cons]
    omega
  · intro h
    simp [List.dropLast_eq_take, h]
  · intro h
    have hall := getHistoryRecords_saveHistoryRecords entries .absent (by simp [getHistoryRecords])
    cases entries with
    | nil => simp at h
    | cons first rest =>
      have hrest : rest.length = 50 := by simpa using h
      have heq : getHistoryRecords (saveHistoryRecords (first :: rest) .absent)
          = (rest.map toRecord).reverse := by
        rw [hall]
        simp only [getHistoryRecords, List.append_nil, List.map_cons, List.reverse_cons]
        rw [List.take_append_eq_append_take]
        simp [hrest]
      refine ⟨by rw [heq]; simp [hrest], by simpa using heq, ?_⟩
      intro f hf hnot
      rw [heq]
      simp only [List.head?_cons, Option.mem_def, Option.some.injEq] at hf
      subst hf
      simpa using hnot

/-- Witness for C7: a full history of fifty records receives one more record,
and fifty-one records are saved into an empty history. -/
theorem history_capped_at_50_witness :
    (getHistoryRecords exampleFullHistory).length = 50
    ∧ exampleEntries.length = 51
    ∧ (getHistoryRecords
        (saveHistoryRecord "50" "桃园5-6栋" "图书馆取还点" "成功" exampleFullHistory)).length
        = min ((getHistoryRecords exampleFullHistory).length + 1) 50
    ∧ getHistoryRecords
        (saveHistoryRecord "50" "桃园5-6栋" "图书馆取还点" "成功" exampleFullHistory)
        = ⟨"50", "桃园5-6栋", "图书馆取还点", "成功"⟩
            :: (getHistoryRecords exampleFullHistory).dropLast
    ∧ (getHistoryRecords (saveHistoryRecords exampleEntries .absent)).length = 50
    ∧ getHistoryRecords (saveHistoryRecords exampleEntries .absent)
        = (exampleEntries.tail.map toRecord).reverse :=
  have hfull : (getHistoryRecords exampleFullHistory).length = 50 := by decide
  have hlen : exampleEntries.length = 51 := by decide
  have h := history_capped_at_50 "50" "桃园5-6栋" "图书馆取还点" "成功"
    exampleFullHistory exampleEntries
  ⟨hfull, hlen, h.2.1 (le_of_eq hfull), h.2.2.1 hfull, (h.2.2.2 hlen).1, (h.2.2.2 hlen).2.1⟩

/-! ## Theorems: the route composer -/

theorem legsOf_getElem? (nodes : List LngLat) (k : Nat) (h : k + 1 < nodes.length) :
    (legsOf nodes)[k]? = some (nodes[k], nodes[k + 1]) := by
  simp [legsOf, List.getElem?_zip_eq_some, List.getElem?_eq_getElem, h,
    Nat.lt_of_succ_lt h]

theorem legsOf_length (nodes : List LngLat) : (legsOf nodes).length = nodes.length - 1 := by
  simp [legsOf]

theorem sumDistance_concat (results : List SearchResult) (r : SearchResult) :
    sumDistance (results ++ [r])
      = sumDistance results + ((firstRoute r).bind Route.distance).getD 0 := by
  simp [sumDistance, List.foldl_append]

theorem sumTime_concat (results : List SearchResult) (r : SearchResult) :
    sumTime (results ++ [r])
      = sumTime results + ((firstRoute r).bind Route.time).getD 0 := by
  simp [sumTime, List.foldl_append]

theorem planNextSegment_search (nodes : List LngLat) (segs : List (List LngLat))
    (d t : ℚ) (k : Nat) (s : State) (h : k + 1 < nodes.length) :
    planNextSegment nodes segs d t k s
      = ridingSearch nodes[k] nodes[k + 1] (.segment nodes segs d t k) s := by
  have h1 : ¬ (k ≥ nodes.length - 1) := by omega
  simp [planNextSegment, h1, List.getElem?_eq_getElem, h, Nat.lt_of_succ_lt h]

theorem planNextSegment_merge (nodes : List LngLat) (segs : List (List LngLat))
    (d t : ℚ) (k : Nat) (s : State) (h : nodes.length ≤ k + 1) :
    planNextSegment nodes segs d t k s = mergeAndShowPath segs d t s := by
  have h1 : k ≥ nodes.length - 1 := by omega
  simp [planNextSegment, h1]

theorem planRouteWithWaypoints_eq (far : LngLat → LngLat → Bool) (s : State)
    (startLngLat endLngLat : LngLat) (waypoints : List LngLat) :
    planRouteWithWaypoints startLngLat endLngLat waypoints s
      = composerState far s ([startLngLat] ++ waypoints ++ [endLngLat]) [] := by
  have hlen : 0 + 1 < ([startLngLat] ++ waypoints ++ [endLngLat]).length := by simp
  rw [planRouteWithWaypoints, planNextSegment_search _ _ _ _ _ _ hlen]
  cases waypoints <;>
    simp [composerState, ridingSearch, State.emit, legsOf, sumDistance, sumTime,
      searchCmds]

theorem runSegment_success (far : LngLat → LngLat → Bool) (nodes : List LngLat)
    (segs : List (List LngLat)) (d t : ℚ) (k : Nat) (r : SearchResult) (s : State)
    (hr : r.succeeded = true) :
    runSearchCallback far (.segment nodes segs d t k) r s
      = planNextSegment nodes (segs ++ [legPath far r])
          (d + ((firstRoute r).bind Route.distance).getD 0)
          (t + ((firstRoute r).bind Route.time).getD 0) (k + 1) s := by
  simp only [SearchResult.succeeded, Bool.and_eq_true, decide_eq_true_eq] at hr
  obtain ⟨hs, hroute⟩ := hr
  obtain ⟨route, hroute⟩ := Option.isSome_iff_exists.mp hroute
  simp [runSearchCallback, hs, hroute, legPath, firstRoute]

theorem composerState_deliver (far : LngLat → LngLat → Bool) (s : State)
    (nodes : List LngLat) (results : List SearchResult) (r : SearchResult) :
    searchReturns far s.searchCallbacks.length r (composerState far s nodes results)
      = runSearchCallback far
          (.segment nodes (results.map (legPath far)) (sumDistance results)
            (sumTime results) results.length) r
          { s with trace := s.trace ++
              searchCmds ((legsOf nodes).take (results.length + 1)) } := by
  simp [searchReturns, composerState, List.eraseIdx_append_of_length_le]

theorem composerState_step (far : LngLat → LngLat → Bool) (s : State)
    (nodes : List LngLat) (results : List SearchResult) (r : SearchResult)
    (hr : r.succeeded = true) (h : results.length + 2 < nodes.length) :
    searchReturns far s.searchCallbacks.length r (composerState far s nodes results)
      = composerState far s nodes (results ++ [r]) := by
  rw [composerState_deliver, runSegment_success _ _ _ _ _ _ _ _ hr,
    planNextSegment_search _ _ _ _ _ _ h]
  have hleg := legsOf_getElem? nodes (results.length + 1) h
  simp [composerState, ridingSearch, State.emit, sumDistance_concat, sumTime_concat,
    List.take_succ, hleg, searchCmds]

theorem composerState_finish (far : LngLat → LngLat → Bool) (s : State)
    (nodes : List LngLat) (results : List SearchResult) (r : SearchResult)
    (hr : r.succeeded = true) (h : results.length + 2 = nodes.length) :
    searchReturns far s.searchCallbacks.length r (composerState far s nodes results)
      = mergeAndShowPath ((results ++ [r]).map (legPath far))
          (sumDistance (results ++ [r])) (sumTime (results ++ [r]))
          { s with trace := s.trace ++ searchCmds (legsOf nodes) } := by
  rw [composerState_deliver, runSegment_success _ _ _ _ _ _ _ _ hr,
    planNextSegment_merge _ _ _ _ _ _ (by omega)]
  have hall : (legsOf nodes).take (results.length + 1) = legsOf nodes :=
    List.take_of_length_le (by rw [legsOf_length]; omega)
  simp [sumDistance_concat, sumTime_concat, hall]

theorem searchReturnsAll_concat (far : LngLat → LngLat → Bool) (i : Nat)
    (results : List SearchResult) (r : SearchResult) (s : State) :
    searchReturnsAll far i (results ++ [r]) s
      = searchReturns far i r (searchReturnsAll far i results s) := by
  simp [searchReturnsAll, List.foldl_append]

theorem searchReturnsAll_composer (far : LngLat → LngLat → Bool) (s : State)
    (nodes : List LngLat) (results : List SearchResult)
    (hok : ∀ r ∈ results, r.succeeded = true) (h : results.length + 1 < nodes.length) :
    searchReturnsAll far s.searchCallbacks.length results (composerState far s nodes [])
      = composerState far s nodes results := by
  induction results using List.reverseRecOn with
  | nil => rfl
  | append_singleton init r ih =>
    have hlen : init.length + 2 < nodes.length := by simpa using h
    rw [searchReturnsAll_concat, ih (fun x hx => hok x (by simp [hx])) (by omega)]
    exact composerState_step far s nodes init r (hok r (by simp)) hlen

theorem searchesOf_append (a b : List Cmd) :
    searchesOf (a ++ b) = searchesOf a ++ searchesOf b := by
  induction a with
  | nil => rfl
  | cons c rest ih => cases c <;> simp [searchesOf, ih]

theorem mergeCallsOf_append (a b : List Cmd) :
    mergeCallsOf (a ++ b) = mergeCallsOf a ++ mergeCallsOf b := by
  induction a with
  | nil => rfl
  | cons c rest ih => cases c <;> simp [mergeCallsOf, ih]

theorem searchesOf_searchCmds (legs : List (LngLat × LngLat)) :
    searchesOf (searchCmds legs) = legs := by
  induction legs with
  | nil => rfl
  | cons leg rest ih =>
    simp only [searchCmds, List.map_cons, searchesOf] at ih ⊢
    rw [ih]

theorem mergeCallsOf_searchCmds (legs : List (LngLat × LngLat)) :
    mergeCallsOf (searchCmds legs) = [] := by
  induction legs with
  | nil => rfl
  | cons leg rest ih =>
    simp only [searchCmds, List.map_cons, mergeCallsOf] at ih ⊢
    exact ih

theorem moveAlongsOf_append (a b : List Cmd) :
    moveAlongsOf (a ++ b) = moveAlongsOf a ++ moveAlongsOf b := by
  induction a with
  | nil => rfl
  | cons c rest ih => cases c <;> simp [moveAlongsOf, ih]

theorem drawsOf_append (a b : List Cmd) :
    drawsOf (a ++ b) = drawsOf a ++ drawsOf b := by
  induction a with
  | nil => rfl
  | cons c rest ih => cases c <;> simp [drawsOf, ih]

theorem moveAlongsOf_searchCmds (legs : List (LngLat × LngLat)) :
    moveAlongsOf (searchCmds legs) = [] := by
  induction legs with
  | nil => rfl
  | cons leg rest ih =>
    simp only [searchCmds, List.map_cons, moveAlongsOf] at ih ⊢
    exact ih

theorem drawsOf_searchCmds (legs : List (LngLat × LngLat)) :
    drawsOf (searchCmds legs) = [] := by
  induction legs with
  | nil => rfl
  | cons leg rest ih =>
    simp only [searchCmds, List.map_cons, drawsOf] at ih ⊢
    exact ih

theorem composer_run_unfinished (far : LngLat → LngLat → Bool) (s : State)
    (startLngLat endLngLat : LngLat) (waypoints : List LngLat)
    (results : List SearchResult) (hok : ∀ r ∈ results, r.succeeded = true)
    (h : results.length ≤ waypoints.length) :
    searchReturnsAll far s.searchCallbacks.length results
        (planRouteWithWaypoints startLngLat endLngLat waypoints s)
      = composerState far s ([startLngLat] ++ waypoints ++ [endLngLat]) results := by
  rw [planRouteWithWaypoints_eq far]
  exact searchReturnsAll_composer far s _ results hok (by simp; omega)

theorem composer_run_finished (far : LngLat → LngLat → Bool) (s : State)
    (startLngLat endLngLat : LngLat) (waypoints : List LngLat)
    (results : List SearchResult) (hok : ∀ r ∈ results, r.succeeded = true)
    (h : results.length = waypoints.length + 1) :
    searchReturnsAll far s.searchCallbacks.length results
        (planRouteWithWaypoints startLngLat endLngLat waypoints s)
      = mergeAndShowPath (results.map (legPath far)) (sumDistance results)
          (sumTime results)
          { s with trace := s.trace ++
              searchCmds (legsOf ([startLngLat] ++ waypoints ++ [endLngLat])) } := by
  induction results using List.reverseRecOn with
  | nil => simp at h
  | append_singleton init r _ =>
    have hlen : init.length = waypoints.length := by simpa using h
    rw [searchReturnsAll_concat,
      composer_run_unfinished far s startLngLat endLngLat waypoints init
        (fun x hx => hok x (by simp [hx])) (by omega)]
    exact composerState_finish far s _ init r (hok r (by simp)) (by simp; omega)

theorem legsOf_getElem?_eq_some (nodes : List LngLat) (k : Nat) (a b : LngLat) :
    (legsOf nodes)[k]? = some (a, b) ↔ nodes[k]? = some a ∧ nodes[k + 1]? = some b := by
  simp [legsOf, List.getElem?_zip_eq_some]

/-- C2: with `n` waypoints and `n + 1` provider answers that all succeed with
a route, `planRouteWithWaypoints` issues exactly `n + 1` searches, search `k`
going from node `k` to node `k + 1` of `[start, ...waypoints, end]`; after the
first `k ≤ n` answers only the searches of legs `0` to `k` have been issued and
`mergeAndShowPath` has not been called, so search `k + 1` is issued only once
answer `k` has been delivered; and after all answers `mergeAndShowPath` has
been called exactly once, with the `n + 1` leg paths in leg order, and no
search remains outstanding. -/
theorem planRouteWithWaypoints_sequential (far : LngLat → LngLat → Bool) (s : State)
    (startLngLat endLngLat : LngLat) (waypoints : List LngLat)
    (results : List SearchResult)
    (hlen : results.length = waypoints.length + 1)
    (hok : ∀ r ∈ results, r.succeeded = true) :
    (legsOf ([startLngLat] ++ waypoints ++ [endLngLat])).length = waypoints.length + 1
    ∧ (∀ k a b, (legsOf ([startLngLat] ++ waypoints ++ [endLngLat]))[k]? = some (a, b) ↔
        ([startLngLat] ++ waypoints ++ [endLngLat])[k]? = some a
        ∧ ([startLngLat] ++ waypoints ++ [endLngLat])[k + 1]? = some b)
    ∧ (∀ k, k ≤ waypoints.length →
        searchesOf (callsSince s
          (searchReturnsAll far s.searchCallbacks.length (results.take k)
            (planRouteWithWaypoints startLngLat endLngLat waypoints s)))
          = (legsOf ([startLngLat] ++ waypoints ++ [endLngLat])).take (k + 1)
        ∧ mergeCallsOf (callsSince s
          (searchReturnsAll far s.searchCallbacks.length (results.take k)
            (planRouteWithWaypoints startLngLat endLngLat waypoints s))) = [])
    ∧ searchesOf (callsSince s
          (searchReturnsAll far s.searchCallbacks.length results
            (planRouteWithWaypoints startLngLat endLngLat waypoints s)))
        = legsOf ([startLngLat] ++ waypoints ++ [endLngLat])
    ∧ mergeCallsOf (callsSince s
          (searchReturnsAll far s.searchCallbacks.length results
            (planRouteWithWaypoints startLngLat endLngLat waypoints s)))
        = [(results.map (legPath far), sumDistance results, sumTime results)]
    ∧ (searchReturnsAll far s.searchCallbacks.length results
          (planRouteWithWaypoints startLngLat endLngLat waypoints s)).searchCallbacks
        = s.searchCallbacks := by
  refine ⟨by simp [legsOf_length], fun k a b => legsOf_getElem?_eq_some _ k a b, ?_, ?_, ?_, ?_⟩
  · intro k hk
    have hk' : (results.take k).length = k := by simp [List.length_take]; omega
    rw [composer_run_unfinished far s startLngLat endLngLat waypoints (results.take k)
      (fun r hr => hok r (List.mem_of_mem_take hr)) (by omega)]
    rw [callsSince_of_trace s _ _ rfl, hk']
    exact ⟨searchesOf_searchCmds _, mergeCallsOf_searchCmds _⟩
  · rw [composer_run_finished far s startLngLat endLngLat waypoints results hok hlen,
      callsSince_of_trace s _ _ (by rw [mergeAndShowPath_trace, List.append_assoc])]
    cases s.pathPolyline <;>
      simp [searchesOf_append, searchesOf_searchCmds, searchesOf]
  · rw [composer_run_finished far s startLngLat endLngLat waypoints results hok hlen,
      callsSince_of_trace s _ _ (by rw [mergeAndShowPath_trace, List.append_assoc])]
    cases s.pathPolyline <;>
      simp [mergeCallsOf_append, mergeCallsOf_searchCmds, mergeCallsOf]
  · rw [composer_run_finished far s startLngLat endLngLat waypoints results hok hlen]
    cases hp : s.pathPolyline <;>
      simp [mergeAndShowPath, drawPathPolyline, startCarAnimation, updateStatus_eq,
        updateBottomIsland, State.emit, hp]

/-- Witness for C2: a route from (0, 0) over the waypoint (0, 1) to (0, 2),
both legs answered with a route. -/
theorem planRouteWithWaypoints_sequential_witness :
    [pathAnswer [⟨0, 0⟩, ⟨0, 1⟩], pathAnswer [⟨0, 1⟩, ⟨0, 2⟩]].length
        = [(⟨0, 1⟩ : LngLat)].length + 1
    ∧ searchesOf (callsSince initialState
          (searchReturnsAll equatorFar initialState.searchCallbacks.length
            [pathAnswer [⟨0, 0⟩, ⟨0, 1⟩], pathAnswer [⟨0, 1⟩, ⟨0, 2⟩]]
            (planRouteWithWaypoints ⟨0, 0⟩ ⟨0, 2⟩ [⟨0, 1⟩] initialState)))
        = legsOf ([⟨0, 0⟩] ++ [⟨0, 1⟩] ++ [⟨0, 2⟩])
    ∧ mergeCallsOf (callsSince initialState
          (searchReturnsAll equatorFar initialState.searchCallbacks.length
            [pathAnswer [⟨0, 0⟩, ⟨0, 1⟩], pathAnswer [⟨0, 1⟩, ⟨0, 2⟩]]
            (planRouteWithWaypoints ⟨0, 0⟩ ⟨0, 2⟩ [⟨0, 1⟩] initialState)))
        = [([pathAnswer [⟨0, 0⟩, ⟨0, 1⟩], pathAnswer [⟨0, 1⟩, ⟨0, 2⟩]].map
              (legPath equatorFar),
            sumDistance [pathAnswer [⟨0, 0⟩, ⟨0, 1⟩], pathAnswer [⟨0, 1⟩, ⟨0, 2⟩]],
            sumTime [pathAnswer [⟨0, 0⟩, ⟨0, 1⟩], pathAnswer [⟨0, 1⟩, ⟨0, 2⟩]])] :=
  have h := planRouteWithWaypoints_sequential equatorFar initialState ⟨0, 0⟩ ⟨0, 2⟩
    [⟨0, 1⟩] [pathAnswer [⟨0, 0⟩, ⟨0, 1⟩], pathAnswer [⟨0, 1⟩, ⟨0, 2⟩]] rfl
    (by
      intro r hr
      simp only [List.mem_cons, List.mem_singleton, List.not_mem_nil, or_false] at hr
      rcases hr with rfl | rfl <;> rfl)
  ⟨rfl, h.2.2.2.1, h.2.2.2.2.1⟩

theorem runSegment_failure (far : LngLat → LngLat → Bool) (nodes : List LngLat)
    (segs : List (List LngLat)) (d t : ℚ) (k : Nat) (r : SearchResult) (s : State)
    (hr : r.succeeded = false) :
    runSearchCallback far (.segment nodes segs d t k) r s
      = showAlert ("途径点 " ++ toString (k + 1) ++ " 到下一点的路径规划失败") "❌ 错误"
          (updateStatus .error "路径计算失败" s) := by
  simp only [SearchResult.succeeded, Bool.and_eq_false_iff, decide_eq_false_iff_not] at hr
  simp only [runSearchCallback]
  split
  · rename_i route h1 h2
    simp only [decide_eq_true_eq] at h1
    rcases hr with hr | hr
    · exact absurd h1 hr
    · simp [h2] at hr
  · rfl

/-- C3: when the provider succeeds on the legs before `k` and fails on leg `k`
of `planRouteWithWaypoints` (status other than `complete`, or no first route),
the searches issued are those of the legs `0` to `k` and no other,
`mergeAndShowPath` is not called, nothing is drawn, no `moveAlong` is issued,
the status is `error`, and no search of the route remains outstanding, so that
a later provider answer at its position starts nothing. -/
theorem planRouteWithWaypoints_failure_aborts (far : LngLat → LngLat → Bool) (s : State)
    (startLngLat endLngLat : LngLat) (waypoints : List LngLat)
    (oks : List SearchResult) (bad later : SearchResult)
    (hlen : oks.length ≤ waypoints.length)
    (hok : ∀ r ∈ oks, r.succeeded = true)
    (hbad : bad.succeeded = false) :
    searchesOf (callsSince s
        (searchReturnsAll far s.searchCallbacks.length (oks ++ [bad])
          (planRouteWithWaypoints startLngLat endLngLat waypoints s)))
      = (legsOf ([startLngLat] ++ waypoints ++ [endLngLat])).take (oks.length + 1)
    ∧ mergeCallsOf (callsSince s
        (searchReturnsAll far s.searchCallbacks.length (oks ++ [bad])
          (planRouteWithWaypoints startLngLat endLngLat waypoints s))) = []
    ∧ drawsOf (callsSince s
        (searchReturnsAll far s.searchCallbacks.length (oks ++ [bad])
          (planRouteWithWaypoints startLngLat endLngLat waypoints s))) = []
    ∧ moveAlongsOf (callsSince s
        (searchReturnsAll far s.searchCallbacks.length (oks ++ [bad])
          (planRouteWithWaypoints startLngLat endLngLat waypoints s))) = []
    ∧ (searchReturnsAll far s.searchCallbacks.length (oks ++ [bad])
          (planRouteWithWaypoints startLngLat endLngLat waypoints s)).status
        = ⟨.error, "路径计算失败"⟩
    ∧ (searchReturnsAll far s.searchCallbacks.length (oks ++ [bad])
          (planRouteWithWaypoints startLngLat endLngLat waypoints s)).searchCallbacks
        = s.searchCallbacks
    ∧ searchReturns far s.searchCallbacks.length later
        (searchReturnsAll far s.searchCallbacks.length (oks ++ [bad])
          (planRouteWithWaypoints startLngLat endLngLat waypoints s))
        = searchReturnsAll far s.searchCallbacks.length (oks ++ [bad])
          (planRouteWithWaypoints startLngLat endLngLat waypoints s) := by
  have hrun : searchReturnsAll far s.searchCallbacks.length (oks ++ [bad])
      (planRouteWithWaypoints startLngLat endLngLat waypoints s)
      = showAlert ("途径点 " ++ toString (oks.length + 1) ++ " 到下一点的路径规划失败")
          "❌ 错误"
          (updateStatus .error "路径计算失败"
            { s with trace := s.trace ++
                searchCmds ((legsOf ([startLngLat] ++ waypoints ++ [endLngLat])).take
                  (oks.length + 1)) }) := by
    rw [searchReturnsAll_concat,
      composer_run_unfinished far s startLngLat endLngLat waypoints oks hok hlen,
      composerState_deliver, runSegment_failure _ _ _ _ _ _ _ _ hbad]
  rw [hrun]
  have htrace : (showAlert ("途径点 " ++ toString (oks.length + 1) ++ " 到下一点的路径规划失败")
          "❌ 错误"
          (updateStatus .error "路径计算失败"
            { s with trace := s.trace ++
                searchCmds ((legsOf ([startLngLat] ++ waypoints ++ [endLngLat])).take
                  (oks.length + 1)) })).trace
      = s.trace ++ (searchCmds ((legsOf ([startLngLat] ++ waypoints ++ [endLngLat])).take
          (oks.length + 1)) ++
          [.showAlert ("途径点 " ++ toString (oks.length + 1) ++ " 到下一点的路径规划失败")
            "❌ 错误"]) := by
    simp [showAlert, updateStatus_eq, State.emit]
  rw [callsSince_of_trace s _ _ htrace]
  refine ⟨?_, ?_, ?_, ?_, ?_, ?_, ?_⟩
  · simp [searchesOf_append, searchesOf_searchCmds, searchesOf]
  · simp [mergeCallsOf_append, mergeCallsOf_searchCmds, mergeCallsOf]
  · simp [drawsOf_append, drawsOf_searchCmds, drawsOf]
  · simp [moveAlongsOf_append, moveAlongsOf_searchCmds, moveAlongsOf]
  · simp [showAlert, updateStatus_eq, State.emit]
  · simp [showAlert, updateStatus_eq, State.emit]
  · simp [searchReturns, showAlert, updateStatus_eq, State.emit]

/-- Witness for C3: a route with one waypoint whose first leg is answered with
a route and whose second leg fails. -/
theorem planRouteWithWaypoints_failure_aborts_witness :
    [pathAnswer [⟨0, 0⟩, ⟨0, 1⟩]].length ≤ [(⟨0, 1⟩ : LngLat)].length
    ∧ errorAnswer.succeeded = false
    ∧ mergeCallsOf (callsSince initialState
        (searchReturnsAll equatorFar initialState.searchCallbacks.length
          ([pathAnswer [⟨0, 0⟩, ⟨0, 1⟩]] ++ [errorAnswer])
          (planRouteWithWaypoints ⟨0, 0⟩ ⟨0, 2⟩ [⟨0, 1⟩] initialState))) = []
    ∧ (searchReturnsAll equatorFar initialState.searchCallbacks.length
          ([pathAnswer [⟨0, 0⟩, ⟨0, 1⟩]] ++ [errorAnswer])
          (planRouteWithWaypoints ⟨0, 0⟩ ⟨0, 2⟩ [⟨0, 1⟩] initialState)).status
        = ⟨.error, "路径计算失败"⟩ :=
  have h := planRouteWithWaypoints_failure_aborts equatorFar initialState ⟨0, 0⟩ ⟨0, 2⟩
    [⟨0, 1⟩] [pathAnswer [⟨0, 0⟩, ⟨0, 1⟩]] errorAnswer errorAnswer (by decide)
    (by
      intro r hr
      simp only [List.mem_singleton] at hr
      subst hr
      rfl)
    rfl
  ⟨by decide, rfl, h.2.1, h.2.2.2.2.1⟩

/-! ## Theorems: cancel request with the cargo loaded -/

/-- C4: with a task in progress and the cargo loaded, `handleCallCar` only
shows an alert: the task stays in progress, the cargo stays loaded,
`pendingDelivery`, `currentMission`, the stored history, the status and the
transport code are unchanged, no confirm action is bound (so `endCurrentTask`
is not run and cannot be confirmed), and the only call made is the alert. -/
theorem handleCallCar_loaded_no_cancel (env : Env) (s : State)
    (hprog : s.isTaskInProgress = true) (hload : s.hasPickedUpGoods = true) :
    handleCallCar env s
      = { s with dialog := none,
                 trace := s.trace ++
                   [.showAlert "正在运送中，非紧急情况无法结束任务" "⚠️ 无法结束"] }
    ∧ (handleCallCar env s).isTaskInProgress = true
    ∧ (handleCallCar env s).hasPickedUpGoods = true
    ∧ (handleCallCar env s).pendingDelivery = s.pendingDelivery
    ∧ (handleCallCar env s).currentMission = s.currentMission
    ∧ (handleCallCar env s).storage = s.storage
    ∧ (handleCallCar env s).status = s.status
    ∧ (handleCallCar env s).transportCode = s.transportCode
    ∧ (handleCallCar env s).searchCallbacks = s.searchCallbacks
    ∧ (handleCallCar env s).dialog = none
    ∧ callsSince s (handleCallCar env s)
        = [.showAlert "正在运送中，非紧急情况无法结束任务" "⚠️ 无法结束"] := by
  have h : handleCallCar env s
      = { s with dialog := none,
                 trace := s.trace ++
                   [.showAlert "正在运送中，非紧急情况无法结束任务" "⚠️ 无法结束"] } := by
    simp [handleCallCar, hprog, hload, showAlert, State.emit]
  refine ⟨h, ?_, ?_, ?_, ?_, ?_, ?_, ?_, ?_, ?_, ?_⟩ <;> rw [h]
  · exact hprog
  · exact hload
  · simp [callsSince]

/-- Witness for C4: a cancel request in the middle of a delivery. -/
theorem handleCallCar_loaded_no_cancel_witness :
    deliveringState.isTaskInProgress = true
    ∧ deliveringState.hasPickedUpGoods = true
    ∧ (handleCallCar exampleEnv deliveringState).currentMission
        = deliveringState.currentMission
    ∧ (handleCallCar exampleEnv deliveringState).isTaskInProgress = true :=
  have h := handleCallCar_loaded_no_cancel exampleEnv deliveringState rfl rfl
  ⟨rfl, rfl, h.2.2.2.2.1, h.2.1⟩

/-! ## Theorems: emergency stop and resume -/

/-- C5: when the status display shows `(keyword, text)` with a keyword other
than `emergency` (and `lastStatusState` holds that status, as it does from the
call `updateStatus (keyword, text)` on, whatever the state `before` it), a
confirmed emergency stop sets the status to `emergency` and marks the vehicle
stopped, and a confirmed resume right after it sets the status back to exactly
`(keyword, text)` and clears `isEmergencyStopped`. -/
theorem emergency_stop_resume_restores_status (s before : State)
    (keyword : StatusKeyword) (text : String)
    (hstatus : s.status = ⟨keyword, text⟩)
    (hlast : s.lastStatusState = ⟨keyword, text⟩)
    (hkw : keyword ≠ .emergency)
    (hrun : s.isEmergencyStopped = false) :
    (clickConfirmYes (handleEmergencyStop s)).status = ⟨.emergency, "紧急停车"⟩
    ∧ (clickConfirmYes (handleEmergencyStop s)).isEmergencyStopped = true
    ∧ (clickConfirmYes (handleEmergencyStop
        (clickConfirmYes (handleEmergencyStop s)))).status = ⟨keyword, text⟩
    ∧ (clickConfirmYes (handleEmergencyStop
        (clickConfirmYes (handleEmergencyStop s)))).lastStatusState = ⟨keyword, text⟩
    ∧ (clickConfirmYes (handleEmergencyStop
        (clickConfirmYes (handleEmergencyStop s)))).isEmergencyStopped = false
    ∧ (updateStatus keyword text before).status = ⟨keyword, text⟩
    ∧ (updateStatus keyword text before).lastStatusState = ⟨keyword, text⟩ := by
  have hjs : keyword.toJs ≠ "" := by cases keyword <;> decide
  cases hp : s.hasPauseMove <;> cases hr : s.hasResumeMove <;>
    simp [handleEmergencyStop, hrun, showConfirmDialog, showAlert, State.emit,
      clickConfirmYes, runConfirmAction, confirmedEmergencyStop,
      confirmedEmergencyResume, updateStatus_eq, hp, hr, hlast, hjs, hkw]

/-- Witness for C5: an emergency stop and a resume in the middle of a
delivery, with the status `moving`. -/
theorem emergency_stop_resume_restores_status_witness :
    deliveringState.status = ⟨.moving, "运输中..."⟩
    ∧ deliveringState.lastStatusState = ⟨.moving, "运输中..."⟩
    ∧ StatusKeyword.moving ≠ StatusKeyword.emergency
    ∧ deliveringState.isEmergencyStopped = false
    ∧ (clickConfirmYes (handleEmergencyStop deliveringState)).status
        = ⟨.emergency, "紧急停车"⟩
    ∧ (clickConfirmYes (handleEmergencyStop
        (clickConfirmYes (handleEmergencyStop deliveringState)))).status
        = ⟨.moving, "运输中..."⟩
    ∧ (clickConfirmYes (handleEmergencyStop
        (clickConfirmYes (handleEmergencyStop deliveringState)))).isEmergencyStopped
        = false :=
  have h := emergency_stop_resume_restores_status deliveringState initialState .moving
    "运输中..." rfl rfl (by decide) rfl
  ⟨rfl, rfl, by decide, rfl, h.1, h.2.2.1, h.2.2.2.2.1⟩

/-! ## Theorems: length and spacing of the merged path -/

theorem dropFirstPoints_length (rest : List (List LngLat))
    (h : ∀ seg ∈ rest, seg ≠ []) :
    (dropFirstPoints rest).length + rest.length = (rest.map List.length).sum := by
  induction rest with
  | nil => rfl
  | cons seg more ih =>
    have hseg : seg.length ≠ 0 := by
      simpa using h seg (by simp)
    have := ih (fun x hx => h x (by simp [hx]))
    simp only [dropFirstPoints, List.length_append, List.length_drop, List.length_cons,
      List.map_cons, List.sum_cons]
    omega

theorem mergeSegments_length (first : List LngLat) (rest : List (List LngLat))
    (h : ∀ seg ∈ rest, seg ≠ []) :
    (mergeSegments (first :: rest)).length + rest.length
      = ((first :: rest).map List.length).sum := by
  have := dropFirstPoints_length rest h
  rw [mergeSegments_eq_spec]
  simp only [mergedPathSpec, List.length_append, List.map_cons, List.sum_cons]
  omega

theorem legPath_pathAnswer_pair :
    legPath equatorFar (pathAnswer [⟨0, 0⟩, ⟨0, 1⟩]) = [⟨0, 0⟩, ⟨0, 1⟩] := by
  simp [legPath, firstRoute, pathAnswer, extractPathFromRoute, flattenRoute, cleanPath,
    cleanStep, equatorFar, planarFar]
  norm_num

theorem legPath_emptyPathAnswer (far : LngLat → LngLat → Bool) :
    legPath far emptyPathAnswer = [] := by
  simp [legPath, firstRoute, emptyPathAnswer, extractPathFromRoute, flattenRoute, cleanPath]

theorem moveAlongsOf_mergeAndShowPath (segments : List (List LngLat)) (d t : ℚ)
    (s : State) (calls : List Cmd) (h : moveAlongsOf calls = []) :
    moveAlongsOf (callsSince s
        (mergeAndShowPath segments d t { s with trace := s.trace ++ calls }))
      = [mergeSegments segments] := by
  rw [callsSince_of_trace s _ _ (by rw [mergeAndShowPath_trace, List.append_assoc])]
  cases s.pathPolyline <;> simp [moveAlongsOf_append, moveAlongsOf, h]

/-- A leg without points in a waypoint route: a route with one waypoint
(`n = 1`) whose first leg is answered with a two-point path and whose second
leg is answered with status `complete` and a first route that has no points.
Both answers take the success branch (the callback of `planNextSegment` has no
check for an empty path), the merged path handed to `moveAlong` has 2 points,
while the sum of the leg path lengths minus `n` is `2 + 0 - 1 = 1`. -/
theorem merged_length_with_empty_leg :
    (pathAnswer [⟨0, 0⟩, ⟨0, 1⟩]).succeeded = true
    ∧ emptyPathAnswer.succeeded = true
    ∧ (legPath equatorFar (pathAnswer [⟨0, 0⟩, ⟨0, 1⟩])).length = 2
    ∧ (legPath equatorFar emptyPathAnswer).length = 0
    ∧ moveAlongsOf (callsSince initialState
        (searchReturnsAll equatorFar 0 [pathAnswer [⟨0, 0⟩, ⟨0, 1⟩], emptyPathAnswer]
          (planRouteWithWaypoints ⟨0, 0⟩ ⟨0, 2⟩ [⟨0, 1⟩] initialState)))
        = [[⟨0, 0⟩, ⟨0, 1⟩]]
    ∧ ([(⟨0, 0⟩ : LngLat), ⟨0, 1⟩].length : ℤ)
        ≠ (legPath equatorFar (pathAnswer [⟨0, 0⟩, ⟨0, 1⟩])).length
          + (legPath equatorFar emptyPathAnswer).length - 1 := by
  have hok : ∀ r ∈ [pathAnswer [⟨0, 0⟩, ⟨0, 1⟩], emptyPathAnswer],
      r.succeeded = true := by
    intro r hr
    simp only [List.mem_cons, List.mem_singleton, List.not_mem_nil, or_false] at hr
    rcases hr with rfl | rfl <;> rfl
  have hrun := composer_run_finished equatorFar initialState ⟨0, 0⟩ ⟨0, 2⟩ [⟨0, 1⟩]
    [pathAnswer [⟨0, 0⟩, ⟨0, 1⟩], emptyPathAnswer] hok rfl
  have hzero : initialState.searchCallbacks.length = 0 := rfl
  rw [hzero] at hrun
  rw [hrun, moveAlongsOf_mergeAndShowPath _ _ _ _ _ (moveAlongsOf_searchCmds _)]
  simp only [List.map_cons, List.map_nil, legPath_pathAnswer_pair, legPath_emptyPathAnswer]
  refine ⟨rfl, rfl, rfl, rfl, by simp [mergeSegments_eq_spec, mergedPathSpec, dropFirstPoints], ?_⟩
  simp

theorem cleanStep_noClosePair (far : LngLat → LngLat → Bool) (acc : List LngLat)
    (current : LngLat) (h : NoClosePair far acc) :
    NoClosePair far (cleanStep far acc current) := by
  unfold cleanStep
  split
  · rename_i last hlast
    split
    · rename_i hfar
      refine List.chain'_append.mpr ⟨h, List.chain'_singleton _, ?_⟩
      intro x hx y hy
      simp only [Option.mem_def] at hx
      simp only [List.head?_cons, Option.mem_def, Option.some.injEq] at hy
      rw [hlast] at hx
      cases hx
      subst hy
      exact hfar
    · exact h
  · exact h

theorem foldl_cleanStep_noClosePair (far : LngLat → LngLat → Bool)
    (rest acc : List LngLat) (h : NoClosePair far acc) :
    NoClosePair far (rest.foldl (cleanStep far) acc) := by
  induction rest generalizing acc with
  | nil => exact h
  | cons current more ih => exact ih _ (cleanStep_noClosePair far acc current h)

theorem cleanPath_noClosePair (far : LngLat → LngLat → Bool) (path : List LngLat) :
    NoClosePair far (cleanPath far path) := by
  unfold cleanPath
  split
  · cases path with
    | nil => exact List.chain'_nil
    | cons first rest =>
      exact foldl_cleanStep_noClosePair far rest [first] (List.chain'_singleton _)
  · rename_i hlen
    match path, hlen with
    | [], _ => exact List.chain'_nil
    | [_], _ => exact List.chain'_singleton _
    | _ :: _ :: _, hlen => simp at hlen

theorem legPath_noClosePair (far : LngLat → LngLat → Bool) (result : SearchResult) :
    NoClosePair far (legPath far result) := by
  unfold legPath
  split
  · exact cleanPath_noClosePair far _
  · exact List.chain'_nil

theorem noClosePair_drop (far : LngLat → LngLat → Bool) (path : List LngLat) (n : Nat)
    (h : NoClosePair far path) : NoClosePair far (path.drop n) :=
  List.Chain'.drop h n

theorem mergePieces_noClosePair (far : LngLat → LngLat → Bool)
    (segments : List (List LngLat)) (h : ∀ seg ∈ segments, NoClosePair far seg) :
    ∀ piece ∈ mergePieces segments, NoClosePair far piece := by
  cases segments with
  | nil => simp [mergePieces]
  | cons first rest =>
    intro piece hp
    simp only [mergePieces, List.mem_cons, List.mem_map] at hp
    rcases hp with rfl | ⟨seg, hseg, rfl⟩
    · exact h _ (by simp)
    · exact noClosePair_drop far seg 1 (h seg (by simp [hseg]))

theorem mergedPathSpec_eq_flatten (segments : List (List LngLat)) :
    mergedPathSpec segments = (mergePieces segments).flatten := by
  cases segments with
  | nil => rfl
  | cons first rest =>
    simp only [mergedPathSpec, mergePieces, List.flatten_cons]
    congr 1
    induction rest with
    | nil => rfl
    | cons seg more ih => simp [dropFirstPoints, ih]

theorem joint_append (far : LngLat → LngLat → Bool) (seg next : List LngLat) (p : LngLat)
    (hseg : NoClosePair far seg) (hnext : NoClosePair far next)
    (hlast : seg.getLast? = some p) (hhead : next.head? = some p) :
    NoClosePair far (seg ++ next.drop 1)
    ∧ (seg ++ next.drop 1).getLast? = next.getLast? := by
  cases next with
  | nil => simp at hhead
  | cons q tail =>
    simp only [List.head?_cons, Option.some.injEq] at hhead
    subst hhead
    simp only [List.drop_succ_cons, List.drop_zero]
    constructor
    · refine List.chain'_append.mpr ⟨hseg, List.Chain'.tail hnext, ?_⟩
      intro x hx y hy
      simp only [Option.mem_def] at hx hy
      rw [hlast] at hx
      cases hx
      cases tail with
      | nil => simp at hy
      | cons r more =>
        simp only [List.head?_cons, Option.some.injEq] at hy
        subst hy
        exact (List.chain'_cons.mp hnext).1
    · cases tail with
      | nil => simpa using hlast
      | cons r more =>
        simp only [List.getLast?_append, List.getLast?_cons_cons]
        rw [List.getLast?_eq_getLast (r :: more) (by simp)]
        rfl

theorem mergedPathSpec_noClosePair (far : LngLat → LngLat → Bool)
    (first : List LngLat) (rest : List (List LngLat))
    (hclean : ∀ seg ∈ first :: rest, NoClosePair far seg)
    (hjoint : JointsMatch (first :: rest)) :
    NoClosePair far (mergedPathSpec (first :: rest)) := by
  induction rest generalizing first with
  | nil => simpa [mergedPathSpec, dropFirstPoints] using hclean first (by simp)
  | cons next more ih =>
    obtain ⟨⟨p, hlast, hhead⟩, hmore⟩ := List.chain'_cons.mp hjoint
    obtain ⟨hchain, hend⟩ := joint_append far first next p (hclean first (by simp))
      (hclean next (by simp)) hlast hhead
    have hstep := ih (first ++ next.drop 1)
      (by
        intro seg hs
        simp only [List.mem_cons] at hs
        rcases hs with rfl | hs
        · exact hchain
        · exact hclean seg (by simp [hs]))
      (by
        cases more with
        | nil => exact List.chain'_singleton _
        | cons third others =>
          obtain ⟨⟨q, hq1, hq2⟩, hrest⟩ := List.chain'_cons.mp hmore
          exact List.chain'_cons.mpr ⟨⟨q, by rw [hend, hq1], hq2⟩, hrest⟩)
    simpa [mergedPathSpec, dropFirstPoints, List.append_assoc] using hstep

theorem legPath_jointAnswerA (cosDeg : ℚ → ℚ) :
    legPath (planarFar cosDeg) jointAnswerA = [⟨0, 0.001⟩, ⟨0, 0.00001⟩] := by
  simp [legPath, firstRoute, jointAnswerA, pathAnswer, extractPathFromRoute, flattenRoute,
    cleanPath, cleanStep, planarFar]
  norm_num

theorem legPath_jointAnswerB (cosDeg : ℚ → ℚ) :
    legPath (planarFar cosDeg) jointAnswerB
      = [⟨0, 0.000013⟩, ⟨0, 0.000007⟩, ⟨0, -0.001⟩] := by
  simp [legPath, firstRoute, jointAnswerB, pathAnswer, extractPathFromRoute, flattenRoute,
    cleanPath, cleanStep, planarFar]
  norm_num

/-- C9, counterexample: a route with one waypoint whose two legs are answered
with `jointAnswerA` and `jointAnswerB`.  Each leg path is returned unchanged by
the clean-up of `extractPathFromRoute` (its consecutive points are 110 m, 0.67 m
and 112 m apart), but in the merged path handed to `moveAlong` the last point
of the first leg, latitude 0.00001, is followed by the second point of the
second leg, latitude 0.000007, which is 0.33 m away.  All points lie on one
meridian, so `dx = 0` whatever the cosine factor is. -/
theorem merged_path_close_pair_at_joint :
    legPath equatorFar jointAnswerA = [⟨0, 0.001⟩, ⟨0, 0.00001⟩]
    ∧ legPath equatorFar jointAnswerB = [⟨0, 0.000013⟩, ⟨0, 0.000007⟩, ⟨0, -0.001⟩]
    ∧ moveAlongsOf (callsSince initialState
        (searchReturnsAll equatorFar 0 [jointAnswerA, jointAnswerB]
          (planRouteWithWaypoints ⟨0, 0.001⟩ ⟨0, -0.001⟩ [⟨0, 0.00001⟩] initialState)))
        = [[⟨0, 0.001⟩, ⟨0, 0.00001⟩, ⟨0, 0.000007⟩, ⟨0, -0.001⟩]]
    ∧ equatorFar ⟨0, 0.00001⟩ ⟨0, 0.000007⟩ = false
    ∧ ¬ NoClosePair equatorFar
        [⟨0, 0.001⟩, ⟨0, 0.00001⟩, ⟨0, 0.000007⟩, ⟨0, -0.001⟩] := by
  have hok : ∀ r ∈ [jointAnswerA, jointAnswerB], r.succeeded = true := by
    intro r hr
    simp only [List.mem_cons, List.mem_singleton, List.not_mem_nil, or_false] at hr
    rcases hr with rfl | rfl <;> rfl
  have hrun := composer_run_finished equatorFar initialState ⟨0, 0.001⟩ ⟨0, -0.001⟩
    [⟨0, 0.00001⟩] [jointAnswerA, jointAnswerB] hok rfl
  have hzero : initialState.searchCallbacks.length = 0 := rfl
  rw [hzero] at hrun
  have hclose : equatorFar ⟨0, 0.00001⟩ ⟨0, 0.000007⟩ = false := by
    simp [equatorFar, planarFar]
    norm_num
  rw [hrun, moveAlongsOf_mergeAndShowPath _ _ _ _ _ (moveAlongsOf_searchCmds _)]
  refine ⟨legPath_jointAnswerA _, legPath_jointAnswerB _, ?_, hclose, ?_⟩
  · simp only [List.map_cons, List.map_nil, equatorFar, legPath_jointAnswerA,
      legPath_jointAnswerB]
    simp [mergeSegments_eq_spec, mergedPathSpec, dropFirstPoints]
  · intro h
    have h2 := (List.chain'_cons.mp (List.chain'_cons.mp h).2).1
    rw [hclose] at h2
    exact Bool.false_ne_true h2

/-- C9, amended: the path handed to `moveAlong` after a waypoint route whose
legs all succeed is the concatenation of the pieces the legs contribute (the
first cleaned leg path, every later one without its first point); inside every
piece consecutive points pass the 0.5 m test of `extractPathFromRoute`; and
when every later leg path starts with the point on which the leg path before it
ends, every pair of consecutive points of the merged path passes it, the pairs
that straddle a joint included. -/
theorem merged_path_spacing (far : LngLat → LngLat → Bool) (s : State)
    (startLngLat endLngLat : LngLat) (waypoints : List LngLat)
    (results : List SearchResult)
    (hlen : results.length = waypoints.length + 1)
    (hok : ∀ r ∈ results, r.succeeded = true) :
    moveAlongsOf (callsSince s
        (searchReturnsAll far s.searchCallbacks.length results
          (planRouteWithWaypoints startLngLat endLngLat waypoints s)))
      = [mergeSegments (results.map (legPath far))]
    ∧ mergeSegments (results.map (legPath far))
        = (mergePieces (results.map (legPath far))).flatten
    ∧ (∀ piece ∈ mergePieces (results.map (legPath far)), NoClosePair far piece)
    ∧ (JointsMatch (results.map (legPath far)) →
        NoClosePair far (mergeSegments (results.map (legPath far)))) := by
  have hclean : ∀ seg ∈ results.map (legPath far), NoClosePair far seg := by
    intro seg hseg
    obtain ⟨r, _, rfl⟩ := List.mem_map.mp hseg
    exact legPath_noClosePair far r
  refine ⟨?_, ?_, mergePieces_noClosePair far _ hclean, ?_⟩
  · rw [composer_run_finished far s startLngLat endLngLat waypoints results hok hlen,
      moveAlongsOf_mergeAndShowPath _ _ _ _ _ (moveAlongsOf_searchCmds _)]
  · rw [mergeSegments_eq_spec, mergedPathSpec_eq_flatten]
  · intro hjoint
    rw [mergeSegments_eq_spec]
    cases hmap : results.map (legPath far) with
    | nil => exact List.chain'_nil
    | cons first rest =>
      rw [hmap] at hclean hjoint
      exact mergedPathSpec_noClosePair far first rest hclean hjoint

/-- Witness for C9 (amended): a route with one waypoint whose second leg
starts on the point (0, 1) on which the first leg ends. -/
theorem merged_path_spacing_witness :
    JointsMatch ([pathAnswer [⟨0, 0⟩, ⟨0, 1⟩], pathAnswer [⟨0, 1⟩, ⟨0, 2⟩]].map
      (legPath equatorFar))
    ∧ NoClosePair equatorFar
        (mergeSegments ([pathAnswer [⟨0, 0⟩, ⟨0, 1⟩], pathAnswer [⟨0, 1⟩, ⟨0, 2⟩]].map
          (legPath equatorFar))) :=
  have hjoint : JointsMatch ([pathAnswer [⟨0, 0⟩, ⟨0, 1⟩],
      pathAnswer [⟨0, 1⟩, ⟨0, 2⟩]].map (legPath equatorFar)) := by
    have h2 : legPath equatorFar (pathAnswer [⟨0, 1⟩, ⟨0, 2⟩]) = [⟨0, 1⟩, ⟨0, 2⟩] := by
      simp [legPath, firstRoute, pathAnswer, extractPathFromRoute, flattenRoute,
        cleanPath, cleanStep, equatorFar, planarFar]
      norm_num
    simp only [List.map_cons, List.map_nil, legPath_pathAnswer_pair, h2]
    exact List.chain'_cons.mpr ⟨⟨⟨0, 1⟩, rfl, rfl⟩, List.chain'_singleton _⟩
  have h := merged_path_spacing equatorFar initialState ⟨0, 0⟩ ⟨0, 2⟩ [⟨0, 1⟩]
    [pathAnswer [⟨0, 0⟩, ⟨0, 1⟩], pathAnswer [⟨0, 1⟩, ⟨0, 2⟩]] rfl
    (by
      intro r hr
      simp only [List.mem_cons, List.mem_singleton, List.not_mem_nil, or_false] at hr
      rcases hr with rfl | rfl <;> rfl)
  ⟨hjoint, h.2.2.2 hjoint⟩

/-! ## Theorems: a leg whose route has no points -/

/-- C10, evaluated at its failing inputs.  The answer `emptyPathAnswer` has
status `complete` and a first route that flattens to the empty path.
* Leg to the pickup point (`planTwoStageRoute`): the status becomes `moving`,
  not `error`, and `setPosition (undefined)` and `moveAlong ([])` are issued.
* Legs of a waypoint route (`planRouteWithWaypoints`): both legs of a route
  with one waypoint answered so, the status becomes `moving` and
  `moveAlong ([])` is issued.
* Direct delivery leg (`onRouteSuccess`): the status becomes `error` and no
  motion command is issued. -/
theorem empty_path_leg_handling :
    emptyPathAnswer.succeeded = true
    ∧ legPath equatorFar emptyPathAnswer = []
    ∧ (searchReturns equatorFar 0 emptyPathAnswer
        (handleCallCar exampleEnv selectedState)).status = ⟨.moving, "前往取货点..."⟩
    ∧ callsSince (handleCallCar exampleEnv selectedState)
        (searchReturns equatorFar 0 emptyPathAnswer
          (handleCallCar exampleEnv selectedState))
        = [.drawPathPolyline [], .setPosition none, .moveAlong [] 20]
    ∧ (searchReturnsAll equatorFar 0 [emptyPathAnswer, emptyPathAnswer]
        (planRouteWithWaypoints ⟨0, 0⟩ ⟨0, 2⟩ [⟨0, 1⟩] initialState)).status
        = ⟨.moving, "运输中..."⟩
    ∧ moveAlongsOf (callsSince initialState
        (searchReturnsAll equatorFar 0 [emptyPathAnswer, emptyPathAnswer]
          (planRouteWithWaypoints ⟨0, 0⟩ ⟨0, 2⟩ [⟨0, 1⟩] initialState))) = [[]]
    ∧ (searchReturns equatorFar 0 emptyPathAnswer
        (executeLoadAndContinue ⟨⟨0, 0⟩, ⟨0, 2⟩, []⟩ initialState)).status
        = ⟨.error, "路径解析失败"⟩
    ∧ moveAlongsOf (callsSince initialState
        (searchReturns equatorFar 0 emptyPathAnswer
          (executeLoadAndContinue ⟨⟨0, 0⟩, ⟨0, 2⟩, []⟩ initialState))) = [] := by
  refine ⟨rfl, legPath_emptyPathAnswer _, ?_, ?_, ?_, ?_, ?_, ?_⟩
  · rfl
  · rfl
  · rfl
  · rfl
  · rfl
  · rfl

/-! ## Theorems: emergency stop as a toggle -/

theorem confirmedEmergencyStop_eq (s : State) :
    confirmedEmergencyStop s =
      { s with
        isEmergencyStopped := true,
        status := ⟨.emergency, "紧急停车"⟩,
        emergencyBtnDisabled := false,
        trace := s.trace ++ (.rosEmergencyStop true ::
          ((if s.hasPauseMove then [Cmd.pauseMove] else []) ++ [.postStopPromptTimer])) } := by
  cases hp : s.hasPauseMove <;>
    simp [confirmedEmergencyStop, updateStatus_eq, State.emit, hp,
      StatusKeyword.isTaskRunning]

theorem toJs_ne_empty (keyword : StatusKeyword) : keyword.toJs ≠ "" := by
  cases keyword <;> decide

theorem confirmedEmergencyResume_eq (s : State) :
    confirmedEmergencyResume s =
      { s with
        isEmergencyStopped := false,
        status := s.lastStatusState,
        emergencyBtnDisabled := !s.lastStatusState.keyword.isTaskRunning,
        dialog := none,
        trace := s.trace ++ (.rosEmergencyStop false ::
          .showAlert "无人车已恢复运行" "✅ 恢复成功" ::
          (if s.hasResumeMove then [Cmd.resumeMove] else [])) } := by
  rcases hl : s.lastStatusState with ⟨keyword, text⟩
  cases keyword <;> cases hr : s.hasResumeMove <;>
    simp [confirmedEmergencyResume, updateStatus_eq, showAlert, State.emit, hr, hl,
      StatusKeyword.toJs, StatusKeyword.isTaskRunning]

theorem clickConfirmYes_stop (s : State) (h : s.isEmergencyStopped = false) :
    clickConfirmYes (handleEmergencyStop s)
      = confirmedEmergencyStop
          { s with dialog := none,
                   trace := s.trace ++
                     [.showConfirmDialog "⚠️ 确认紧急停车？" "这将立即停止无人车，请确保必要性。"] } := by
  simp [handleEmergencyStop, h, showConfirmDialog, State.emit, clickConfirmYes,
    runConfirmAction]

theorem clickConfirmYes_resume (s : State) (h : s.isEmergencyStopped = true) :
    clickConfirmYes (handleEmergencyStop s)
      = confirmedEmergencyResume
          { s with dialog := none,
                   trace := s.trace ++
                     [.showConfirmDialog "确认恢复无人车运行？" "无人车将继续执行当前任务。"] } := by
  simp [handleEmergencyStop, h, showConfirmDialog, State.emit, clickConfirmYes,
    runConfirmAction]

/-- C13: a confirmed emergency stop and a confirmed resume (the two confirm
actions of `handleEmergencyStop`, and the click path that runs one of them)
each leave `isTaskInProgress`, `hasPickedUpGoods`, `pendingDelivery`,
`currentMission` and the displayed transport code unchanged, so no transport
code is generated, and neither issues a routing request. -/
theorem emergency_actions_keep_mission (s : State) :
    SameMission s (confirmedEmergencyStop s)
    ∧ NoRouting s (confirmedEmergencyStop s)
    ∧ SameMission s (confirmedEmergencyResume s)
    ∧ NoRouting s (confirmedEmergencyResume s)
    ∧ SameMission s (clickConfirmYes (handleEmergencyStop s))
    ∧ NoRouting s (clickConfirmYes (handleEmergencyStop s)) := by
  refine ⟨?_, ?_, ?_, ?_, ?_, ?_⟩
  · simp [SameMission, confirmedEmergencyStop_eq]
  · cases hp : s.hasPauseMove <;>
      simp [NoRouting, confirmedEmergencyStop_eq, callsSince, searchesOf, hp]
  · simp [SameMission, confirmedEmergencyResume_eq]
  · cases hr : s.hasResumeMove <;>
      simp [NoRouting, confirmedEmergencyResume_eq, callsSince, searchesOf, hr]
  · cases hstop : s.isEmergencyStopped
    · rw [clickConfirmYes_stop s hstop]
      simp [SameMission, confirmedEmergencyStop_eq]
    · rw [clickConfirmYes_resume s hstop]
      simp [SameMission, confirmedEmergencyResume_eq]
  · cases hstop : s.isEmergencyStopped
    · rw [clickConfirmYes_stop s hstop]
      cases hp : s.hasPauseMove <;>
        simp [NoRouting, confirmedEmergencyStop_eq, callsSince, searchesOf, hp]
    · rw [clickConfirmYes_resume s hstop]
      cases hr : s.hasResumeMove <;>
        simp [NoRouting, confirmedEmergencyResume_eq, callsSince, searchesOf, hr]

/-- C12, counterexample: in the middle of a delivery, two confirmed
invocations of `handleEmergencyStop` in a row leave the vehicle not
emergency-stopped, with the status `moving`, after one `pauseMove` and one
`resumeMove`; one confirmed invocation leaves it stopped. -/
theorem emergency_stop_twice_resumes :
    (clickConfirmYes (handleEmergencyStop deliveringState)).isEmergencyStopped = true
    ∧ (clickConfirmYes (handleEmergencyStop
        (clickConfirmYes (handleEmergencyStop deliveringState)))).isEmergencyStopped
        = false
    ∧ (clickConfirmYes (handleEmergencyStop
        (clickConfirmYes (handleEmergencyStop deliveringState)))).status
        = ⟨.moving, "运输中..."⟩
    ∧ pauseResumeOf (callsSince deliveringState
        (clickConfirmYes (handleEmergencyStop
          (clickConfirmYes (handleEmergencyStop deliveringState)))))
        = [.pauseMove, .resumeMove] := by
  refine ⟨rfl, rfl, rfl, rfl⟩

/-- C12, amended: `handleEmergencyStop` is a toggle.  After one confirmed
emergency stop the system is emergency-stopped with the status `emergency`; a
second invocation opens the resume dialog, and as long as that dialog is not
confirmed (left open, or answered with its cancel button) the system stays
emergency-stopped with the status `emergency` and the only pause or resume
command sent is the first pause; when it is confirmed the vehicle is resumed:
`isEmergencyStopped` is false, the status is the one kept in
`lastStatusState`, and one `resumeMove` follows the pause.  No second pause is
sent in any case. -/
theorem emergency_stop_is_toggle (s : State) (hrun : s.isEmergencyStopped = false) :
    (clickConfirmYes (handleEmergencyStop s)).isEmergencyStopped = true
    ∧ (clickConfirmYes (handleEmergencyStop s)).status = ⟨.emergency, "紧急停车"⟩
    ∧ (handleEmergencyStop (clickConfirmYes (handleEmergencyStop s))).dialog
        = some .emergencyResume
    ∧ (handleEmergencyStop (clickConfirmYes (handleEmergencyStop s))).isEmergencyStopped
        = true
    ∧ (handleEmergencyStop (clickConfirmYes (handleEmergencyStop s))).status
        = ⟨.emergency, "紧急停车"⟩
    ∧ pauseResumeOf (callsSince s
        (handleEmergencyStop (clickConfirmYes (handleEmergencyStop s))))
        = (if s.hasPauseMove then [.pauseMove] else [])
    ∧ (clickConfirmNo (handleEmergencyStop
        (clickConfirmYes (handleEmergencyStop s)))).isEmergencyStopped = true
    ∧ (clickConfirmNo (handleEmergencyStop
        (clickConfirmYes (handleEmergencyStop s)))).status = ⟨.emergency, "紧急停车"⟩
    ∧ pauseResumeOf (callsSince s
        (clickConfirmNo (handleEmergencyStop (clickConfirmYes (handleEmergencyStop s)))))
        = (if s.hasPauseMove then [.pauseMove] else [])
    ∧ (clickConfirmYes (handleEmergencyStop
        (clickConfirmYes (handleEmergencyStop s)))).isEmergencyStopped = false
    ∧ (clickConfirmYes (handleEmergencyStop
        (clickConfirmYes (handleEmergencyStop s)))).status = s.lastStatusState
    ∧ pauseResumeOf (callsSince s
        (clickConfirmYes (handleEmergencyStop (clickConfirmYes (handleEmergencyStop s)))))
        = (if s.hasPauseMove then [.pauseMove] else [])
          ++ (if s.hasResumeMove then [.resumeMove] else []) := by
  have hstopped : (clickConfirmYes (handleEmergencyStop s)).isEmergencyStopped = true := by
    rw [clickConfirmYes_stop s hrun, confirmedEmergencyStop_eq]
  rw [clickConfirmYes_resume _ hstopped, clickConfirmYes_stop s hrun]
  cases hp : s.hasPauseMove <;> cases hr : s.hasResumeMove <;>
    simp [confirmedEmergencyStop_eq, confirmedEmergencyResume_eq, handleEmergencyStop,
      showConfirmDialog, State.emit, clickConfirmNo, callsSince, pauseResumeOf, hp, hr]

/-- Witness for C12 (amended): the emergency button used in the middle of a
delivery. -/
theorem emergency_stop_is_toggle_witness :
    deliveringState.isEmergencyStopped = false
    ∧ (handleEmergencyStop
        (clickConfirmYes (handleEmergencyStop deliveringState))).isEmergencyStopped = true
    ∧ pauseResumeOf (callsSince deliveringState
        (handleEmergencyStop (clickConfirmYes (handleEmergencyStop deliveringState))))
        = (if deliveringState.hasPauseMove then [.pauseMove] else []) :=
  have h := emergency_stop_is_toggle deliveringState rfl
  ⟨rfl, h.2.2.2.1, h.2.2.2.2.2.1⟩

/-! ## Theorems: the call button -/

theorem endCurrentTask_eq (s : State) :
    endCurrentTask s =
      { s with
        isTaskInProgress := false,
        hasPickedUpGoods := false,
        lastStatusState := ⟨.idle, "空闲"⟩,
        status := ⟨.idle, "空闲"⟩,
        emergencyBtnDisabled := !s.isEmergencyStopped,
        pendingDelivery := none,
        currentMission := none,
        transportCode := "-----",
        customViaPoints := [],
        customMarkers := [],
        viaPointsShared := false,
        isDrawingCustom := false,
        pathPolyline := none,
        isFollowingCar := false,
        island := .hidden,
        dialog := none,
        trace := s.trace ++ (.stopMove ::
          ((match s.pathPolyline with
            | some _ => [Cmd.removePolyline]
            | none => []) ++ [.showAlert "任务已取消，车辆已释放" "ℹ️ 任务取消"])) } := by
  cases hp : s.pathPolyline <;>
    simp [endCurrentTask, updateStatus_eq, showAlert, State.emit, setCameraFollow,
      updateBottomIsland, resetCustomPath, hp, StatusKeyword.isTaskRunning]

theorem handleCallCar_cancel_dialog (env : Env) (s : State)
    (hprog : s.isTaskInProgress = true) (hload : s.hasPickedUpGoods = false) :
    handleCallCar env s
      = { s with dialog := some .endCurrentTask,
                 trace := s.trace ++
                   [.showConfirmDialog "⚠️ 确认取消任务" "确定要取消当前任务吗？\n车辆将停止并释放。"] } := by
  simp [handleCallCar, hprog, hload, showConfirmDialog, State.emit]

theorem handleCallCar_refuse (env : Env) (s : State)
    (hprog : s.isTaskInProgress = true) (hload : s.hasPickedUpGoods = true) :
    handleCallCar env s
      = { s with dialog := none,
                 trace := s.trace ++
                   [.showAlert "正在运送中，非紧急情况无法结束任务" "⚠️ 无法结束"] } := by
  simp [handleCallCar, hprog, hload, showAlert, State.emit]

/-- C14: with a task in progress `handleCallCar` starts no second mission.
The handler itself issues no routing request and leaves the task flags,
`pendingDelivery`, `currentMission` and the transport code as they are; a
click on the confirm button after it issues no routing request either, and
leaves the mission data unchanged when the cargo is loaded (no dialog was
opened) or, when the cargo is not loaded, clears `currentMission` and
`pendingDelivery` and resets the transport code to `-----`. -/
theorem handleCallCar_in_progress_no_second_mission (env : Env) (s : State)
    (hprog : s.isTaskInProgress = true) :
    SameMission s (handleCallCar env s)
    ∧ NoRouting s (handleCallCar env s)
    ∧ NoRouting s (clickConfirmYes (handleCallCar env s))
    ∧ (s.hasPickedUpGoods = true → SameMission s (clickConfirmYes (handleCallCar env s)))
    ∧ (s.hasPickedUpGoods = false →
        (clickConfirmYes (handleCallCar env s)).currentMission = none
        ∧ (clickConfirmYes (handleCallCar env s)).pendingDelivery = none
        ∧ (clickConfirmYes (handleCallCar env s)).transportCode = "-----"
        ∧ (clickConfirmYes (handleCallCar env s)).isTaskInProgress = false) := by
  cases hload : s.hasPickedUpGoods
  · rw [handleCallCar_cancel_dialog env s hprog hload]
    refine ⟨by simp [SameMission], by simp [NoRouting, callsSince, searchesOf], ?_,
      by simp, ?_⟩
    · cases hp : s.pathPolyline <;>
        simp [NoRouting, clickConfirmYes, runConfirmAction, endCurrentTask_eq, callsSince,
          searchesOf, hp]
    · intro _
      simp [clickConfirmYes, runConfirmAction, endCurrentTask_eq]
  · rw [handleCallCar_refuse env s hprog hload]
    refine ⟨by simp [SameMission], by simp [NoRouting, callsSince, searchesOf],
      by simp [NoRouting, clickConfirmYes, callsSince, searchesOf], ?_, by simp⟩
    intro _
    simp [SameMission, clickConfirmYes]

/-- Witness for C14: the call button pressed in the middle of a delivery. -/
theorem handleCallCar_in_progress_no_second_mission_witness :
    deliveringState.isTaskInProgress = true
    ∧ deliveringState.hasPickedUpGoods = true
    ∧ NoRouting deliveringState (handleCallCar exampleEnv deliveringState)
    ∧ SameMission deliveringState
        (clickConfirmYes (handleCallCar exampleEnv deliveringState)) :=
  have h := handleCallCar_in_progress_no_second_mission exampleEnv deliveringState rfl
  ⟨rfl, rfl, h.2.1, h.2.2.2.1 rfl⟩

theorem locations_find_id (loc : Location) (h : loc ∈ locations) :
    locations.find? (fun l => l.id == loc.id) = some loc ∧ loc.id ≠ "" := by
  simp only [locations, List.mem_cons, List.mem_singleton, List.not_mem_nil, or_false] at h
  rcases h with rfl | rfl | rfl | rfl | rfl | rfl | rfl | rfl | rfl <;>
    exact ⟨rfl, by decide⟩

theorem handleCallCar_start_eq (env : Env) (s : State) (pickup delivery : Location)
    (hprog : s.isTaskInProgress = false) (hweather : s.isWeatherBad = false)
    (hstart : s.startSelect ≠ "") (hend : s.endSelect ≠ "")
    (hpickup : locations.find? (fun l => l.id == s.startSelect) = some pickup)
    (hdelivery : locations.find? (fun l => l.id == s.endSelect) = some delivery) :
    handleCallCar env s =
      { s with
        isTaskInProgress := true,
        hasPickedUpGoods := false,
        lastStatusState := ⟨.calculating, "路径计算中..."⟩,
        status := ⟨.calculating, "路径计算中..."⟩,
        emergencyBtnDisabled := false,
        pendingDelivery := some ⟨pickup.position, delivery.position,
          if s.modeSelect = "custom" then s.customViaPoints else []⟩,
        viaPointsShared := decide (s.modeSelect = "custom"),
        currentMission := some ⟨pickup.name, delivery.name, env.now⟩,
        transportCode := generateTransportCode env.rand,
        searchCallbacks := s.searchCallbacks ++ [.toPickup],
        trace := s.trace ++ [.search env.carPos pickup.position] } := by
  by_cases hmode : s.modeSelect = "custom" <;>
    simp [handleCallCar, hprog, hweather, hstart, hend, hpickup, hdelivery, hmode,
      updateStatus_eq, planTwoStageRoute, ridingSearch, State.emit,
      StatusKeyword.isTaskRunning]

/-- C15: with good weather, no task in progress and two distinct enabled
locations selected, `handleCallCar` marks the task in progress with the cargo
not loaded, records the names of the pickup and the delivery location in
`currentMission`, stores the pending delivery (pickup position, delivery
position, and the custom via points in custom mode, none otherwise), sets the
status to `calculating` and issues exactly one routing request, from the
position of the car to the pickup position. -/
theorem handleCallCar_schedules_first_leg (env : Env) (s : State)
    (pickup delivery : Location)
    (hpickup : pickup ∈ locations) (hdelivery : delivery ∈ locations)
    (_hdistinct : pickup.id ≠ delivery.id)
    (_hpickupEnabled : pickup.disabled = false)
    (_hdeliveryEnabled : delivery.disabled = false)
    (hstart : s.startSelect = pickup.id) (hend : s.endSelect = delivery.id)
    (hweather : s.isWeatherBad = false) (hprog : s.isTaskInProgress = false) :
    (handleCallCar env s).isTaskInProgress = true
    ∧ (handleCallCar env s).hasPickedUpGoods = false
    ∧ (handleCallCar env s).currentMission = some ⟨pickup.name, delivery.name, env.now⟩
    ∧ (handleCallCar env s).pendingDelivery
        = some ⟨pickup.position, delivery.position,
            if s.modeSelect = "custom" then s.customViaPoints else []⟩
    ∧ (handleCallCar env s).status = ⟨.calculating, "路径计算中..."⟩
    ∧ searchesOf (callsSince s (handleCallCar env s)) = [(env.carPos, pickup.position)]
    ∧ (handleCallCar env s).searchCallbacks = s.searchCallbacks ++ [.toPickup] := by
  obtain ⟨hfindP, hneP⟩ := locations_find_id pickup hpickup
  obtain ⟨hfindD, hneD⟩ := locations_find_id delivery hdelivery
  rw [handleCallCar_start_eq env s pickup delivery hprog hweather (by rw [hstart]; exact hneP)
    (by rw [hend]; exact hneD) (by rw [hstart]; exact hfindP) (by rw [hend]; exact hfindD)]
  simp [callsSince, searchesOf]

/-- Witness for C15: `dorm_a` selected as pickup point and `library` as
delivery point in the initial state. -/
theorem handleCallCar_schedules_first_leg_witness :
    selectedState.isWeatherBad = false
    ∧ selectedState.isTaskInProgress = false
    ∧ (handleCallCar exampleEnv selectedState).currentMission
        = some ⟨"桃园5-6栋", "图书馆取还点", exampleEnv.now⟩
    ∧ searchesOf (callsSince selectedState (handleCallCar exampleEnv selectedState))
        = [(exampleEnv.carPos, ⟨118.827694, 31.890928⟩)] :=
  have h := handleCallCar_schedules_first_leg exampleEnv selectedState
    ⟨"dorm_a", "桃园5-6栋", "dorm", ⟨118.827694, 31.890928⟩, false⟩
    ⟨"library", "图书馆取还点", "library", ⟨118.819181, 31.88836⟩, false⟩
    (by simp [locations]) (by simp [locations]) (by decide) rfl rfl rfl rfl rfl rfl
  ⟨rfl, rfl, h.2.2.1, h.2.2.2.2.2.1⟩

theorem generateTransportCode_exampleEnv :
    generateTransportCode exampleEnv.rand = "AAAAA" := by
  simp [generateTransportCode, exampleEnv, List.range, List.range.loop, charAt]
  decide

/-- C11, counterexample: with `dorm_a` selected both as pickup point and as
delivery point, good weather and no task in progress, `handleCallCar` does not
reject the request: the task is in progress, a mission from `dorm_a` to
`dorm_a` and a pending delivery are recorded, a transport code is shown and a
routing request to the pickup point is issued. -/
theorem handleCallCar_same_ids_starts_mission :
    sameSelectedState.startSelect = sameSelectedState.endSelect
    ∧ sameSelectedState.isTaskInProgress = false
    ∧ (handleCallCar exampleEnv sameSelectedState).isTaskInProgress = true
    ∧ (handleCallCar exampleEnv sameSelectedState).currentMission
        = some ⟨"桃园5-6栋", "桃园5-6栋", "2024/1/1 10:00:00"⟩
    ∧ (handleCallCar exampleEnv sameSelectedState).pendingDelivery
        = some ⟨⟨118.827694, 31.890928⟩, ⟨118.827694, 31.890928⟩, []⟩
    ∧ (handleCallCar exampleEnv sameSelectedState).transportCode = "AAAAA"
    ∧ searchesOf (callsSince sameSelectedState (handleCallCar exampleEnv sameSelectedState))
        = [(⟨118.823748, 31.890009⟩, ⟨118.827694, 31.890928⟩)] := by
  refine ⟨rfl, rfl, rfl, rfl, rfl, ?_, rfl⟩
  exact generateTransportCode_exampleEnv

/-! ## Theorems: the delivery scenario -/

theorem scenario_statuses :
    scenarioCalculating.status = ⟨.calculating, "路径计算中..."⟩
    ∧ scenarioToPickup.status = ⟨.moving, "前往取货点..."⟩
    ∧ scenarioWaiting.status = ⟨.waiting, "等待装载书籍..."⟩
    ∧ scenarioLoaded.status = ⟨.calculating, "规划送货路径..."⟩
    ∧ scenarioToDelivery.status = ⟨.moving, "运输中..."⟩
    ∧ scenarioArrived.status = ⟨.arrived, "已到达目的地"⟩
    ∧ scenarioDone.status = ⟨.idle, "空闲"⟩ := by
  refine ⟨?_, ?_, ?_, ?_, ?_, ?_, ?_⟩ <;> with_unfolding_all rfl

theorem confirmDelivery_eq (now : String) (s : State) (mission : Mission)
    (h : s.currentMission = some mission) :
    confirmDelivery now s =
      { s with
        isTaskInProgress := false,
        hasPickedUpGoods := false,
        lastStatusState := ⟨.idle, "空闲"⟩,
        status := ⟨.idle, "空闲"⟩,
        emergencyBtnDisabled := !s.isEmergencyStopped,
        pendingDelivery := none,
        currentMission := none,
        transportCode := "-----",
        customViaPoints := [],
        customMarkers := [],
        viaPointsShared := false,
        isDrawingCustom := false,
        pathPolyline := none,
        island := .hidden,
        storage := saveHistoryRecord now mission.pickupName mission.deliveryName "成功"
          s.storage,
        dialog := none,
        trace := s.trace ++ (.stopMove ::
          ((match s.pathPolyline with
            | some _ => [Cmd.removePolyline]
            | none => []) ++
            [.showAlert "🎉 订单结束，感谢使用无人书车系统！" "任务完成"])) } := by
  cases hp : s.pathPolyline <;>
    simp [confirmDelivery, updateStatus_eq, showAlert, State.emit, updateBottomIsland,
      resetCustomPath, hp, h, StatusKeyword.isTaskRunning]

/-- C16: when the delivery is confirmed while a current mission exists, the
task flags are false, `pendingDelivery` and `currentMission` are cleared, the
status is `idle`, and the stored history read afterwards is the record of the
mission (its pickup name, its delivery name, the status `成功`) followed by
the entries stored before (the first 49 of them, the cap being 50).  In the
scenario pickup `dorm_a`, delivery `library`, no waypoints (request, leg 1
answered, arrival, load confirmed, leg 2 answered, arrival, delivery
confirmed) the final state is idle and the history holds exactly that one
record. -/
theorem confirmDelivery_returns_to_idle (now : String) (s : State) (mission : Mission)
    (h : s.currentMission = some mission) :
    (confirmDelivery now s).isTaskInProgress = false
    ∧ (confirmDelivery now s).hasPickedUpGoods = false
    ∧ (confirmDelivery now s).pendingDelivery = none
    ∧ (confirmDelivery now s).currentMission = none
    ∧ (confirmDelivery now s).status = ⟨.idle, "空闲"⟩
    ∧ getHistoryRecords (confirmDelivery now s).storage
        = ⟨now, mission.pickupName, mission.deliveryName, "成功"⟩
            :: (getHistoryRecords s.storage).take 49
    ∧ scenarioArrived.currentMission
        = some ⟨"桃园5-6栋", "图书馆取还点", "2024/1/1 10:00:00"⟩
    ∧ scenarioArrived.status = ⟨.arrived, "已到达目的地"⟩
    ∧ scenarioArrived.hasPickedUpGoods = true
    ∧ scenarioDone.isTaskInProgress = false
    ∧ scenarioDone.hasPickedUpGoods = false
    ∧ scenarioDone.pendingDelivery = none
    ∧ scenarioDone.currentMission = none
    ∧ scenarioDone.status = ⟨.idle, "空闲"⟩
    ∧ scenarioDone.searchCallbacks = []
    ∧ scenarioDone.movealongListeners = []
    ∧ getHistoryRecords scenarioDone.storage
        = [⟨"2024/1/1 10:30:00", "桃园5-6栋", "图书馆取还点", "成功"⟩] := by
  rw [confirmDelivery_eq now s mission h]
  refine ⟨rfl, rfl, rfl, rfl, rfl, ?_, ?_, ?_, ?_, ?_, ?_, ?_, ?_, ?_, ?_, ?_, ?_⟩
  · simp [getHistoryRecords_save]
  all_goals with_unfolding_all rfl

/-- Witness for C16: the delivery confirmed at the end of the scenario. -/
theorem confirmDelivery_returns_to_idle_witness :
    scenarioArrived.currentMission
        = some ⟨"桃园5-6栋", "图书馆取还点", "2024/1/1 10:00:00"⟩
    ∧ (confirmDelivery "2024/1/1 10:30:00" scenarioArrived).isTaskInProgress = false
    ∧ getHistoryRecords (confirmDelivery "2024/1/1 10:30:00" scenarioArrived).storage
        = ⟨"2024/1/1 10:30:00", "桃园5-6栋", "图书馆取还点", "成功"⟩
            :: (getHistoryRecords scenarioArrived.storage).take 49 :=
  have hm : scenarioArrived.currentMission
      = some ⟨"桃园5-6栋", "图书馆取还点", "2024/1/1 10:00:00"⟩ := by
    with_unfolding_all rfl
  have h := confirmDelivery_returns_to_idle "2024/1/1 10:30:00" scenarioArrived
    ⟨"桃园5-6栋", "图书馆取还点", "2024/1/1 10:00:00"⟩ hm
  ⟨hm, h.1, h.2.2.2.2.2.1⟩

/-! ## Theorems: cancel before loading -/

/-- C17: with a task in progress and the cargo not loaded (in particular
while the vehicle waits for loading), a confirmed cancel request runs
`endCurrentTask`: `isTaskInProgress` and `hasPickedUpGoods` are false,
`pendingDelivery` and `currentMission` are cleared, the status is `idle`, and
the stored history is unchanged (no record is written). -/
theorem confirmed_cancel_returns_to_idle (env : Env) (s : State)
    (hprog : s.isTaskInProgress = true) (hload : s.hasPickedUpGoods = false) :
    (handleCallCar env s).dialog = some .endCurrentTask
    ∧ clickConfirmYes (handleCallCar env s)
        = endCurrentTask
            { s with dialog := none,
                     trace := s.trace ++
                       [.showConfirmDialog "⚠️ 确认取消任务" "确定要取消当前任务吗？\n车辆将停止并释放。"] }
    ∧ (clickConfirmYes (handleCallCar env s)).isTaskInProgress = false
    ∧ (clickConfirmYes (handleCallCar env s)).hasPickedUpGoods = false
    ∧ (clickConfirmYes (handleCallCar env s)).pendingDelivery = none
    ∧ (clickConfirmYes (handleCallCar env s)).currentMission = none
    ∧ (clickConfirmYes (handleCallCar env s)).status = ⟨.idle, "空闲"⟩
    ∧ (clickConfirmYes (handleCallCar env s)).storage = s.storage := by
  rw [handleCallCar_cancel_dialog env s hprog hload]
  refine ⟨rfl, by simp [clickConfirmYes, runConfirmAction], ?_, ?_, ?_, ?_, ?_, ?_⟩ <;>
    simp [clickConfirmYes, runConfirmAction, endCurrentTask_eq]

/-- Witness for C17: the cancel confirmed while the vehicle of the scenario
waits for loading. -/
theorem confirmed_cancel_returns_to_idle_witness :
    scenarioWaiting.isTaskInProgress = true
    ∧ scenarioWaiting.hasPickedUpGoods = false
    ∧ scenarioWaiting.status = ⟨.waiting, "等待装载书籍..."⟩
    ∧ (clickConfirmYes (handleCallCar exampleEnv scenarioWaiting)).isTaskInProgress = false
    ∧ (clickConfirmYes (handleCallCar exampleEnv scenarioWaiting)).status = ⟨.idle, "空闲"⟩
    ∧ (clickConfirmYes (handleCallCar exampleEnv scenarioWaiting)).storage
        = scenarioWaiting.storage :=
  have hprog : scenarioWaiting.isTaskInProgress = true := by with_unfolding_all rfl
  have hload : scenarioWaiting.hasPickedUpGoods = false := by with_unfolding_all rfl
  have h := confirmed_cancel_returns_to_idle exampleEnv scenarioWaiting hprog hload
  ⟨hprog, hload, by with_unfolding_all rfl, h.2.2.1, h.2.2.2.2.2.2.1, h.2.2.2.2.2.2.2⟩

/-! ## Theorems: planning failure and cancel -/

theorem error_branch_eq (text message title : String) (s : State) :
    showAlert message title (updateStatus .error text s) =
      { s with
        lastStatusState := ⟨.error, text⟩,
        status := ⟨.error, text⟩,
        emergencyBtnDisabled := !s.isEmergencyStopped,
        dialog := none,
        trace := s.trace ++ [.showAlert message title] } := by
  simp [showAlert, updateStatus_eq, State.emit, StatusKeyword.isTaskRunning]

theorem runSearchCallback_failure (far : LngLat → LngLat → Bool)
    (callback : SearchCallback) (result : SearchResult) (s : State)
    (hfail : legFails far callback result = true) :
    ∃ text message title following,
      runSearchCallback far callback result s =
        { s with
          lastStatusState := ⟨.error, text⟩,
          status := ⟨.error, text⟩,
          emergencyBtnDisabled := !s.isEmergencyStopped,
          isFollowingCar := following,
          dialog := none,
          trace := s.trace ++ [.showAlert message title] } := by
  cases callback with
  | toPickup =>
    refine ⟨"路径计算失败", "规划到取货点的路径失败", "❌ 错误", s.isFollowingCar, ?_⟩
    simp only [legFails, SearchResult.succeeded, Bool.not_eq_true', Bool.and_eq_false_iff,
      decide_eq_false_iff_not] at hfail
    simp only [runSearchCallback]
    split
    · rename_i route h1 h2
      simp only [decide_eq_true_eq] at h1
      rcases hfail with hf | hf
      · exact absurd h1 hf
      · simp [h2] at hf
    · exact error_branch_eq _ _ _ s
  | segment nodes segs d t k =>
    refine ⟨"路径计算失败", "途径点 " ++ toString (k + 1) ++ " 到下一点的路径规划失败",
      "❌ 错误", s.isFollowingCar, ?_⟩
    simp only [legFails, Bool.not_eq_true'] at hfail
    rw [runSegment_failure far nodes segs d t k result s hfail]
    exact error_branch_eq _ _ _ s
  | direct =>
    simp only [legFails, SearchResult.succeeded, Bool.not_eq_true', Bool.and_eq_false_iff,
      decide_eq_false_iff_not, bne_eq_false_iff_eq] at hfail
    simp only [runSearchCallback]
    by_cases hs : result.status = "complete"
    · simp only [hs, if_true, onRouteSuccess]
      cases hroute : result.routes.bind List.head? with
      | none =>
        refine ⟨"未找到可用路径", "未找到可用路径，请尝试调整起终点", "⚠️ 注意", true, ?_⟩
        simp [error_branch_eq, setCameraFollow]
      | some route =>
        have hlen : (extractPathFromRoute far route).length = 0 := by
          rcases hfail with (hf | hf) | hf
          · exact absurd hs hf
          · simp [hroute] at hf
          · simpa [legPath, firstRoute, hroute] using hf
        refine ⟨"路径解析失败", "路径解析失败，请稍后再试", "❌ 错误", true, ?_⟩
        simp [hlen, error_branch_eq, setCameraFollow]
    · simp only [hs, if_false]
      exact ⟨"送货路径规划失败", "送货路径规划失败", "❌ 错误", s.isFollowingCar,
        error_branch_eq _ _ _ s⟩
  | planRoute =>
    simp only [legFails, SearchResult.succeeded, Bool.not_eq_true', Bool.and_eq_false_iff,
      decide_eq_false_iff_not, bne_eq_false_iff_eq] at hfail
    simp only [runSearchCallback]
    by_cases hs : result.status = "complete"
    · simp only [hs, if_true, onRouteSuccess]
      cases hroute : result.routes.bind List.head? with
      | none =>
        exact ⟨"未找到可用路径", "未找到可用路径，请尝试调整起终点", "⚠️ 注意",
          s.isFollowingCar, error_branch_eq _ _ _ s⟩
      | some route =>
        have hlen : (extractPathFromRoute far route).length = 0 := by
          rcases hfail with (hf | hf) | hf
          · exact absurd hs hf
          · simp [hroute] at hf
          · simpa [legPath, firstRoute, hroute] using hf
        refine ⟨"路径解析失败", "路径解析失败，请稍后再试", "❌ 错误", s.isFollowingCar, ?_⟩
        simp [hlen, error_branch_eq]
    · simp only [hs, if_false]
      exact ⟨"路径计算失败", "路径规划失败，请检查网络或 Key 配额。", "❌ 错误",
        s.isFollowingCar, error_branch_eq _ _ _ s⟩

theorem searchReturns_failure (far : LngLat → LngLat → Bool) (s : State) (i : Nat)
    (callback : SearchCallback) (result : SearchResult)
    (hcb : s.searchCallbacks[i]? = some callback)
    (hfail : legFails far callback result = true) :
    ∃ text message title following,
      searchReturns far i result s =
        { s with
          lastStatusState := ⟨.error, text⟩,
          status := ⟨.error, text⟩,
          emergencyBtnDisabled := !s.isEmergencyStopped,
          isFollowingCar := following,
          searchCallbacks := s.searchCallbacks.eraseIdx i,
          dialog := none,
          trace := s.trace ++ [.showAlert message title] } := by
  obtain ⟨text, message, title, following, hrun⟩ :=
    runSearchCallback_failure far callback result
      { s with searchCallbacks := s.searchCallbacks.eraseIdx i } hfail
  refine ⟨text, message, title, following, ?_⟩
  simp only [searchReturns, hcb]
  exact hrun

/-- C18, counterexample: in the scenario the load is confirmed and the
provider then fails on the delivery leg.  The status is `error` and the
mission is retained, but a cancel request is refused with an alert and opens no
dialog, so that a click on the confirm button changes nothing: the task stays
in progress with the status `error`; the emergency buttons are disabled. -/
theorem cancel_refused_after_delivery_leg_failure :
    scenarioDeliveryFailed.status = ⟨.error, "送货路径规划失败"⟩
    ∧ scenarioDeliveryFailed.isTaskInProgress = true
    ∧ scenarioDeliveryFailed.hasPickedUpGoods = true
    ∧ scenarioDeliveryFailed.emergencyBtnDisabled = true
    ∧ callsSince scenarioDeliveryFailed (handleCallCar exampleEnv scenarioDeliveryFailed)
        = [.showAlert "正在运送中，非紧急情况无法结束任务" "⚠️ 无法结束"]
    ∧ (handleCallCar exampleEnv scenarioDeliveryFailed).dialog = none
    ∧ (clickConfirmYes (handleCallCar exampleEnv scenarioDeliveryFailed)).isTaskInProgress
        = true
    ∧ (clickConfirmYes (handleCallCar exampleEnv scenarioDeliveryFailed)).status
        = ⟨.error, "送货路径规划失败"⟩
    ∧ (clickConfirmYes (handleCallCar exampleEnv scenarioDeliveryFailed)).currentMission
        = some ⟨"桃园5-6栋", "图书馆取还点", "2024/1/1 10:00:00"⟩ := by
  refine ⟨?_, ?_, ?_, ?_, ?_, ?_, ?_, ?_, ?_⟩ <;> with_unfolding_all rfl

/-- C18, amended: when the provider answer to an outstanding search makes
its callback take an error branch (any leg), the status becomes `error`, the
task flags, `pendingDelivery`, `currentMission` and the transport code are
retained, and nothing is searched or moved.  If the task is in progress and
the cargo is not loaded (a failure on the leg to the pickup point), a
confirmed cancel request then returns the system to Idle.  If the cargo is
loaded (a failure on a delivery leg), `handleCallCar` refuses the cancel
request: no dialog is opened and the task stays in progress with the status
`error`. -/
theorem planning_failure_keeps_mission (far : LngLat → LngLat → Bool) (env : Env)
    (s : State) (i : Nat) (callback : SearchCallback) (result : SearchResult)
    (hcb : s.searchCallbacks[i]? = some callback)
    (hfail : legFails far callback result = true)
    (hprog : s.isTaskInProgress = true) :
    (searchReturns far i result s).status.keyword = .error
    ∧ SameMission s (searchReturns far i result s)
    ∧ searchesOf (callsSince s (searchReturns far i result s)) = []
    ∧ moveAlongsOf (callsSince s (searchReturns far i result s)) = []
    ∧ (s.hasPickedUpGoods = false →
        (clickConfirmYes (handleCallCar env (searchReturns far i result s))).isTaskInProgress
          = false
        ∧ (clickConfirmYes (handleCallCar env (searchReturns far i result s))).status
          = ⟨.idle, "空闲"⟩
        ∧ (clickConfirmYes (handleCallCar env (searchReturns far i result s))).currentMission
          = none
        ∧ (clickConfirmYes (handleCallCar env (searchReturns far i result s))).pendingDelivery
          = none)
    ∧ (s.hasPickedUpGoods = true →
        (handleCallCar env (searchReturns far i result s)).dialog = none
        ∧ (clickConfirmYes (handleCallCar env (searchReturns far i result s))).isTaskInProgress
          = true
        ∧ (clickConfirmYes (handleCallCar env (searchReturns far i result s))).status.keyword
          = .error
        ∧ (clickConfirmYes (handleCallCar env (searchReturns far i result s))).currentMission
          = s.currentMission) := by
  obtain ⟨text, message, title, following, hret⟩ :=
    searchReturns_failure far s i callback result hcb hfail
  rw [hret]
  refine ⟨rfl, by simp [SameMission], by simp [callsSince, searchesOf],
    by simp [callsSince, moveAlongsOf], ?_, ?_⟩
  · intro hload
    rw [handleCallCar_cancel_dialog env _ (by exact hprog) (by exact hload)]
    simp [clickConfirmYes, runConfirmAction, endCurrentTask_eq]
  · intro hload
    rw [handleCallCar_refuse env _ (by exact hprog) (by exact hload)]
    simp [clickConfirmYes, hprog]

/-- Witness for C18 (amended): in the scenario the provider fails on the leg
to the pickup point; the cargo is not loaded and the cancel goes through. -/
theorem planning_failure_keeps_mission_witness :
    scenarioCalculating.searchCallbacks[0]? = some .toPickup
    ∧ legFails equatorFar .toPickup errorAnswer = true
    ∧ scenarioCalculating.isTaskInProgress = true
    ∧ scenarioCalculating.hasPickedUpGoods = false
    ∧ (searchReturns equatorFar 0 errorAnswer scenarioCalculating).status.keyword = .error
    ∧ (clickConfirmYes (handleCallCar exampleEnv
        (searchReturns equatorFar 0 errorAnswer scenarioCalculating))).isTaskInProgress
        = false :=
  have hcb : scenarioCalculating.searchCallbacks[0]? = some .toPickup := by
    with_unfolding_all rfl
  have hprog : scenarioCalculating.isTaskInProgress = true := by with_unfolding_all rfl
  have hload : scenarioCalculating.hasPickedUpGoods = false := by with_unfolding_all rfl
  have h := planning_failure_keeps_mission equatorFar exampleEnv scenarioCalculating 0
    .toPickup errorAnswer hcb rfl hprog
  ⟨hcb, rfl, hprog, hload, h.1, (h.2.2.2.2.1 hload).1⟩

/-! ## Theorems: load confirmation -/

/-- C19, counterexample: in the scenario the load confirmation is accepted
while the leg to the pickup point is still being searched (status
`calculating`) and while the vehicle is on its way to the pickup point (status
`moving`): after the button and the safety dialog `hasPickedUpGoods` is true
and the delivery leg from `dorm_a` to `library` is being searched. -/
theorem confirmLoad_accepted_before_arrival :
    scenarioCalculating.status = ⟨.calculating, "路径计算中..."⟩
    ∧ scenarioCalculating.hasPickedUpGoods = false
    ∧ (clickConfirmYes (confirmLoadAndContinue scenarioCalculating)).hasPickedUpGoods = true
    ∧ searchesOf (callsSince scenarioCalculating
        (clickConfirmYes (confirmLoadAndContinue scenarioCalculating)))
        = [(⟨118.827694, 31.890928⟩, ⟨118.819181, 31.88836⟩)]
    ∧ scenarioToPickup.status = ⟨.moving, "前往取货点..."⟩
    ∧ scenarioToPickup.hasPickedUpGoods = false
    ∧ (clickConfirmYes (confirmLoadAndContinue scenarioToPickup)).hasPickedUpGoods = true
    ∧ searchesOf (callsSince scenarioToPickup
        (clickConfirmYes (confirmLoadAndContinue scenarioToPickup)))
        = [(⟨118.827694, 31.890928⟩, ⟨118.819181, 31.88836⟩)] := by
  refine ⟨?_, ?_, ?_, ?_, ?_, ?_, ?_, ?_⟩ <;> with_unfolding_all rfl

/-- C19, amended: `confirmLoadAndContinue` is guarded by
`window.pendingDelivery`.  When no pending delivery is stored (in the scenario:
before the request, and from the confirmed load on, that is on the way to the
delivery point and after arrival) it only shows an alert: `hasPickedUpGoods`
keeps its value, nothing is searched or moved, and no confirm action is bound.
While a pending delivery is stored (in the scenario: from the request until
the load is confirmed, that is during the search of leg 1, on the way to the
pickup point and while waiting for loading) it opens the safety dialog, and a
confirmation sets `hasPickedUpGoods`, clears the pending delivery and searches
the first delivery leg. -/
theorem confirmLoad_guarded_by_pending (s : State) :
    (s.pendingDelivery = none →
      confirmLoadAndContinue s
        = { s with dialog := none,
                   trace := s.trace ++ [.showAlert "没有待处理的送货任务" "⚠️ 注意"] }
      ∧ clickConfirmYes (confirmLoadAndContinue s) = confirmLoadAndContinue s
      ∧ (confirmLoadAndContinue s).hasPickedUpGoods = s.hasPickedUpGoods
      ∧ NoRouting s (confirmLoadAndContinue s)
      ∧ moveAlongsOf (callsSince s (confirmLoadAndContinue s)) = [])
    ∧ (∀ pending, s.pendingDelivery = some pending →
      (confirmLoadAndContinue s).dialog = some (.executeLoadAndContinue pending)
      ∧ (confirmLoadAndContinue s).hasPickedUpGoods = s.hasPickedUpGoods
      ∧ (clickConfirmYes (confirmLoadAndContinue s)).hasPickedUpGoods = true
      ∧ (clickConfirmYes (confirmLoadAndContinue s)).pendingDelivery = none
      ∧ searchesOf (callsSince s (clickConfirmYes (confirmLoadAndContinue s)))
          = [(pending.pickupPos,
              (pending.viaPoints ++ [pending.deliveryPos]).headD pending.deliveryPos)])
    ∧ initialState.pendingDelivery = none
    ∧ scenarioCalculating.pendingDelivery
        = some ⟨⟨118.827694, 31.890928⟩, ⟨118.819181, 31.88836⟩, []⟩
    ∧ scenarioToPickup.pendingDelivery
        = some ⟨⟨118.827694, 31.890928⟩, ⟨118.819181, 31.88836⟩, []⟩
    ∧ scenarioWaiting.pendingDelivery
        = some ⟨⟨118.827694, 31.890928⟩, ⟨118.819181, 31.88836⟩, []⟩
    ∧ scenarioLoaded.pendingDelivery = none
    ∧ scenarioToDelivery.pendingDelivery = none
    ∧ scenarioArrived.pendingDelivery = none
    ∧ scenarioDone.pendingDelivery = none := by
  refine ⟨?_, ?_, ?_, ?_, ?_, ?_, ?_, ?_, ?_, ?_⟩
  · intro hnone
    have h : confirmLoadAndContinue s
        = { s with dialog := none,
                   trace := s.trace ++ [.showAlert "没有待处理的送货任务" "⚠️ 注意"] } := by
      simp [confirmLoadAndContinue, hnone, showAlert, State.emit]
    rw [h]
    refine ⟨rfl, by simp [clickConfirmYes], rfl, by simp [NoRouting, callsSince, searchesOf],
      by simp [callsSince, moveAlongsOf]⟩
  · intro pending hsome
    have h : confirmLoadAndContinue s
        = { s with dialog := some (.executeLoadAndContinue pending),
                   trace := s.trace ++
                     [.showConfirmDialog "⚠️ 安全确认"
                       "车辆即将启动，请注意周围环境安全！\n确认周围安全并立即启动车辆吗？"] } := by
      simp [confirmLoadAndContinue, hsome, showConfirmDialog, State.emit]
    rw [h]
    rcases pending with ⟨pickupPos, deliveryPos, viaPoints⟩
    cases viaPoints with
    | nil =>
      simp [clickConfirmYes, runConfirmAction, executeLoadAndContinue, updateStatus_eq,
        updateBottomIsland, ridingSearch, State.emit, callsSince, searchesOf]
    | cons via more =>
      simp [clickConfirmYes, runConfirmAction, executeLoadAndContinue, updateStatus_eq,
        updateBottomIsland, planRouteWithWaypoints, planNextSegment, ridingSearch,
        State.emit, callsSince, searchesOf]
  all_goals with_unfolding_all rfl

/-- Witness for C19 (amended): the load confirmation pressed in the initial
state, and while the vehicle of the scenario waits for loading. -/
theorem confirmLoad_guarded_by_pending_witness :
    initialState.pendingDelivery = none
    ∧ (confirmLoadAndContinue initialState).hasPickedUpGoods
        = initialState.hasPickedUpGoods
    ∧ NoRouting initialState (confirmLoadAndContinue initialState)
    ∧ scenarioWaiting.pendingDelivery
        = some ⟨⟨118.827694, 31.890928⟩, ⟨118.819181, 31.88836⟩, []⟩
    ∧ (clickConfirmYes (confirmLoadAndContinue scenarioWaiting)).hasPickedUpGoods = true :=
  have h0 := (confirmLoad_guarded_by_pending initialState).1 rfl
  have hw : scenarioWaiting.pendingDelivery
      = some ⟨⟨118.827694, 31.890928⟩, ⟨118.819181, 31.88836⟩, []⟩ := by
    with_unfolding_all rfl
  have h1 := (confirmLoad_guarded_by_pending scenarioWaiting).2.1 _ hw
  ⟨rfl, h0.2.2.1, h0.2.2.2.1, hw, h1.2.2.1⟩

/-! ## Theorems: arrival handlers -/

/-- C20, evaluated at its failing inputs: on the way to the pickup point of
the scenario the arrival handler of `startCarAnimationToPickup` is registered.
After a confirmed emergency stop (status `emergency`, `isEmergencyStopped`
true, `lastStatusState` holding the status `moving` from before the stop) an
arrival event sets the status to `waiting` and the island to `pickup` and
overwrites `lastStatusState`, so that the resume confirmed afterwards restores
`waiting` instead of the status from before the stop.  After a confirmed
cancel (status `idle`, island hidden, no task in progress) the handler is
still registered and an arrival event sets the status to `waiting` and the
island to `pickup`; and when the mission is requested again and its first leg
answered, two handlers are registered, both of which run on the next arrival
event. -/
theorem arrival_handler_runs_when_stopped_or_cancelled :
    scenarioStoppedToPickup.isEmergencyStopped = true
    ∧ scenarioStoppedToPickup.status = ⟨.emergency, "紧急停车"⟩
    ∧ scenarioStoppedToPickup.island = .waiting
    ∧ scenarioStoppedToPickup.lastStatusState = ⟨.moving, "前往取货点..."⟩
    ∧ (movealongEvent scenarioStoppedToPickup).status = ⟨.waiting, "等待装载书籍..."⟩
    ∧ (movealongEvent scenarioStoppedToPickup).island = .pickup
    ∧ (movealongEvent scenarioStoppedToPickup).isEmergencyStopped = true
    ∧ (movealongEvent scenarioStoppedToPickup).lastStatusState
        = ⟨.waiting, "等待装载书籍..."⟩
    ∧ (clickConfirmYes (handleEmergencyStop (movealongEvent scenarioStoppedToPickup))).status
        = ⟨.waiting, "等待装载书籍..."⟩
    ∧ (clickConfirmYes (handleEmergencyStop scenarioStoppedToPickup)).status
        = ⟨.moving, "前往取货点..."⟩
    ∧ scenarioCancelledToPickup.isTaskInProgress = false
    ∧ scenarioCancelledToPickup.status = ⟨.idle, "空闲"⟩
    ∧ scenarioCancelledToPickup.island = .hidden
    ∧ scenarioCancelledToPickup.movealongListeners = [.onArrivePickup]
    ∧ (movealongEvent scenarioCancelledToPickup).status = ⟨.waiting, "等待装载书籍..."⟩
    ∧ (movealongEvent scenarioCancelledToPickup).island = .pickup
    ∧ scenarioCalledAgain.movealongListeners = [.onArrivePickup, .onArrivePickup]
    ∧ movealongEvent scenarioCalledAgain
        = runArrivalListener .onArrivePickup
            (runArrivalListener .onArrivePickup scenarioCalledAgain)
    ∧ (movealongEvent scenarioCalledAgain).movealongListeners = [] := by
  refine ⟨?_, ?_, ?_, ?_, ?_, ?_, ?_, ?_, ?_, ?_, ?_, ?_, ?_, ?_, ?_, ?_, ?_, ?_, ?_⟩ <;>
    with_unfolding_all rfl

/-- The arrival handlers as they are written, without a guard on the mission
state.  Each removes itself from the listeners when it fires and then sets the status
and the bottom island unconditionally (`waiting` and `pickup` for the handler
of `startCarAnimationToPickup`, `arrived` and `arrived` for the handler of
`startCarAnimation`), whatever `isEmergencyStopped` and `isTaskInProgress`
are; with exactly one handler registered, an arrival event runs it and a
second arrival event changes nothing; an arrival event is a no-op when no
handler is registered; and neither a confirmed emergency stop nor
`endCurrentTask` removes a registered handler. -/
theorem arrival_handlers_unguarded (s : State) (l : ArrivalListener) :
    (runArrivalListener .onArrivePickup s).status = ⟨.waiting, "等待装载书籍..."⟩
    ∧ (runArrivalListener .onArrivePickup s).island = .pickup
    ∧ (runArrivalListener .onArrivePickup s).movealongListeners
        = s.movealongListeners.erase .onArrivePickup
    ∧ (runArrivalListener .onArriveDelivery s).status = ⟨.arrived, "已到达目的地"⟩
    ∧ (runArrivalListener .onArriveDelivery s).island = .arrived
    ∧ (runArrivalListener .onArriveDelivery s).movealongListeners
        = s.movealongListeners.erase .onArriveDelivery
    ∧ (s.movealongListeners = [l] →
        movealongEvent s = runArrivalListener l s
        ∧ (movealongEvent s).movealongListeners = []
        ∧ movealongEvent (movealongEvent s) = movealongEvent s)
    ∧ (s.movealongListeners = [] → movealongEvent s = s)
    ∧ (confirmedEmergencyStop s).movealongListeners = s.movealongListeners
    ∧ (endCurrentTask s).movealongListeners = s.movealongListeners := by
  refine ⟨?_, ?_, ?_, ?_, ?_, ?_, ?_, ?_, ?_, ?_⟩
  · simp [runArrivalListener, updateStatus_eq, updateBottomIsland, setCameraFollow]
  · simp [runArrivalListener, updateStatus_eq, updateBottomIsland, setCameraFollow]
  · simp [runArrivalListener, updateStatus_eq, updateBottomIsland, setCameraFollow]
  · simp [runArrivalListener, updateStatus_eq, updateBottomIsland]
  · simp [runArrivalListener, updateStatus_eq, updateBottomIsland]
  · simp [runArrivalListener, updateStatus_eq, updateBottomIsland]
  · intro h
    have hrun : movealongEvent s = runArrivalListener l s := by
      simp [movealongEvent, h]
    have hnone : (runArrivalListener l s).movealongListeners = [] := by
      cases l <;>
        simp [runArrivalListener, updateStatus_eq, updateBottomIsland, setCameraFollow, h]
    refine ⟨hrun, by rw [hrun]; exact hnone, ?_⟩
    rw [hrun]
    simp [movealongEvent, hnone]
  · intro h
    simp [movealongEvent, h]
  · simp [confirmedEmergencyStop_eq]
  · simp [endCurrentTask_eq]

/-- The arrival at the pickup point in the scenario, where exactly one handler
is registered, and an arrival event in the initial state. -/
theorem arrival_handlers_unguarded_witness :
    scenarioToPickup.movealongListeners = [.onArrivePickup]
    ∧ movealongEvent scenarioToPickup = runArrivalListener .onArrivePickup scenarioToPickup
    ∧ movealongEvent (movealongEvent scenarioToPickup) = movealongEvent scenarioToPickup
    ∧ initialState.movealongListeners = []
    ∧ movealongEvent initialState = initialState :=
  have hl : scenarioToPickup.movealongListeners = [.onArrivePickup] := by
    with_unfolding_all rfl
  have h := (arrival_handlers_unguarded scenarioToPickup .onArrivePickup).2.2.2.2.2.2.1 hl
  have h0 := (arrival_handlers_unguarded initialState .onArrivePickup).2.2.2.2.2.2.2.1 rfl
  ⟨hl, h.1, h.2.2, rfl, h0⟩

/-! ## Theorems: geofence check and weather gate -/

/-- C22: a map click made in custom draw mode on a point that fails
`isPointInFence` only shows the alert: `customViaPoints`, `customMarkers` and
`isDrawingCustom` are unchanged (and so are the pending delivery and the mode
select). -/
theorem mapClick_outside_fence_changes_nothing
    (geometryUtil : Option (LngLat → List LngLat → Bool)) (lnglat : LngLat) (s : State)
    (hdraw : s.isDrawingCustom = true) (hmode : s.modeSelect = "custom")
    (hout : isPointInFence geometryUtil lnglat = false) :
    mapClick geometryUtil lnglat s
      = { s with dialog := none,
                 trace := s.trace ++
                   [.showAlert "⚠️ 警告：该区域超出无人车运行范围（电子围栏）\n请选择围栏内的位置！" "提示"] }
    ∧ (mapClick geometryUtil lnglat s).customViaPoints = s.customViaPoints
    ∧ (mapClick geometryUtil lnglat s).customMarkers = s.customMarkers
    ∧ (mapClick geometryUtil lnglat s).isDrawingCustom = s.isDrawingCustom
    ∧ (mapClick geometryUtil lnglat s).pendingDelivery = s.pendingDelivery
    ∧ (mapClick geometryUtil lnglat s).modeSelect = s.modeSelect := by
  have h : mapClick geometryUtil lnglat s
      = { s with dialog := none,
                 trace := s.trace ++
                   [.showAlert "⚠️ 警告：该区域超出无人车运行范围（电子围栏）\n请选择围栏内的位置！" "提示"] } := by
    simp [mapClick, hdraw, hmode, hout, showAlert, State.emit]
  rw [h]
  exact ⟨rfl, rfl, rfl, rfl, rfl, rfl⟩

/-- Witness for C22: in draw mode, a click on the point (118.81, 31.88),
south-west of every vertex of the fence. -/
theorem mapClick_outside_fence_changes_nothing_witness :
    drawingState.isDrawingCustom = true
    ∧ drawingState.modeSelect = "custom"
    ∧ isPointInFence (some inRingBox) ⟨118.81, 31.88⟩ = false
    ∧ (mapClick (some inRingBox) ⟨118.81, 31.88⟩ drawingState).customViaPoints
        = drawingState.customViaPoints
    ∧ (mapClick (some inRingBox) ⟨118.81, 31.88⟩ drawingState).customMarkers
        = drawingState.customMarkers :=
  have hout : isPointInFence (some inRingBox) ⟨118.81, 31.88⟩ = false := by
    with_unfolding_all rfl
  have h := mapClick_outside_fence_changes_nothing (some inRingBox) ⟨118.81, 31.88⟩
    drawingState rfl rfl hout
  ⟨rfl, rfl, hout, h.2.1, h.2.2.1⟩

/-- C23: with `isWeatherBad` true and no task in progress `handleCallCar`
only shows the weather alert, whatever is selected: `isTaskInProgress` stays
false, `currentMission`, `pendingDelivery` and the transport code are
unchanged, and no routing request is issued. -/
theorem handleCallCar_bad_weather_starts_nothing (env : Env) (s : State)
    (hweather : s.isWeatherBad = true) (hprog : s.isTaskInProgress = false) :
    handleCallCar env s
      = { s with dialog := none,
                 trace := s.trace ++
                   [.showAlert "当前天气恶劣（雨/雪），无人车为了安全已暂停服务。请稍后再试。"
                     "⚠️ 暂停运营"] }
    ∧ (handleCallCar env s).isTaskInProgress = false
    ∧ SameMission s (handleCallCar env s)
    ∧ NoRouting s (handleCallCar env s) := by
  have h : handleCallCar env s
      = { s with dialog := none,
                 trace := s.trace ++
                   [.showAlert "当前天气恶劣（雨/雪），无人车为了安全已暂停服务。请稍后再试。"
                     "⚠️ 暂停运营"] } := by
    simp [handleCallCar, hweather, hprog, showAlert, State.emit]
  rw [h]
  exact ⟨rfl, hprog, by simp [SameMission], by simp [NoRouting, callsSince, searchesOf]⟩

/-- Witness for C23: bad weather sets in with `dorm_a` and `library`
selected, then the call button is pressed. -/
theorem handleCallCar_bad_weather_starts_nothing_witness :
    (handleBadWeather selectedState).isWeatherBad = true
    ∧ (handleBadWeather selectedState).isTaskInProgress = false
    ∧ (handleCallCar exampleEnv (handleBadWeather selectedState)).isTaskInProgress = false
    ∧ NoRouting (handleBadWeather selectedState)
        (handleCallCar exampleEnv (handleBadWeather selectedState)) :=
  have h := handleCallCar_bad_weather_starts_nothing exampleEnv
    (handleBadWeather selectedState) rfl rfl
  ⟨rfl, rfl, h.2.1, h.2.2.2⟩

/-! ## Theorems: transport code -/

theorem transportChars_length : transportChars.length = 32 := by decide

theorem floor_draw_in_range (r : ℚ) (h0 : 0 ≤ r) (h1 : r < 1) :
    0 ≤ ⌊r * (transportChars.length : ℚ)⌋ ∧ ⌊r * (transportChars.length : ℚ)⌋ < 32 := by
  rw [transportChars_length]
  constructor
  · exact Int.floor_nonneg.mpr (by positivity)
  · rw [Int.floor_lt]
    push_cast
    linarith

theorem charAt_draw (r : ℚ) (h0 : 0 ≤ r) (h1 : r < 1) :
    ∃ c ∈ transportChars.toList,
      charAt transportChars ⌊r * (transportChars.length : ℚ)⌋ = String.singleton c := by
  obtain ⟨hk0, hk1⟩ := floor_draw_in_range r h0 h1
  have hlt : ⌊r * (transportChars.length : ℚ)⌋.toNat < transportChars.toList.length := by
    have : transportChars.toList.length = 32 := by decide
    rw [this]
    omega
  refine ⟨transportChars.toList[⌊r * (transportChars.length : ℚ)⌋.toNat],
    List.getElem_mem _, ?_⟩
  simp only [charAt, not_lt.mpr hk0, if_false, List.getElem?_eq_getElem hlt]

/-- C24: when the five draws of `Math.random()` lie in [0, 1),
`generateTransportCode` returns a string of exactly 5 characters, each a
member of the alphabet `ABCDEFGHJKLMNPQRSTUVWXYZ23456789`; every computed index
lies in `0 .. 31`; the alphabet has 32 characters and contains none of `I`,
`O`, `0` and `1`. -/
theorem generateTransportCode_five_from_alphabet (rand : Nat → ℚ)
    (h : ∀ i, i < 5 → 0 ≤ rand i ∧ rand i < 1) :
    (generateTransportCode rand).length = 5
    ∧ (∀ c ∈ (generateTransportCode rand).toList, c ∈ transportChars.toList)
    ∧ (∀ i, i < 5 → 0 ≤ ⌊rand i * (transportChars.length : ℚ)⌋
        ∧ ⌊rand i * (transportChars.length : ℚ)⌋ < 32)
    ∧ transportChars = "ABCDEFGHJKLMNPQRSTUVWXYZ23456789"
    ∧ transportChars.length = 32
    ∧ 'I' ∉ transportChars.toList
    ∧ 'O' ∉ transportChars.toList
    ∧ '0' ∉ transportChars.toList
    ∧ '1' ∉ transportChars.toList := by
  obtain ⟨c0, hc0, e0⟩ := charAt_draw (rand 0) (h 0 (by omega)).1 (h 0 (by omega)).2
  obtain ⟨c1, hc1, e1⟩ := charAt_draw (rand 1) (h 1 (by omega)).1 (h 1 (by omega)).2
  obtain ⟨c2, hc2, e2⟩ := charAt_draw (rand 2) (h 2 (by omega)).1 (h 2 (by omega)).2
  obtain ⟨c3, hc3, e3⟩ := charAt_draw (rand 3) (h 3 (by omega)).1 (h 3 (by omega)).2
  obtain ⟨c4, hc4, e4⟩ := charAt_draw (rand 4) (h 4 (by omega)).1 (h 4 (by omega)).2
  have hcode : generateTransportCode rand = ⟨[c0, c1, c2, c3, c4]⟩ := by
    simp only [generateTransportCode, List.range, List.range.loop, List.foldl_cons,
      List.foldl_nil, e0, e1, e2, e3, e4]
    rfl
  refine ⟨by rw [hcode]; rfl, ?_, fun i hi => floor_draw_in_range _ (h i hi).1 (h i hi).2,
    rfl, transportChars_length, by decide, by decide, by decide, by decide⟩
  intro c hc
  rw [hcode] at hc
  simp only [String.toList, List.mem_cons, List.mem_singleton, List.not_mem_nil,
    or_false] at hc
  rcases hc with rfl | rfl | rfl | rfl | rfl <;> assumption

/-- Witness for C24: all five draws equal to 0. -/
theorem generateTransportCode_five_from_alphabet_witness :
    (∀ i, i < 5 → 0 ≤ exampleEnv.rand i ∧ exampleEnv.rand i < 1)
    ∧ (generateTransportCode exampleEnv.rand).length = 5 :=
  have hdraws : ∀ i, i < 5 → 0 ≤ exampleEnv.rand i ∧ exampleEnv.rand i < 1 :=
    fun _ _ => ⟨le_refl (0 : ℚ), zero_lt_one⟩
  ⟨hdraws, (generateTransportCode_five_from_alphabet exampleEnv.rand hdraws).1⟩

/-! ## Theorems: random start position -/

theorem randomPositionLoop_spec (inFence : LngLat → Bool) (rand : Nat → ℚ)
    (fuel safeGuard : Nat) (hfuel : 0 < fuel) (hsum : fuel + safeGuard = 20) :
    ∃ k, safeGuard ≤ k ∧ k < 20
      ∧ randomPositionLoop inFence rand fuel safeGuard = some (candidate rand k, k + 1)
      ∧ (∀ j, safeGuard ≤ j → j < k → inFence (candidate rand j) = false)
      ∧ (inFence (candidate rand k) = true ∨ k = 19) := by
  induction fuel generalizing safeGuard with
  | zero => omega
  | succ n ih =>
    by_cases hin : inFence (candidate rand safeGuard) = true
    · refine ⟨safeGuard, le_refl _, by omega, ?_, fun j h1 h2 => by omega, Or.inl hin⟩
      simp [randomPositionLoop, hin]
    · have hin' : inFence (candidate rand safeGuard) = false := by simpa using hin
      by_cases hlast : safeGuard + 1 < 20
      · obtain ⟨k, hk1, hk2, hk3, hk4, hk5⟩ := ih (safeGuard + 1) (by omega) (by omega)
        refine ⟨k, by omega, hk2, ?_, ?_, hk5⟩
        · simp [randomPositionLoop, hin', hlast, hk3]
        · intro j h1 h2
          by_cases hj : j = safeGuard
          · rw [hj]; exact hin'
          · exact hk4 j (by omega) h2
      · have h19 : safeGuard = 19 := by omega
        refine ⟨safeGuard, le_refl _, by omega, ?_, fun j h1 h2 => by omega, Or.inr h19⟩
        simp [randomPositionLoop, hin', hlast]

/-- C25: for every fence predicate and every stream of draws,
`getRandomCampusPosition` returns (the bound of 20 turns is enough) after
drawing `k + 1 ≤ 20` candidates, and what it returns is the last candidate
drawn, number `k`: no earlier candidate passes the fence, and either candidate
`k` passes it or it is the 20th candidate, returned whether or not it passes. -/
theorem getRandomCampusPosition_terminates (inFence : LngLat → Bool) (rand : Nat → ℚ) :
    ∃ k, k < 20
      ∧ getRandomCampusPosition inFence rand = some (candidate rand k, k + 1)
      ∧ (∀ j, j < k → inFence (candidate rand j) = false)
      ∧ (inFence (candidate rand k) = true ∨ k = 19) := by
  obtain ⟨k, _, hk2, hk3, hk4, hk5⟩ :=
    randomPositionLoop_spec inFence rand 20 0 (by omega) (by omega)
  exact ⟨k, hk2, hk3, fun j hj => hk4 j (Nat.zero_le j) hj, hk5⟩

/-- C26, counterexample: with both draws of the first turn equal to 0 the
candidate is (118.818, 31.885); its latitude is below the latitude of every
vertex of `geoFencePath`, whose least latitude is 31.886345, so the candidate
lies outside the bounding box of the polygon. -/
theorem candidate_below_fence_bounding_box :
    candidate (fun _ => 0) 0 = ⟨118.818, 31.885⟩
    ∧ (∀ a ∈ geoFencePath, (candidate (fun _ => 0) 0).lat < a.lat)
    ∧ inRingBox (candidate (fun _ => 0) 0) geoFencePath = false := by
  have hc : candidate (fun _ => 0) 0 = ⟨118.818, 31.885⟩ := by
    simp [candidate, campusBounds]
  refine ⟨hc, ?_, ?_⟩
  · rw [hc]
    intro a ha
    simp only [geoFencePath, List.mem_cons, List.mem_singleton, List.not_mem_nil,
      or_false] at ha
    rcases ha with rfl | rfl | rfl | rfl | rfl | rfl | rfl | rfl | rfl | rfl | rfl | rfl <;>
      norm_num
  · rw [hc]
    with_unfolding_all rfl

/-- C26, amended: every candidate of `getRandomCampusPosition` lies within the
closed box `campusBounds`, longitude from 118.818 to 118.828 and latitude from
31.885 to 31.892, both ends included (the draws range over [0, 1], the end 1
standing for the rounded products of the script, and at that end the candidate
is the corner (118.828, 31.892) itself).  That box is not the bounding box of
`geoFencePath`: its longitudes and its greatest latitude lie within the range
of the polygon, but its least latitude 31.885 lies below the least latitude
31.886345 of the polygon.  A candidate lies within the bounding box of the
polygon when its latitude is at least 31.886345. -/
theorem candidate_within_campusBounds (rand : Nat → ℚ) (k : Nat)
    (hlng : 0 ≤ rand (2 * k) ∧ rand (2 * k) ≤ 1)
    (hlat : 0 ≤ rand (2 * k + 1) ∧ rand (2 * k + 1) ≤ 1) :
    campusBounds.minLng ≤ (candidate rand k).lng
    ∧ (candidate rand k).lng ≤ campusBounds.maxLng
    ∧ campusBounds.minLat ≤ (candidate rand k).lat
    ∧ (candidate rand k).lat ≤ campusBounds.maxLat
    ∧ (rand (2 * k) = 1 → rand (2 * k + 1) = 1 → candidate rand k = ⟨118.828, 31.892⟩)
    ∧ (31.886345 ≤ (candidate rand k).lat →
        inRingBox (candidate rand k) geoFencePath = true) := by
  obtain ⟨h1, h2⟩ := hlng
  obtain ⟨h3, h4⟩ := hlat
  have e1 : (candidate rand k).lng = 118.818 + rand (2 * k) * (118.828 - 118.818) := rfl
  have e2 : (candidate rand k).lat = 31.885 + rand (2 * k + 1) * (31.892 - 31.885) := rfl
  have b1 : campusBounds.minLng = 118.818 := rfl
  have b2 : campusBounds.maxLng = 118.828 := rfl
  have b3 : campusBounds.minLat = 31.885 := rfl
  have b4 : campusBounds.maxLat = 31.892 := rfl
  rw [b1, b2, b3, b4]
  have g1 : (118.818 : ℚ) ≤ (candidate rand k).lng := by rw [e1]; norm_num; linarith
  have g2 : (candidate rand k).lng ≤ 118.828 := by rw [e1]; norm_num; linarith
  have g3 : (31.885 : ℚ) ≤ (candidate rand k).lat := by rw [e2]; norm_num; linarith
  have g4 : (candidate rand k).lat ≤ 31.892 := by rw [e2]; norm_num; linarith
  refine ⟨g1, g2, g3, g4, ?_, ?_⟩
  · intro hone1 hone2
    simp only [candidate, campusBounds, hone1, hone2]
    norm_num
  intro hlow
  simp only [inRingBox, Bool.and_eq_true, List.any_eq_true, decide_eq_true_eq]
  refine ⟨⟨⟨⟨⟨118.813826, 31.886345⟩, by simp [geoFencePath], ?_⟩,
    ⟨⟨118.828425, 31.887076⟩, by simp [geoFencePath], ?_⟩⟩,
    ⟨⟨118.813826, 31.886345⟩, by simp [geoFencePath], ?_⟩⟩,
    ⟨⟨118.828413, 31.89229⟩, by simp [geoFencePath], ?_⟩⟩
  · show (118.813826 : ℚ) ≤ _
    norm_num at g1 ⊢
    linarith
  · show _ ≤ (118.828425 : ℚ)
    norm_num at g2 ⊢
    linarith
  · exact hlow
  · show _ ≤ (31.89229 : ℚ)
    norm_num at g4 ⊢
    linarith

/-- Witness for C26 (amended): both draws of the first turn equal to 1/2, the
candidate being (118.823, 31.8885), and both equal to 1, the candidate being
the corner (118.828, 31.892). -/
theorem candidate_within_campusBounds_witness :
    (0 ≤ (fun _ : Nat => (1 / 2 : ℚ)) (2 * 0) ∧ (fun _ : Nat => (1 / 2 : ℚ)) (2 * 0) ≤ 1)
    ∧ 31.886345 ≤ (candidate (fun _ => 1 / 2) 0).lat
    ∧ campusBounds.minLat ≤ (candidate (fun _ => 1 / 2) 0).lat
    ∧ (candidate (fun _ => 1 / 2) 0).lat ≤ campusBounds.maxLat
    ∧ inRingBox (candidate (fun _ => 1 / 2) 0) geoFencePath = true
    ∧ candidate (fun _ => 1) 0 = ⟨118.828, 31.892⟩ :=
  have hdraw : 0 ≤ (fun _ : Nat => (1 / 2 : ℚ)) (2 * 0)
      ∧ (fun _ : Nat => (1 / 2 : ℚ)) (2 * 0) ≤ 1 := by norm_num
  have hlow : 31.886345 ≤ (candidate (fun _ => 1 / 2) 0).lat := by
    simp only [candidate, campusBounds]
    norm_num
  have h := candidate_within_campusBounds (fun _ => 1 / 2) 0 hdraw (by norm_num)
  have hone := candidate_within_campusBounds (fun _ => 1) 0 (by norm_num) (by norm_num)
  ⟨hdraw, hlow, h.2.2.1, h.2.2.2.1, h.2.2.2.2.2 hlow, hone.2.2.2.2.1 rfl rfl⟩

/-! ## Theorems: totals, clean-up and flattening -/

theorem foldl_add_eq_sum (f : SearchResult → ℚ) (results : List SearchResult) (a : ℚ) :
    results.foldl (fun acc result => acc + f result) a = a + (results.map f).sum := by
  induction results generalizing a with
  | nil => simp
  | cons r rest ih => simp [ih, add_assoc]

theorem sumDistance_eq_sum (results : List SearchResult) :
    sumDistance results = (results.map legDistance).sum := by
  have hf : (fun result : SearchResult => ((firstRoute result).bind Route.distance).getD 0)
      = legDistance := by
    funext result
    simp only [legDistance]
    cases firstRoute result <;> rfl
  simp only [sumDistance]
  rw [foldl_add_eq_sum (fun result => ((firstRoute result).bind Route.distance).getD 0),
    hf, zero_add]

theorem sumTime_eq_sum (results : List SearchResult) :
    sumTime results = (results.map legTime).sum := by
  have hf : (fun result : SearchResult => ((firstRoute result).bind Route.time).getD 0)
      = legTime := by
    funext result
    simp only [legTime]
    cases firstRoute result <;> rfl
  simp only [sumTime]
  rw [foldl_add_eq_sum (fun result => ((firstRoute result).bind Route.time).getD 0),
    hf, zero_add]

/-- C27: when every leg of `planRouteWithWaypoints` succeeds, the one call of
`mergeAndShowPath` receives as total distance the sum, over the legs in order,
of `route.distance` and as total time the sum of `route.time`, a missing value
counting as 0. -/
theorem planRouteWithWaypoints_totals (far : LngLat → LngLat → Bool) (s : State)
    (startLngLat endLngLat : LngLat) (waypoints : List LngLat)
    (results : List SearchResult)
    (hlen : results.length = waypoints.length + 1)
    (hok : ∀ r ∈ results, r.succeeded = true) :
    mergeCallsOf (callsSince s
        (searchReturnsAll far s.searchCallbacks.length results
          (planRouteWithWaypoints startLngLat endLngLat waypoints s)))
      = [(results.map (legPath far), (results.map legDistance).sum,
          (results.map legTime).sum)] := by
  rw [composer_run_finished far s startLngLat endLngLat waypoints results hok hlen,
    callsSince_of_trace s _ _ (by rw [mergeAndShowPath_trace, List.append_assoc]),
    sumDistance_eq_sum, sumTime_eq_sum]
  cases s.pathPolyline <;>
    simp [mergeCallsOf_append, mergeCallsOf_searchCmds, mergeCallsOf]

/-- Witness for C27: the route with one waypoint of the earlier examples, each
leg with distance 120 and time 60. -/
theorem planRouteWithWaypoints_totals_witness :
    mergeCallsOf (callsSince initialState
        (searchReturnsAll equatorFar initialState.searchCallbacks.length
          [pathAnswer [⟨0, 0⟩, ⟨0, 1⟩], pathAnswer [⟨0, 1⟩, ⟨0, 2⟩]]
          (planRouteWithWaypoints ⟨0, 0⟩ ⟨0, 2⟩ [⟨0, 1⟩] initialState)))
      = [([pathAnswer [⟨0, 0⟩, ⟨0, 1⟩], pathAnswer [⟨0, 1⟩, ⟨0, 2⟩]].map
            (legPath equatorFar),
          ([pathAnswer [⟨0, 0⟩, ⟨0, 1⟩], pathAnswer [⟨0, 1⟩, ⟨0, 2⟩]].map legDistance).sum,
          ([pathAnswer [⟨0, 0⟩, ⟨0, 1⟩], pathAnswer [⟨0, 1⟩, ⟨0, 2⟩]].map legTime).sum)]
    ∧ ([pathAnswer [⟨0, 0⟩, ⟨0, 1⟩], pathAnswer [⟨0, 1⟩, ⟨0, 2⟩]].map legDistance).sum
        = 240 :=
  ⟨planRouteWithWaypoints_totals equatorFar initialState ⟨0, 0⟩ ⟨0, 2⟩ [⟨0, 1⟩]
    [pathAnswer [⟨0, 0⟩, ⟨0, 1⟩], pathAnswer [⟨0, 1⟩, ⟨0, 2⟩]] rfl
    (by
      intro r hr
      simp only [List.mem_cons, List.mem_singleton, List.not_mem_nil, or_false] at hr
      rcases hr with rfl | rfl <;> rfl),
   by
    simp [legDistance, firstRoute, pathAnswer]
    norm_num⟩

theorem foldl_cleanStep_kept (far : LngLat → LngLat → Bool) (rest acc : List LngLat) :
    ∃ kept, List.Sublist kept rest ∧ rest.foldl (cleanStep far) acc = acc ++ kept := by
  induction rest generalizing acc with
  | nil => exact ⟨[], List.Sublist.refl _, by simp⟩
  | cons current more ih =>
    obtain ⟨kept, hsub, hfold⟩ := ih (cleanStep far acc current)
    simp only [List.foldl_cons, hfold]
    unfold cleanStep
    split
    · split
      · exact ⟨current :: kept, List.Sublist.cons₂ _ hsub, by simp⟩
      · exact ⟨kept, List.Sublist.cons _ hsub, rfl⟩
    · exact ⟨kept, List.Sublist.cons _ hsub, rfl⟩

theorem cleanPath_head_sublist (far : LngLat → LngLat → Bool) (path : List LngLat) :
    (cleanPath far path).head? = path.head? ∧ List.Sublist (cleanPath far path) path := by
  unfold cleanPath
  split
  · cases path with
    | nil => exact ⟨rfl, List.Sublist.refl _⟩
    | cons first rest =>
      obtain ⟨kept, hsub, hfold⟩ := foldl_cleanStep_kept far rest [first]
      simp only [hfold]
      exact ⟨rfl, List.Sublist.cons₂ _ hsub⟩
  · exact ⟨rfl, List.Sublist.refl _⟩

/-- C28: in the output of `extractPathFromRoute` every pair of consecutive
points passes the test `dist > 0.5` of the function (taken from the earlier
point to the later one), the output starts with the first flattened point, and
the output is a subsequence of the flattened points in their order.  This
holds for every route, in particular for one whose flattened path has more
than one point; a flattened path of at most one point is returned as it is. -/
theorem extractPathFromRoute_cleaned (far : LngLat → LngLat → Bool) (route : Route) :
    NoClosePair far (extractPathFromRoute far route)
    ∧ (extractPathFromRoute far route).head? = (flattenRoute route).head?
    ∧ List.Sublist (extractPathFromRoute far route) (flattenRoute route)
    ∧ ((flattenRoute route).length ≤ 1 →
        extractPathFromRoute far route = flattenRoute route) := by
  refine ⟨cleanPath_noClosePair far _, (cleanPath_head_sublist far _).1,
    (cleanPath_head_sublist far _).2, ?_⟩
  intro h
  simp [extractPathFromRoute, cleanPath, Nat.not_lt.mpr h]

theorem pushSteps_eq (path : List LngLat) (steps : List Step) :
    pushSteps path steps = path ++ stepsPoints steps := by
  induction steps generalizing path with
  | nil => simp [pushSteps, stepsPoints]
  | cons step more ih =>
    have hstep : pushSteps path (step :: more)
        = pushSteps (match step.path with
            | some p => path ++ p
            | none => path) more := rfl
    rw [hstep, ih]
    cases h : step.path <;> simp [stepsPoints, h]

theorem foldl_rides_eq (rides : List Ride) (acc : List LngLat) :
    rides.foldl (fun acc ride =>
        let acc := match ride.path with
          | some p => acc ++ p
          | none => acc
        match ride.steps with
        | some steps => pushSteps acc steps
        | none => acc) acc
      = acc ++ (rides.map ridePoints).flatten := by
  induction rides generalizing acc with
  | nil => simp
  | cons ride more ih =>
    simp only [List.foldl_cons, ih, List.map_cons, List.flatten_cons, ridePoints]
    cases h1 : ride.path <;> cases h2 : ride.steps <;>
      simp [pushSteps_eq, stepsPoints]

/-- C29: the raw path `extractPathFromRoute` cleans is fixed by priority: when
the rides of the route yield any point it is, for each ride in order, the path
of the ride followed by the paths of its steps; otherwise, when the steps of
the route yield any point, the concatenation of their paths in order;
otherwise `route.path`; and a route with none of these yields the empty path,
which `extractPathFromRoute` returns as it is. -/
theorem flattenRoute_priority (far : LngLat → LngLat → Bool) (route : Route) :
    flattenRoute route = flattenSpec route
    ∧ extractPathFromRoute far route = cleanPath far (flattenSpec route)
    ∧ (((route.rides.getD []).map ridePoints).flatten ≠ [] →
        flattenRoute route = ((route.rides.getD []).map ridePoints).flatten)
    ∧ (((route.rides.getD []).map ridePoints).flatten = [] →
        stepsPoints (route.steps.getD []) ≠ [] →
        flattenRoute route = stepsPoints (route.steps.getD []))
    ∧ (((route.rides.getD []).map ridePoints).flatten = [] →
        stepsPoints (route.steps.getD []) = [] →
        flattenRoute route = route.path.getD [])
    ∧ (route.rides = none → route.steps = none → route.path = none →
        flattenRoute route = [] ∧ extractPathFromRoute far route = []) := by
  have hspec : flattenRoute route = flattenSpec route := by
    have hnil : stepsPoints [] = [] := rfl
    rcases route with ⟨rides, steps, path, distance, time⟩
    have hnorm : ∀ (fromRides fromSteps : List LngLat) (path : Option (List LngLat)),
        (if (if fromRides.length = 0 then fromRides ++ fromSteps else fromRides).length = 0
          then
            match path with
            | some p => (if fromRides.length = 0 then fromRides ++ fromSteps
                else fromRides) ++ p
            | none => if fromRides.length = 0 then fromRides ++ fromSteps else fromRides
          else if fromRides.length = 0 then fromRides ++ fromSteps else fromRides)
        = if fromRides ≠ [] then fromRides
          else if fromSteps ≠ [] then fromSteps
          else path.getD [] := by
      intro fromRides fromSteps path
      by_cases h1 : fromRides = [] <;> by_cases h2 : fromSteps = [] <;> cases path <;>
        simp [h1, h2]
    cases rides with
    | none =>
      cases steps with
      | none =>
        have := hnorm [] [] path
        simpa [flattenRoute, flattenSpec, hnil] using this
      | some steps =>
        have := hnorm [] (stepsPoints steps) path
        simpa [flattenRoute, flattenSpec, pushSteps_eq] using this
    | some rides =>
      cases steps with
      | none =>
        have := hnorm ((rides.map ridePoints).flatten) [] path
        simp only [flattenRoute, flattenSpec, foldl_rides_eq]
        simpa [hnil] using this
      | some steps =>
        have := hnorm ((rides.map ridePoints).flatten) (stepsPoints steps) path
        simp only [flattenRoute, flattenSpec, foldl_rides_eq]
        simpa [pushSteps_eq] using this
  refine ⟨hspec, by rw [extractPathFromRoute, hspec], ?_, ?_, ?_, ?_⟩
  · intro h
    rw [hspec]
    simp [flattenSpec, h]
  · intro h1 h2
    rw [hspec]
    simp [flattenSpec, h1, h2]
  · intro h1 h2
    rw [hspec]
    simp [flattenSpec, h1, h2]
  · intro h1 h2 h3
    have : flattenRoute route = [] := by
      rw [hspec]
      simp [flattenSpec, h1, h2, h3, stepsPoints]
    exact ⟨this, by simp [extractPathFromRoute, this, cleanPath]⟩

/-! ## Theorems: what provider answers and arrivals leave alone -/

theorem keepsFlags_refl (s : State) : KeepsFlags s s :=
  ⟨rfl, rfl, rfl, rfl, rfl, rfl, rfl, rfl, Or.inl rfl⟩

theorem keepsFlags_trans (a b c : State) (h1 : KeepsFlags a b) (h2 : KeepsFlags b c) :
    KeepsFlags a c := by
  obtain ⟨a1, a2, a3, a4, a5, a6, a7, a8, a9⟩ := h1
  obtain ⟨b1, b2, b3, b4, b5, b6, b7, b8, b9⟩ := h2
  refine ⟨b1.trans a1, b2.trans a2, b3.trans a3, b4.trans a4, b5.trans a5, b6.trans a6,
    b7.trans a7, b8.trans a8, ?_⟩
  rcases b9 with h | h
  · rcases a9 with h' | h'
    · exact Or.inl (h.trans h')
    · exact Or.inr (h.trans h')
  · exact Or.inr h

theorem keepsFlags_updateStatus (k : StatusKeyword) (text : String) (s : State) :
    KeepsFlags s (updateStatus k text s) := by
  simp [KeepsFlags, updateStatus_eq]

theorem keepsFlags_showAlert (message title : String) (s : State) :
    KeepsFlags s (showAlert message title s) := by
  simp [KeepsFlags, showAlert, State.emit]

theorem keepsFlags_drawPathPolyline (path : List LngLat) (s : State) :
    KeepsFlags s (drawPathPolyline path s) := by
  cases h : s.pathPolyline <;> simp [KeepsFlags, drawPathPolyline, State.emit, h]

theorem keepsFlags_startCarAnimation (path : List LngLat) (speed : ℚ) (s : State) :
    KeepsFlags s (startCarAnimation path speed s) := by
  simp [KeepsFlags, startCarAnimation, updateStatus_eq, updateBottomIsland, State.emit]

theorem keepsFlags_startCarAnimationToPickup (path : List LngLat) (s : State) :
    KeepsFlags s (startCarAnimationToPickup path s) := by
  simp [KeepsFlags, startCarAnimationToPickup, updateStatus_eq, setCameraFollow,
    State.emit]

theorem keepsFlags_mergeAndShowPath (segments : List (List LngLat)) (d t : ℚ) (s : State) :
    KeepsFlags s (mergeAndShowPath segments d t s) := by
  cases h : s.pathPolyline <;>
    simp [KeepsFlags, mergeAndShowPath, drawPathPolyline, startCarAnimation,
      updateStatus_eq, updateBottomIsland, State.emit, h]

theorem keepsFlags_planNextSegment (nodes : List LngLat) (segs : List (List LngLat))
    (d t : ℚ) (k : Nat) (s : State) :
    KeepsFlags s (planNextSegment nodes segs d t k s) := by
  unfold planNextSegment
  split
  · exact keepsFlags_mergeAndShowPath _ _ _ s
  · split
    · simp [KeepsFlags, ridingSearch, State.emit]
    · exact keepsFlags_refl s

theorem keepsFlags_onRouteSuccess (far : LngLat → LngLat → Bool) (result : SearchResult)
    (s : State) : KeepsFlags s (onRouteSuccess far result s) := by
  unfold onRouteSuccess
  split
  · exact keepsFlags_trans _ _ _ (keepsFlags_updateStatus _ _ s) (keepsFlags_showAlert _ _ _)
  · simp only []
    split
    · exact keepsFlags_trans _ _ _ (keepsFlags_updateStatus _ _ s)
        (keepsFlags_showAlert _ _ _)
    · exact keepsFlags_trans _ _ _ (keepsFlags_drawPathPolyline _ s)
        (keepsFlags_startCarAnimation _ _ _)

theorem keepsFlags_setCameraFollow (following : Bool) (s : State) :
    KeepsFlags s (setCameraFollow following s) := by
  simp [KeepsFlags, setCameraFollow]

theorem keepsFlags_updateBottomIsland (st : IslandState) (s : State) :
    KeepsFlags s (updateBottomIsland st s) := by
  simp [KeepsFlags, updateBottomIsland]

theorem keepsFlags_runSearchCallback (far : LngLat → LngLat → Bool)
    (callback : SearchCallback) (result : SearchResult) (s : State) :
    KeepsFlags s (runSearchCallback far callback result s) := by
  cases callback with
  | toPickup =>
    simp only [runSearchCallback]
    split
    · exact keepsFlags_trans _ _ _
        (keepsFlags_trans _ _ _ (keepsFlags_drawPathPolyline _ s)
          (keepsFlags_startCarAnimationToPickup _ _))
        (keepsFlags_updateBottomIsland _ _)
    · exact keepsFlags_trans _ _ _ (keepsFlags_updateStatus _ _ s)
        (keepsFlags_showAlert _ _ _)
  | direct =>
    simp only [runSearchCallback]
    split
    · exact keepsFlags_trans _ _ _ (keepsFlags_onRouteSuccess far result s)
        (keepsFlags_setCameraFollow _ _)
    · exact keepsFlags_trans _ _ _ (keepsFlags_updateStatus _ _ s)
        (keepsFlags_showAlert _ _ _)
  | planRoute =>
    simp only [runSearchCallback]
    split
    · exact keepsFlags_onRouteSuccess far result s
    · exact keepsFlags_trans _ _ _ (keepsFlags_updateStatus _ _ s)
        (keepsFlags_showAlert _ _ _)
  | segment nodes segs d t k =>
    simp only [runSearchCallback]
    split
    · exact keepsFlags_planNextSegment _ _ _ _ _ s
    · exact keepsFlags_trans _ _ _ (keepsFlags_updateStatus _ _ s)
        (keepsFlags_showAlert _ _ _)

theorem keepsFlags_searchReturns (far : LngLat → LngLat → Bool) (i : Nat)
    (result : SearchResult) (s : State) :
    KeepsFlags s (searchReturns far i result s) := by
  unfold searchReturns
  split
  · exact keepsFlags_refl s
  · exact keepsFlags_trans _ _ _ (by simp [KeepsFlags])
      (keepsFlags_runSearchCallback far _ result _)

theorem keepsFlags_runArrivalListener (l : ArrivalListener) (s : State) :
    KeepsFlags s (runArrivalListener l s) := by
  cases l <;>
    simp [KeepsFlags, runArrivalListener, updateStatus_eq, updateBottomIsland,
      setCameraFollow]

theorem keepsFlags_foldl_listeners (listeners : List ArrivalListener) (s : State) :
    KeepsFlags s (listeners.foldl (fun acc l => runArrivalListener l acc) s) := by
  induction listeners generalizing s with
  | nil => exact keepsFlags_refl s
  | cons l rest ih =>
    exact keepsFlags_trans _ _ _ (keepsFlags_runArrivalListener l s) (ih _)

theorem keepsFlags_movealongEvent (s : State) : KeepsFlags s (movealongEvent s) :=
  keepsFlags_foldl_listeners _ s

/-! ## Theorems: the emergency flag and late routing results -/

theorem handleCallCar_isEmergencyStopped (env : Env) (s : State) :
    (handleCallCar env s).isEmergencyStopped = s.isEmergencyStopped := by
  by_cases hprog : s.isTaskInProgress = true
  · by_cases hload : s.hasPickedUpGoods = true <;>
      simp [handleCallCar, hprog, hload, showAlert, showConfirmDialog, State.emit]
  · by_cases hweather : s.isWeatherBad = true
    · simp [handleCallCar, hprog, hweather, showAlert, State.emit]
    · by_cases hstart : s.startSelect = ""
      · simp [handleCallCar, hprog, hweather, hstart, showAlert, State.emit]
      · by_cases hend : s.endSelect = ""
        · simp [handleCallCar, hprog, hweather, hend, showAlert, State.emit]
        · by_cases hmode : s.modeSelect = "custom" <;>
            cases h1 : locations.find? (fun l => l.id == s.startSelect) <;>
            cases h2 : locations.find? (fun l => l.id == s.endSelect) <;>
            simp [handleCallCar, hprog, hweather, hstart, hend, hmode, h1, h2,
              updateStatus_eq, planTwoStageRoute, ridingSearch, State.emit]

theorem confirmLoadAndContinue_isEmergencyStopped (s : State) :
    (confirmLoadAndContinue s).isEmergencyStopped = s.isEmergencyStopped := by
  unfold confirmLoadAndContinue
  split <;> simp [showAlert, showConfirmDialog, State.emit]

theorem confirmDelivery_flags (now : String) (s : State) :
    (confirmDelivery now s).isTaskInProgress = false
    ∧ (confirmDelivery now s).hasPickedUpGoods = false
    ∧ (confirmDelivery now s).pendingDelivery = none
    ∧ (confirmDelivery now s).currentMission = none
    ∧ (confirmDelivery now s).dialog = none
    ∧ (confirmDelivery now s).startSelect = s.startSelect
    ∧ (confirmDelivery now s).endSelect = s.endSelect
    ∧ (confirmDelivery now s).isEmergencyStopped = s.isEmergencyStopped := by
  cases hp : s.pathPolyline <;> cases hm : s.currentMission <;>
    simp [confirmDelivery, updateStatus_eq, showAlert, State.emit, updateBottomIsland,
      resetCustomPath, hp, hm]

theorem executeLoadAndContinue_flags (pending : PendingDelivery) (s : State) :
    (executeLoadAndContinue pending s).isTaskInProgress = s.isTaskInProgress
    ∧ (executeLoadAndContinue pending s).hasPickedUpGoods = true
    ∧ (executeLoadAndContinue pending s).pendingDelivery = none
    ∧ (executeLoadAndContinue pending s).currentMission = s.currentMission
    ∧ (executeLoadAndContinue pending s).dialog = s.dialog
    ∧ (executeLoadAndContinue pending s).startSelect = s.startSelect
    ∧ (executeLoadAndContinue pending s).endSelect = s.endSelect
    ∧ (executeLoadAndContinue pending s).isEmergencyStopped = s.isEmergencyStopped := by
  have hlen : ∀ a b : LngLat, ∀ w : List LngLat, 0 + 1 < ([a] ++ w ++ [b]).length := by
    intro a b w
    simp
  unfold executeLoadAndContinue
  split_ifs
  · simp only []
    rw [planRouteWithWaypoints, planNextSegment_search _ _ _ _ _ _ (hlen _ _ _)]
    simp [ridingSearch, updateStatus_eq, updateBottomIsland, State.emit]
  · simp [ridingSearch, updateStatus_eq, updateBottomIsland, State.emit]

theorem clickConfirmYes_isEmergencyStopped (s : State)
    (hdialog : s.dialog ≠ some .emergencyResume) (hstop : s.isEmergencyStopped = true) :
    (clickConfirmYes s).isEmergencyStopped = true := by
  unfold clickConfirmYes
  cases hd : s.dialog with
  | none => simpa using hstop
  | some action =>
    cases action with
    | endCurrentTask => simp [runConfirmAction, endCurrentTask_eq, hstop]
    | executeLoadAndContinue pending =>
      simp [runConfirmAction, (executeLoadAndContinue_flags pending _).2.2.2.2.2.2.2, hstop]
    | emergencyResume => exact absurd hd hdialog
    | emergencyStop => simp [runConfirmAction, confirmedEmergencyStop_eq]

theorem toPickup_success (far : LngLat → LngLat → Bool) (result : SearchResult)
    (s : State) (hok : result.succeeded = true) :
    (runSearchCallback far .toPickup result s).status = ⟨.moving, "前往取货点..."⟩
    ∧ ∃ before, moveAlongsOf before = []
      ∧ (runSearchCallback far .toPickup result s).trace
        = s.trace ++ (before ++ [.moveAlong (legPath far result) 20]) := by
  simp only [SearchResult.succeeded, Bool.and_eq_true, decide_eq_true_eq] at hok
  obtain ⟨hstatus, hroute⟩ := hok
  obtain ⟨route, hroute⟩ := Option.isSome_iff_exists.mp hroute
  cases hp : s.pathPolyline with
  | none =>
    refine ⟨?_, [.drawPathPolyline (extractPathFromRoute far route),
      .setPosition (extractPathFromRoute far route).head?], rfl, ?_⟩ <;>
      simp [runSearchCallback, hstatus, hroute, drawPathPolyline, startCarAnimationToPickup,
        updateStatus_eq, updateBottomIsland, setCameraFollow, State.emit, hp, legPath,
        firstRoute]
  | some old =>
    refine ⟨?_, [.removePolyline, .drawPathPolyline (extractPathFromRoute far route),
      .setPosition (extractPathFromRoute far route).head?], rfl, ?_⟩ <;>
      simp [runSearchCallback, hstatus, hroute, drawPathPolyline, startCarAnimationToPickup,
        updateStatus_eq, updateBottomIsland, setCameraFollow, State.emit, hp, legPath,
        firstRoute]

/-- C21, evaluated at its failing input: in the scenario the emergency stop is
confirmed while the leg to the pickup point is being calculated (status
`emergency`, `isEmergencyStopped` true, `lastStatusState` holding the status
`calculating` from before the stop, the search outstanding, no motion command
issued so far).  When the provider then answers, `isEmergencyStopped` is still
true, yet the status becomes `moving` with the text of the pickup leg,
`moveAlong` is called with the path of the answer, and `lastStatusState` is
overwritten, so that the resume confirmed afterwards restores `moving` instead
of the status from before the stop. -/
theorem late_search_result_moves_stopped_vehicle :
    scenarioStoppedCalculating.isEmergencyStopped = true
    ∧ scenarioStoppedCalculating.status = ⟨.emergency, "紧急停车"⟩
    ∧ scenarioStoppedCalculating.lastStatusState = ⟨.calculating, "路径计算中..."⟩
    ∧ (searchReturns equatorFar 0 pickupLegAnswer scenarioStoppedCalculating).lastStatusState
        = ⟨.moving, "前往取货点..."⟩
    ∧ (clickConfirmYes (handleEmergencyStop
        (searchReturns equatorFar 0 pickupLegAnswer scenarioStoppedCalculating))).status
        = ⟨.moving, "前往取货点..."⟩
    ∧ (clickConfirmYes (handleEmergencyStop scenarioStoppedCalculating)).status
        = ⟨.calculating, "路径计算中..."⟩
    ∧ scenarioStoppedCalculating.searchCallbacks = [.toPickup]
    ∧ moveAlongsOf scenarioStoppedCalculating.trace = []
    ∧ (searchReturns equatorFar 0 pickupLegAnswer
        scenarioStoppedCalculating).isEmergencyStopped = true
    ∧ (searchReturns equatorFar 0 pickupLegAnswer scenarioStoppedCalculating).status
        = ⟨.moving, "前往取货点..."⟩
    ∧ moveAlongsOf (callsSince scenarioStoppedCalculating
        (searchReturns equatorFar 0 pickupLegAnswer scenarioStoppedCalculating))
        = [[⟨118.823748, 31.890009⟩, ⟨118.827694, 31.890928⟩]] := by
  refine ⟨?_, ?_, ?_, ?_, ?_, ?_, ?_, ?_, ?_, ?_, ?_⟩ <;> with_unfolding_all rfl

theorem mapClick_isEmergencyStopped (geometryUtil : Option (LngLat → List LngLat → Bool))
    (lnglat : LngLat) (s : State) :
    (mapClick geometryUtil lnglat s).isEmergencyStopped = s.isEmergencyStopped := by
  unfold mapClick
  split_ifs <;> simp [showAlert, State.emit]
  split_ifs <;> rfl

/-- The emergency flag and the answers of the provider, as the handlers are
written: while `isEmergencyStopped` is set, it stays set over every
page event (provider answers, arrivals, selects, buttons, map clicks, weather
reports, the prompt timer) except a click on the confirm button of the resume
dialog, which the emergency button opens and which clears the flag.  Motion
commands and status changes are not held back meanwhile: a successful answer
to the search of the leg to the pickup point that arrives while stopped sets
the status to `moving` with the text of the pickup leg and calls `moveAlong`
once, with the path of the answer. -/
theorem emergency_flag_held_but_answers_run (far : LngLat → LngLat → Bool) (i : Nat)
    (result : SearchResult) (s : State) (hstop : s.isEmergencyStopped = true) :
    (∀ e : Event, (e = Event.confirmYes → s.dialog ≠ some .emergencyResume) →
      (fire far e s).isEmergencyStopped = true)
    ∧ (handleEmergencyStop s).dialog = some .emergencyResume
    ∧ (clickConfirmYes (handleEmergencyStop s)).isEmergencyStopped = false
    ∧ (s.searchCallbacks[i]? = some .toPickup → result.succeeded = true →
        (searchReturns far i result s).isEmergencyStopped = true
        ∧ (searchReturns far i result s).status = ⟨.moving, "前往取货点..."⟩
        ∧ moveAlongsOf (callsSince s (searchReturns far i result s))
            = [legPath far result]) := by
  refine ⟨?_, ?_, ?_, ?_⟩
  · intro e he
    cases e with
    | startSelected value asks => cases asks <;> simpa [fire, changeStartSelect] using hstop
    | endSelected value asks => cases asks <;> simpa [fire, changeEndSelect] using hstop
    | modeSelected value => simpa [fire, changeModeSelect] using hstop
    | drawButton => simpa [fire, drawButtonClick, updateStatus_eq, showAlert, State.emit] using hstop
    | clearButton => simpa [fire, resetCustomPath] using hstop
    | mapClicked geometryUtil lnglat =>
      simpa [fire, mapClick_isEmergencyStopped] using hstop
    | callButton env => simpa [fire, handleCallCar_isEmergencyStopped] using hstop
    | confirmYes => exact clickConfirmYes_isEmergencyStopped s (he rfl) hstop
    | confirmNo => simpa [fire, clickConfirmNo] using hstop
    | loadButton => simpa [fire, confirmLoadAndContinue_isEmergencyStopped] using hstop
    | deliveryButton now =>
      simpa [fire, (confirmDelivery_flags now s).2.2.2.2.2.2.2] using hstop
    | emergencyButton =>
      simp [fire, handleEmergencyStop, hstop, showConfirmDialog, State.emit]
    | searchAnswered j answer =>
      simpa [fire, (keepsFlags_searchReturns far j answer s).2.2.2.2.2.1] using hstop
    | movealong => simpa [fire, (keepsFlags_movealongEvent s).2.2.2.2.2.1] using hstop
    | weather bad => cases bad <;> simpa [fire, handleBadWeather, handleFairWeather] using hstop
    | postStopTimer => simpa [fire, postStopPrompt] using hstop
  · simp [handleEmergencyStop, hstop, showConfirmDialog, State.emit]
  · rw [clickConfirmYes_resume s hstop, confirmedEmergencyResume_eq]
  · intro hcallback hok
    have hflag := (keepsFlags_searchReturns far i result s).2.2.2.2.2.1
    have hrun : searchReturns far i result s
        = runSearchCallback far .toPickup result
            { s with searchCallbacks := s.searchCallbacks.eraseIdx i } := by
      simp [searchReturns, hcallback]
    obtain ⟨hstatus, before, hbefore, htrace⟩ :=
      toPickup_success far result { s with searchCallbacks := s.searchCallbacks.eraseIdx i } hok
    refine ⟨hflag.trans hstop, hrun ▸ hstatus, ?_⟩
    rw [callsSince_of_trace s _ _ (hrun ▸ htrace)]
    simp [moveAlongsOf_append, moveAlongsOf, hbefore]

/-- The scenario stopped during the route calculation, the provider answering
the outstanding search. -/
theorem emergency_flag_held_but_answers_run_witness :
    scenarioStoppedCalculating.isEmergencyStopped = true
    ∧ (fire equatorFar (.searchAnswered 0 pickupLegAnswer)
        scenarioStoppedCalculating).isEmergencyStopped = true
    ∧ (searchReturns equatorFar 0 pickupLegAnswer scenarioStoppedCalculating).status
        = ⟨.moving, "前往取货点..."⟩
    ∧ moveAlongsOf (callsSince scenarioStoppedCalculating
        (searchReturns equatorFar 0 pickupLegAnswer scenarioStoppedCalculating))
        = [legPath equatorFar pickupLegAnswer] :=
  have hstop : scenarioStoppedCalculating.isEmergencyStopped = true := by
    with_unfolding_all rfl
  have h := emergency_flag_held_but_answers_run equatorFar 0 pickupLegAnswer
    scenarioStoppedCalculating hstop
  have hrun := h.2.2.2 (by with_unfolding_all rfl) (by with_unfolding_all rfl)
  ⟨hstop, h.1 _ (fun hne => nomatch hne), hrun.2.1, hrun.2.2⟩

/-! ## Theorems: consistency of the mission flags -/

theorem isOptionValue_find (value : String) (h : IsOptionValue value) (hne : value ≠ "") :
    ∃ loc, locations.find? (fun l => l.id == value) = some loc := by
  rcases h with h | h
  · exact absurd h hne
  · obtain ⟨loc, hmem, hid⟩ := List.mem_map.mp h
    exact ⟨loc, hid ▸ (locations_find_id loc hmem).1⟩

theorem missionInvariant_of_flags (s t : State) (h : MissionInvariant s)
    (h1 : t.isTaskInProgress = s.isTaskInProgress)
    (h2 : t.hasPickedUpGoods = s.hasPickedUpGoods)
    (h3 : t.pendingDelivery.isSome = s.pendingDelivery.isSome)
    (h4 : t.currentMission = s.currentMission)
    (hs : IsOptionValue t.startSelect) (he : IsOptionValue t.endSelect)
    (hd : ∀ p, t.dialog = some (.executeLoadAndContinue p) →
      (∃ q, s.dialog = some (.executeLoadAndContinue q))
      ∨ s.pendingDelivery.isSome = true) :
    MissionInvariant t := by
  obtain ⟨⟨f1, f2, f3⟩, _, _, f4⟩ := h
  refine ⟨⟨?_, ?_, ?_⟩, hs, he, ?_⟩
  · rw [h1, h2]
    exact f1
  · rw [h1, h4]
    exact f2
  · rw [h1, h2, h3]
    exact f3
  · intro p hp
    rw [h1]
    rcases hd p hp with ⟨q, hq⟩ | hq
    · exact f4 q hq
    · exact (f3 hq).1

theorem missionInvariant_of_keepsFlags (s t : State) (h : MissionInvariant s)
    (hk : KeepsFlags s t) : MissionInvariant t := by
  obtain ⟨k1, k2, k3, k4, _, _, k7, k8, k9⟩ := hk
  refine missionInvariant_of_flags s t h k1 k2 (by rw [k3]) k4 (k7 ▸ h.2.1) (k8 ▸ h.2.2.1) ?_
  intro p hp
  rcases k9 with hk | hk
  · exact Or.inl ⟨p, hk ▸ hp⟩
  · rw [hk] at hp
    cases hp

theorem missionInvariant_idle (t : State)
    (h1 : t.isTaskInProgress = false) (h2 : t.hasPickedUpGoods = false)
    (h3 : t.pendingDelivery = none) (h4 : t.currentMission = none)
    (hs : IsOptionValue t.startSelect) (he : IsOptionValue t.endSelect)
    (hd : t.dialog = none) : MissionInvariant t := by
  refine ⟨⟨?_, ?_, ?_⟩, hs, he, ?_⟩
  · simp [h2]
  · simp [h1, h4]
  · simp [h3]
  · intro p hp
    rw [hd] at hp
    cases hp

theorem missionInvariant_initialState : MissionInvariant initialState :=
  missionInvariant_idle initialState rfl rfl rfl rfl (Or.inl rfl) (Or.inl rfl) rfl

theorem missionInvariant_mapClick (geometryUtil : Option (LngLat → List LngLat → Bool))
    (lnglat : LngLat) (s : State) (h : MissionInvariant s) :
    MissionInvariant (mapClick geometryUtil lnglat s) := by
  unfold mapClick
  split_ifs with h1 h2
  · exact h
  · exact missionInvariant_of_keepsFlags s _ h (keepsFlags_showAlert _ _ s)
  · by_cases hshared : s.viaPointsShared = true
    · refine missionInvariant_of_flags s _ h ?_ ?_ ?_ ?_ ?_ ?_ ?_
      · simp [hshared]
      · simp [hshared]
      · simp [hshared]
      · simp [hshared]
      · simpa [hshared] using h.2.1
      · simpa [hshared] using h.2.2.1
      · intro p hp
        left
        cases hd : s.dialog with
        | none => simp [hshared, hd] at hp
        | some action =>
          cases action with
          | executeLoadAndContinue q => exact ⟨q, rfl⟩
          | endCurrentTask => simp [hshared, hd] at hp
          | emergencyResume => simp [hshared, hd] at hp
          | emergencyStop => simp [hshared, hd] at hp
    · refine missionInvariant_of_keepsFlags s _ h ?_
      simp [KeepsFlags, hshared]

theorem missionInvariant_handleCallCar (env : Env) (s : State) (h : MissionInvariant s) :
    MissionInvariant (handleCallCar env s) := by
  by_cases hprog : s.isTaskInProgress = true
  · by_cases hload : s.hasPickedUpGoods = true
    · rw [handleCallCar_refuse env s hprog hload]
      exact missionInvariant_of_keepsFlags s _ h (by simp [KeepsFlags])
    · rw [handleCallCar_cancel_dialog env s hprog (by simpa using hload)]
      exact missionInvariant_of_flags s _ h rfl rfl rfl rfl h.2.1 h.2.2.1
        (fun p hp => by simp at hp)
  · have hidle : s.isTaskInProgress = false := by simpa using hprog
    by_cases hweather : s.isWeatherBad = true
    · refine missionInvariant_of_keepsFlags s _ h ?_
      simp [handleCallCar, hidle, hweather, KeepsFlags, showAlert, State.emit]
    · by_cases hstart : s.startSelect = ""
      · refine missionInvariant_of_keepsFlags s _ h ?_
        simp [handleCallCar, hidle, hweather, hstart, KeepsFlags, showAlert, State.emit]
      · by_cases hend : s.endSelect = ""
        · refine missionInvariant_of_keepsFlags s _ h ?_
          simp [handleCallCar, hidle, hweather, hend, KeepsFlags, showAlert, State.emit]
        · obtain ⟨pickup, hpickup⟩ := isOptionValue_find _ h.2.1 hstart
          obtain ⟨delivery, hdelivery⟩ := isOptionValue_find _ h.2.2.1 hend
          rw [handleCallCar_start_eq env s pickup delivery hidle (by simpa using hweather)
            hstart hend hpickup hdelivery]
          refine ⟨⟨?_, ?_, ?_⟩, h.2.1, h.2.2.1, ?_⟩ <;> simp

theorem missionInvariant_clickConfirmYes (s : State) (h : MissionInvariant s) :
    MissionInvariant (clickConfirmYes s) := by
  unfold clickConfirmYes
  cases hd : s.dialog with
  | none => exact h
  | some action =>
    cases action with
    | endCurrentTask =>
      simp only [runConfirmAction]
      rw [endCurrentTask_eq]
      exact missionInvariant_idle _ rfl rfl rfl rfl h.2.1 h.2.2.1 rfl
    | executeLoadAndContinue pending =>
      simp only [runConfirmAction]
      obtain ⟨e1, e2, e3, e4, e5, e6, e7, _⟩ :=
        executeLoadAndContinue_flags pending { s with dialog := none }
      have hprog : s.isTaskInProgress = true := h.2.2.2 pending hd
      refine ⟨⟨?_, ?_, ?_⟩, ?_, ?_, ?_⟩
      · intro _
        rw [e1]
        exact hprog
      · rw [e1, e4]
        exact h.1.2.1
      · intro hp
        rw [e3] at hp
        cases hp
      · rw [e6]
        exact h.2.1
      · rw [e7]
        exact h.2.2.1
      · intro p hp
        rw [e5] at hp
        cases hp
    | emergencyResume =>
      simp only [runConfirmAction]
      rw [confirmedEmergencyResume_eq]
      exact missionInvariant_of_flags s _ h rfl rfl rfl rfl h.2.1 h.2.2.1
        (fun p hp => by simp at hp)
    | emergencyStop =>
      simp only [runConfirmAction]
      rw [confirmedEmergencyStop_eq]
      exact missionInvariant_of_flags s _ h rfl rfl rfl rfl h.2.1 h.2.2.1
        (fun p hp => by simp at hp)

theorem missionInvariant_fire (far : LngLat → LngLat → Bool) (e : Event) (s : State)
    (hid : e.idsInTable) (h : MissionInvariant s) : MissionInvariant (fire far e s) := by
  cases e with
  | startSelected value asks =>
    cases asks
    · exact missionInvariant_of_flags s _ h rfl rfl rfl rfl hid h.2.2.1
        (fun p hp => Or.inl ⟨p, hp⟩)
    · exact missionInvariant_of_flags s _ h rfl rfl rfl rfl hid h.2.2.1
        (fun p hp => by simp [fire, changeStartSelect] at hp)
  | endSelected value asks =>
    cases asks
    · exact missionInvariant_of_flags s _ h rfl rfl rfl rfl h.2.1 hid
        (fun p hp => Or.inl ⟨p, hp⟩)
    · exact missionInvariant_of_flags s _ h rfl rfl rfl rfl h.2.1 hid
        (fun p hp => by simp [fire, changeEndSelect] at hp)
  | modeSelected value =>
    exact missionInvariant_of_keepsFlags s _ h (by simp [KeepsFlags, fire, changeModeSelect])
  | drawButton =>
    exact missionInvariant_of_keepsFlags s _ h
      (by simp [KeepsFlags, fire, drawButtonClick, updateStatus_eq, showAlert, State.emit])
  | clearButton =>
    exact missionInvariant_of_keepsFlags s _ h (by simp [KeepsFlags, fire, resetCustomPath])
  | mapClicked geometryUtil lnglat => exact missionInvariant_mapClick geometryUtil lnglat s h
  | callButton env => exact missionInvariant_handleCallCar env s h
  | confirmYes => exact missionInvariant_clickConfirmYes s h
  | confirmNo =>
    exact missionInvariant_of_keepsFlags s _ h (by simp [KeepsFlags, fire, clickConfirmNo])
  | loadButton =>
    simp only [fire, confirmLoadAndContinue]
    cases hp : s.pendingDelivery with
    | none => exact missionInvariant_of_keepsFlags s _ h (keepsFlags_showAlert _ _ s)
    | some pending =>
      exact missionInvariant_of_flags s _ h rfl rfl rfl rfl h.2.1 h.2.2.1
        (fun _ _ => Or.inr (by simp [hp]))
  | deliveryButton now =>
    obtain ⟨d1, d2, d3, d4, d5, d6, d7, _⟩ := confirmDelivery_flags now s
    exact missionInvariant_idle _ d1 d2 d3 d4 (d6 ▸ h.2.1) (d7 ▸ h.2.2.1) d5
  | emergencyButton =>
    refine missionInvariant_of_flags s _ h ?_ ?_ ?_ ?_ ?_ ?_ ?_ <;>
      cases hstop : s.isEmergencyStopped <;>
      simp [fire, handleEmergencyStop, hstop, showConfirmDialog, State.emit]
    · exact h.2.1
    · exact h.2.1
    · exact h.2.2.1
    · exact h.2.2.1
  | searchAnswered i result =>
    exact missionInvariant_of_keepsFlags s _ h (keepsFlags_searchReturns far i result s)
  | movealong => exact missionInvariant_of_keepsFlags s _ h (keepsFlags_movealongEvent s)
  | weather bad =>
    cases bad <;>
      exact missionInvariant_of_keepsFlags s _ h
        (by simp [KeepsFlags, fire, handleBadWeather, handleFairWeather])
  | postStopTimer =>
    exact missionInvariant_of_keepsFlags s _ h (by simp [KeepsFlags, fire, postStopPrompt])

theorem missionInvariant_run (far : LngLat → LngLat → Bool) (events : List Event)
    (s : State) (hids : ∀ e ∈ events, e.idsInTable) (h : MissionInvariant s) :
    MissionInvariant (run far events s) := by
  induction events generalizing s with
  | nil => exact h
  | cons e rest ih =>
    exact ih (fire far e s) (fun e' he' => hids e' (List.mem_cons_of_mem e he'))
      (missionInvariant_fire far e s (hids e (List.mem_cons_self e rest)) h)

/-- C30: in every state reached from the initial state by page events (mission
requests, clicks on the confirm and cancel buttons of a dialog, load and
delivery confirmations, the emergency button, and also changes of the selects
and the mode, the draw and clear buttons, map clicks, provider answers,
arrival events, weather reports and the prompt timer), the selected ids being
option values of the selects, the mission flags are consistent:
`hasPickedUpGoods` implies `isTaskInProgress`, `isTaskInProgress` holds
exactly when `currentMission` exists, and `pendingDelivery` exists only with
`isTaskInProgress` set and `hasPickedUpGoods` not set. -/
theorem reachable_flags_consistent (far : LngLat → LngLat → Bool) (events : List Event)
    (hids : ∀ e ∈ events, e.idsInTable) :
    FlagsConsistent (run far events initialState) :=
  (missionInvariant_run far events initialState hids missionInvariant_initialState).1

/-- Witness for C30: the events of the delivery scenario up to the confirmed
load lead to the state `scenarioLoaded`, in which the cargo is loaded. -/
theorem reachable_flags_consistent_witness :
    run equatorFar scenarioEvents initialState = scenarioLoaded
    ∧ scenarioLoaded.hasPickedUpGoods = true
    ∧ scenarioLoaded.isTaskInProgress = true
    ∧ FlagsConsistent (run equatorFar scenarioEvents initialState) :=
  ⟨by with_unfolding_all rfl, by with_unfolding_all rfl, by with_unfolding_all rfl,
    reachable_flags_consistent equatorFar scenarioEvents
      (by simp [scenarioEvents, Event.idsInTable, IsOptionValue, locationOptionValues,
        locations])⟩

/-! ## Theorems: examples for clean-up, flattening and the random position -/

/-- Witness for C28: a route with the flat path of three points on the
meridian 0 whose second point is a third of a metre from the first, and a
route with a single point, returned as it is. -/
theorem extractPathFromRoute_cleaned_witness :
    NoClosePair equatorFar (extractPathFromRoute equatorFar
      ⟨none, none, some [⟨0, 0⟩, ⟨0, 0.000003⟩, ⟨0, 0.001⟩], none, none⟩)
    ∧ extractPathFromRoute equatorFar
        ⟨none, none, some [⟨0, 0⟩, ⟨0, 0.000003⟩, ⟨0, 0.001⟩], none, none⟩
        = [⟨0, 0⟩, ⟨0, 0.001⟩]
    ∧ extractPathFromRoute equatorFar ⟨none, none, some [⟨0, 0⟩], none, none⟩
        = flattenRoute ⟨none, none, some [⟨0, 0⟩], none, none⟩ :=
  ⟨(extractPathFromRoute_cleaned equatorFar
      ⟨none, none, some [⟨0, 0⟩, ⟨0, 0.000003⟩, ⟨0, 0.001⟩], none, none⟩).1,
    by with_unfolding_all rfl,
    (extractPathFromRoute_cleaned equatorFar
      ⟨none, none, some [⟨0, 0⟩], none, none⟩).2.2.2 (by decide)⟩

/-- Witness for C29: a route whose single ride has a path of one point and one
step with a path of one point, beside steps and a flat path of its own; and a
route that has no rides, no steps and no path. -/
theorem flattenRoute_priority_witness :
    flattenRoute
        ⟨some [⟨some [⟨0, 0⟩], some [⟨some [⟨0, 1⟩]⟩]⟩], some [⟨some [⟨0, 2⟩]⟩],
          some [⟨0, 3⟩], none, none⟩
      = [⟨0, 0⟩, ⟨0, 1⟩]
    ∧ flattenRoute ⟨none, none, none, none, none⟩ = []
    ∧ extractPathFromRoute equatorFar ⟨none, none, none, none, none⟩ = [] :=
  ⟨(flattenRoute_priority equatorFar
      ⟨some [⟨some [⟨0, 0⟩], some [⟨some [⟨0, 1⟩]⟩]⟩], some [⟨some [⟨0, 2⟩]⟩],
        some [⟨0, 3⟩], none, none⟩).2.2.1 (by simp [ridePoints, stepsPoints]),
    ((flattenRoute_priority equatorFar ⟨none, none, none, none, none⟩).2.2.2.2.2
      rfl rfl rfl).1,
    ((flattenRoute_priority equatorFar ⟨none, none, none, none, none⟩).2.2.2.2.2
      rfl rfl rfl).2⟩

/-! ## Theorems: the length of the merged path -/

/-- C8: for a route with waypoints `[w1..wn]` whose `n + 1` legs are all
planned successfully (every answer has status `complete` and a first route,
and the cleaned path of every leg has a point), the path that
`mergeAndShowPath` merges and hands to `moveAlong` has as many points as the
`n + 1` cleaned leg paths together, minus `n`. -/
theorem merged_length_formula (far : LngLat → LngLat → Bool) (s : State)
    (startLngLat endLngLat : LngLat) (waypoints : List LngLat)
    (results : List SearchResult)
    (hlen : results.length = waypoints.length + 1)
    (hok : ∀ r ∈ results, r.succeeded = true)
    (hne : ∀ r ∈ results, legPath far r ≠ []) :
    moveAlongsOf (callsSince s
        (searchReturnsAll far s.searchCallbacks.length results
          (planRouteWithWaypoints startLngLat endLngLat waypoints s)))
      = [mergeSegments (results.map (legPath far))]
    ∧ (mergeSegments (results.map (legPath far))).length + waypoints.length
        = ((results.map (legPath far)).map List.length).sum
    ∧ (mergeSegments (results.map (legPath far))).length
        = ((results.map (legPath far)).map List.length).sum - waypoints.length := by
  have hrun : moveAlongsOf (callsSince s
        (searchReturnsAll far s.searchCallbacks.length results
          (planRouteWithWaypoints startLngLat endLngLat waypoints s)))
      = [mergeSegments (results.map (legPath far))] := by
    rw [composer_run_finished far s startLngLat endLngLat waypoints results hok hlen,
      moveAlongsOf_mergeAndShowPath _ _ _ _ _ (moveAlongsOf_searchCmds _)]
  have hsum : (mergeSegments (results.map (legPath far))).length + waypoints.length
      = ((results.map (legPath far)).map List.length).sum := by
    cases results with
    | nil => simp at hlen
    | cons first rest =>
      have hrest : rest.length = waypoints.length := by simpa using hlen
      have hsegs : ∀ seg ∈ rest.map (legPath far), seg ≠ [] := by
        intro seg hseg
        obtain ⟨r, hr, rfl⟩ := List.mem_map.mp hseg
        exact hne r (List.mem_cons_of_mem first hr)
      have h := mergeSegments_length (legPath far first) (rest.map (legPath far)) hsegs
      rw [List.length_map, hrest] at h
      exact h
  exact ⟨hrun, hsum, by omega⟩

/-- Witness for C8: a route with one waypoint whose two legs are answered with
two-point paths; the merged path has `2 + 2 - 1 = 3` points. -/
theorem merged_length_formula_witness :
    (mergeSegments ([pathAnswer [⟨0, 0⟩, ⟨0, 1⟩], pathAnswer [⟨0, 1⟩, ⟨0, 2⟩]].map
      (legPath equatorFar))).length = 3
    ∧ moveAlongsOf (callsSince initialState
        (searchReturnsAll equatorFar 0 [pathAnswer [⟨0, 0⟩, ⟨0, 1⟩], pathAnswer [⟨0, 1⟩, ⟨0, 2⟩]]
          (planRouteWithWaypoints ⟨0, 0⟩ ⟨0, 2⟩ [⟨0, 1⟩] initialState)))
      = [mergeSegments ([pathAnswer [⟨0, 0⟩, ⟨0, 1⟩], pathAnswer [⟨0, 1⟩, ⟨0, 2⟩]].map
          (legPath equatorFar))] :=
  have h2 : legPath equatorFar (pathAnswer [⟨0, 1⟩, ⟨0, 2⟩]) = [⟨0, 1⟩, ⟨0, 2⟩] := by
    simp [legPath, firstRoute, pathAnswer, extractPathFromRoute, flattenRoute,
      cleanPath, cleanStep, equatorFar, planarFar]
    norm_num
  have hok : ∀ r ∈ [pathAnswer [⟨0, 0⟩, ⟨0, 1⟩], pathAnswer [⟨0, 1⟩, ⟨0, 2⟩]],
      r.succeeded = true := by
    intro r hr
    simp only [List.mem_cons, List.mem_singleton, List.not_mem_nil, or_false] at hr
    rcases hr with rfl | rfl <;> rfl
  have hne : ∀ r ∈ [pathAnswer [⟨0, 0⟩, ⟨0, 1⟩], pathAnswer [⟨0, 1⟩, ⟨0, 2⟩]],
      legPath equatorFar r ≠ [] := by
    intro r hr
    simp only [List.mem_cons, List.mem_singleton, List.not_mem_nil, or_false] at hr
    rcases hr with rfl | rfl
    · rw [legPath_pathAnswer_pair]
      simp
    · rw [h2]
      simp
  have h := merged_length_formula equatorFar initialState ⟨0, 0⟩ ⟨0, 2⟩ [⟨0, 1⟩]
    [pathAnswer [⟨0, 0⟩, ⟨0, 1⟩], pathAnswer [⟨0, 1⟩, ⟨0, 2⟩]] rfl hok hne
  have hsum : (([pathAnswer [⟨0, 0⟩, ⟨0, 1⟩], pathAnswer [⟨0, 1⟩, ⟨0, 2⟩]].map
      (legPath equatorFar)).map List.length).sum = 4 := by
    simp only [List.map_cons, List.map_nil, legPath_pathAnswer_pair, h2]
    rfl
  ⟨by rw [h.2.2, hsum]; rfl, h.1⟩

/-! ## Theorems: what the call button checks of the selection -/

/-- C11, amended: `handleCallCar` does not compare the selected ids; the only
selection it rejects is an empty one.  A request made while no task is in
progress and the weather is good is rejected when the pickup or the delivery
selection is empty: the state changes only by the alert, so `isTaskInProgress`
stays false, no mission record, pending delivery or transport code is created
and no routing request is issued.  With pickup id = delivery id = the id of a
location `loc` of the table the request is accepted: the task is in progress
with the cargo not loaded, the mission record names `loc` twice, the pending
delivery has the position of `loc` as pickup and as delivery position, a
transport code is generated, the status is `calculating` and one routing
request, from the vehicle to `loc`, is issued. -/
theorem handleCallCar_rejects_only_empty_selection (env : Env) (s : State) (loc : Location)
    (hloc : loc ∈ locations)
    (hprog : s.isTaskInProgress = false) (hweather : s.isWeatherBad = false) :
    ((s.startSelect = "" ∨ s.endSelect = "") →
      handleCallCar env s
        = { s with dialog := none,
                   trace := s.trace ++ [.showAlert "请先选择起点和终点！" "⚠️ 注意"] }
      ∧ (handleCallCar env s).isTaskInProgress = false
      ∧ SameMission s (handleCallCar env s)
      ∧ NoRouting s (handleCallCar env s))
    ∧ (s.startSelect = loc.id → s.endSelect = loc.id →
      (handleCallCar env s).isTaskInProgress = true
      ∧ (handleCallCar env s).hasPickedUpGoods = false
      ∧ (handleCallCar env s).currentMission = some ⟨loc.name, loc.name, env.now⟩
      ∧ (handleCallCar env s).pendingDelivery
          = some ⟨loc.position, loc.position,
              if s.modeSelect = "custom" then s.customViaPoints else []⟩
      ∧ (handleCallCar env s).transportCode = generateTransportCode env.rand
      ∧ (handleCallCar env s).status = ⟨.calculating, "路径计算中..."⟩
      ∧ (handleCallCar env s).searchCallbacks = s.searchCallbacks ++ [.toPickup]
      ∧ searchesOf (callsSince s (handleCallCar env s)) = [(env.carPos, loc.position)]) := by
  refine ⟨?_, ?_⟩
  · intro hempty
    have hcall : handleCallCar env s
        = { s with dialog := none,
                   trace := s.trace ++ [.showAlert "请先选择起点和终点！" "⚠️ 注意"] } := by
      rcases hempty with h | h <;>
        simp [handleCallCar, hprog, hweather, h, showAlert, State.emit]
    refine ⟨hcall, ?_, ?_, ?_⟩
    · rw [hcall]; exact hprog
    · rw [hcall]; simp [SameMission]
    · rw [hcall]; simp [NoRouting, callsSince, searchesOf]
  · intro hstart hend
    obtain ⟨hfind, hne⟩ := locations_find_id loc hloc
    rw [handleCallCar_start_eq env s loc loc hprog hweather (by rw [hstart]; exact hne)
      (by rw [hend]; exact hne) (by rw [hstart]; exact hfind) (by rw [hend]; exact hfind)]
    refine ⟨rfl, rfl, rfl, rfl, rfl, rfl, rfl, ?_⟩
    simp [callsSince, searchesOf]

/-- Witness for C11 (amended): the call button pressed in the initial state,
where nothing is selected, and with `dorm_a` selected both as pickup point and
as delivery point. -/
theorem handleCallCar_rejects_only_empty_selection_witness :
    initialState.startSelect = ""
    ∧ (handleCallCar exampleEnv initialState).isTaskInProgress = false
    ∧ NoRouting initialState (handleCallCar exampleEnv initialState)
    ∧ sameSelectedState.startSelect = "dorm_a"
    ∧ sameSelectedState.endSelect = "dorm_a"
    ∧ (handleCallCar exampleEnv sameSelectedState).isTaskInProgress = true
    ∧ (handleCallCar exampleEnv sameSelectedState).currentMission
        = some ⟨"桃园5-6栋", "桃园5-6栋", exampleEnv.now⟩
    ∧ searchesOf (callsSince sameSelectedState (handleCallCar exampleEnv sameSelectedState))
        = [(exampleEnv.carPos, ⟨118.827694, 31.890928⟩)] :=
  have h0 := (handleCallCar_rejects_only_empty_selection exampleEnv initialState
    ⟨"dorm_a", "桃园5-6栋", "dorm", ⟨118.827694, 31.890928⟩, false⟩
    (by simp [locations]) rfl rfl).1 (Or.inl rfl)
  have h1 := (handleCallCar_rejects_only_empty_selection exampleEnv sameSelectedState
    ⟨"dorm_a", "桃园5-6栋", "dorm", ⟨118.827694, 31.890928⟩, false⟩
    (by simp [locations]) rfl rfl).2 rfl rfl
  ⟨rfl, h0.2.1, h0.2.2.2, rfl, rfl, h1.1, h1.2.2.1, h1.2.2.2.2.2.2.2⟩

end Dispatch
